import Mathlib

/-! # The Lucas-Kanade feature tracker of aslam_cv2

A shallow embedding of `aslam_cv_tracker/src/feature-tracker-lk.cc` and of the
parts of `aslam_cv/src/visual-frame.cc` it uses, followed by the properties of
the tracking pipeline that are proved about it.

Conventions of the embedding.

* `float` and `double` values are rationals: comparisons and arithmetic are
  exact, rounding, infinities and NaN are outside the model. The scores of the
  gfft detector are the exception: they are integers that the code rounds to
  double and to float, and the model rounds them.
* A fatal `CHECK` or `LOG(FATAL)` is the result `none`.
* OpenCV and brisk routines, and helper functions whose code is not part of the
  translated sources, are fields of `Externals`: the pipeline is embedded for
  every behaviour of them.
* `std::vector` is `List`, a mutable object is passed in and returned.
-/

namespace aslam

/-! ## OpenCV value types -/

/-- A cv::Point2f, a pixel position: `x` runs along the columns, `y` along the rows. -/
structure Point2f where
  x : ℚ
  y : ℚ
deriving DecidableEq

/-- A cv::KeyPoint: position, diameter, orientation and detector response. -/
structure KeyPoint where
  pt : Point2f
  size : ℚ
  angle : ℚ
  response : ℚ
deriving DecidableEq

/-- A single channel 8 bit cv::Mat (an image or a detection mask): its size and the value of
each pixel. -/
structure Mat where
  rows : Nat
  cols : Nat
  px : Nat → Nat → Nat

/-- Squared Euclidean distance of two pixel positions, `(a - b).squaredNorm()`. -/
def squaredNorm (x1 y1 x2 y2 : ℚ) : ℚ :=
  (x1 - x2) * (x1 - x2) + (y1 - y2) * (y1 - y2)

/-! ## The occupancy grid

The class OccupancyGrid and its point type WeightedKeypoint are declared in a header
that is not among the translated sources. -/

/-- The values of OccupancyGrid::WeightType: the finite weights together with the largest
representable one, `std::numeric_limits<WeightType>::max()`, which no weight exceeds. -/
inductive Weight where
  | val (w : ℚ)
  | max
deriving DecidableEq

/-- Strict order of weights: `a.lt b` is `a < b`; nothing is above `Weight.max`. -/
def Weight.lt : Weight → Weight → Bool
  | .val a, .val b => decide (a < b)
  | .val _, .max => true
  | .max, _ => false

/-- Modelled from the spec: the WeightedPoint of the data model (position, weight,
correspondence id), whose declaration is missing. The tracker builds it as
`WeightedKeypoint(keypoint, row, col, weight, id)` and reads the members `point`, `weight`
and `id`; the five constructor arguments are stored member by member, so `point` is the
cv::KeyPoint that was handed in and `(u_rows, v_cols)` is the position the grid works with. -/
structure WeightedKeypoint where
  point : KeyPoint
  u_rows : ℚ
  v_cols : ℚ
  weight : Weight
  id : Int
deriving DecidableEq

/-- Modelled from the spec: the OccupancyGrid of the data model. The dimensions of the
image, the cell size, and the retained points. `points` lists the retained points in the order
of their insertion; the cell of a point is computed from its position (`cell`). -/
structure OccupancyGrid where
  max_input_coordinate_rows : ℚ
  max_input_coordinate_cols : ℚ
  cell_size_rows : ℚ
  cell_size_cols : ℚ
  points : List WeightedKeypoint
deriving DecidableEq

namespace OccupancyGrid

/-- Modelled from the spec: the constructor `OccupancyGrid(rows, cols, cell_rows, cell_cols)`
of an empty grid. -/
def create (rows cols cell_size_rows cell_size_cols : ℚ) : OccupancyGrid :=
  ⟨rows, cols, cell_size_rows, cell_size_cols, []⟩

/-- Row index of the cell that contains the point. -/
def cellRow (g : OccupancyGrid) (p : WeightedKeypoint) : Int :=
  ⌊p.u_rows / g.cell_size_rows⌋

/-- Column index of the cell that contains the point. -/
def cellCol (g : OccupancyGrid) (p : WeightedKeypoint) : Int :=
  ⌊p.v_cols / g.cell_size_cols⌋

/-- Modelled from the spec: the storage, a mapping from a cell coordinate to the list of the
points that occupy the cell. -/
def cell (g : OccupancyGrid) (r c : Int) : List WeightedKeypoint :=
  g.points.filter (fun p => decide (g.cellRow p = r ∧ g.cellCol p = c))

/-- The point `q` lies in the cell of `p` or in one of the eight cells around it. -/
def inNeighbourCells (g : OccupancyGrid) (p q : WeightedKeypoint) : Bool :=
  decide (Int.natAbs (g.cellRow q - g.cellRow p) ≤ 1 ∧ Int.natAbs (g.cellCol q - g.cellCol p) ≤ 1)

/-- The Euclidean distance of `p` and `q` is below `min_distance` (compared by squares). -/
def closerThan (min_distance : ℚ) (p q : WeightedKeypoint) : Bool :=
  decide (0 < min_distance ∧
    squaredNorm q.v_cols q.u_rows p.v_cols p.u_rows < min_distance * min_distance)

/-- Modelled from the spec: `q` is a retained point that conflicts with the new point `p`: it
is found in the cell of `p` or a neighbouring cell and is within `min_distance` of `p`. -/
def conflictsWith (g : OccupancyGrid) (min_distance : ℚ) (p q : WeightedKeypoint) : Bool :=
  g.inNeighbourCells p q && closerThan min_distance p q

/-- The weight of the weakest point of a non-empty list `c :: cs`. -/
def weakestWeight (c : WeightedKeypoint) (cs : List WeightedKeypoint) : Weight :=
  cs.foldl (fun w q => if q.weight.lt w then q.weight else w) c.weight

/-- The point lies inside the image the grid was made for. -/
def inGrid (g : OccupancyGrid) (p : WeightedKeypoint) : Prop :=
  0 ≤ p.u_rows ∧ p.u_rows < g.max_input_coordinate_rows ∧
  0 ≤ p.v_cols ∧ p.v_cols < g.max_input_coordinate_cols

instance (g : OccupancyGrid) (p : WeightedKeypoint) : Decidable (g.inGrid p) := by
  unfold inGrid; infer_instance

/-- Modelled from the spec: `addPointOrReplaceWeakestNearestPoints(point, min_distance)`.
A point outside the image is a fatal precondition violation. Without a conflicting point the
point is inserted. Otherwise it replaces all conflicting points if its weight is strictly
greater than that of the weakest of them, and is discarded if not (a tie keeps the existing
points). -/
def addPointOrReplaceWeakestNearestPoints (g : OccupancyGrid) (point : WeightedKeypoint)
    (min_distance : ℚ) : Option OccupancyGrid :=
  if g.inGrid point then
    match g.points.filter (g.conflictsWith min_distance point) with
    | [] => some { g with points := g.points ++ [point] }
    | c :: cs =>
      if (weakestWeight c cs).lt point.weight then
        some { g with
          points := g.points.filter (fun q => !g.conflictsWith min_distance point q) ++ [point] }
      else some g
  else none

/-- Modelled from the spec: `getNumPoints()`, the count of the retained points. -/
def getNumPoints (g : OccupancyGrid) : Nat :=
  g.points.length

/-- Number of cell rows of the grid. -/
def numCellRows (g : OccupancyGrid) : Nat :=
  ⌈g.max_input_coordinate_rows / g.cell_size_rows⌉.toNat

/-- Number of cell columns of the grid. -/
def numCellCols (g : OccupancyGrid) : Nat :=
  ⌈g.max_input_coordinate_cols / g.cell_size_cols⌉.toNat

/-- Modelled from the spec: `getAllPointsInGrid`, all retained points in cell order: the
cells row by row, the points of a cell in the order of their insertion. -/
def getAllPointsInGrid (g : OccupancyGrid) : List WeightedKeypoint :=
  (List.range g.numCellRows).flatMap fun r =>
    (List.range g.numCellCols).flatMap fun c => g.cell (r : Int) (c : Int)

/-- Modelled from the spec: `setConstantWeightForAllPointsInGrid(w)` overwrites the weight of
every retained point. -/
def setConstantWeightForAllPointsInGrid (g : OccupancyGrid) (w : Weight) : OccupancyGrid :=
  { g with points := g.points.map fun p => { p with weight := w } }

/-- Modelled from the spec: `getOccupancyMask(min_distance, max_points_per_cell)` rasterizes
the occupancy: a pixel is 0 when a retained point is within `radius` of it or when its
cell holds at least `max_points_per_cell` points, and 255 otherwise. -/
def getOccupancyMask (g : OccupancyGrid) (radius : ℚ) (max_points_per_cell : Nat) : Mat where
  rows := ⌈g.max_input_coordinate_rows⌉.toNat
  cols := ⌈g.max_input_coordinate_cols⌉.toNat
  px := fun r c =>
    if g.points.any (fun p => decide (squaredNorm c r p.v_cols p.u_rows ≤ radius * radius)) ||
        decide (max_points_per_cell ≤
          (g.cell ⌊(r : ℚ) / g.cell_size_rows⌋ ⌊(c : ℚ) / g.cell_size_cols⌋).length)
    then 0 else 255

end OccupancyGrid

/-! ## Frames, cameras and settings -/

/-- Modelled from the spec: a frame or camera id (aslam::FrameId, aslam::CameraId, declared in
a header that is missing): a hash value, the value 0 being the invalid id. -/
structure UniqueId where
  hash : Nat
deriving DecidableEq

/-- The id is a valid one, `isValid()`. -/
def UniqueId.isValid (i : UniqueId) : Bool :=
  i.hash != 0

/-- The invalid id that `setInvalid()` stores. -/
def UniqueId.invalid : UniqueId :=
  ⟨0⟩

/-- The camera as the tracker and the camera rig use it: its id, the image size, the optional
mask and the parameters of its distortion (none is the null distortion). -/
structure Camera where
  id : UniqueId
  imageWidth : Nat
  imageHeight : Nat
  mask : Option Mat := none
  distortion : Option (List ℚ) := none

/-- The conversion `static_cast<int>(index)` of a size_t value to the 32-bit int: the low 32
bits, read as a number in two's complement. -/
def static_cast_int (index : Nat) : Int :=
  if index % 2 ^ 32 < 2 ^ 31 then ((index % 2 ^ 32 : Nat) : Int)
  else ((index % 2 ^ 32 : Nat) : Int) - 2 ^ 32

/-- The ways in which an access to the data of a frame goes wrong: a CHECK fails, which is
fatal, or the access reads outside the stored data, which is undefined behaviour. -/
inductive AccessError where
  | checkFailed
  | outOfBounds
deriving DecidableEq

/-- The member `data.coeff(row, col)` of an Eigen column vector (VectorXd, VectorXi): the
element at the offset `row + col * rows` of the storage. coeff does not check the range; an
offset outside the storage is a read outside the stored data. -/
def coeff {α : Type} (data : List α) (row col : Nat) : Except AccessError α :=
  match data[row + col * data.length]? with
  | some value => Except.ok value
  | none => Except.error AccessError.outOfBounds

/-- The VisualFrame of visual-frame.cc: its id, the camera geometry pointer (none is the null
pointer) and its channels; a channel that was never added is `none`. The columns of the 2xN
keypoint matrix are a list of positions. -/
structure VisualFrame where
  id : UniqueId
  camera_geometry : Option Camera
  raw_image : Option Mat := none
  keypoint_measurements : Option (List Point2f) := none
  keypoint_measurement_uncertainties : Option (List ℚ) := none
  keypoint_orientations : Option (List ℚ) := none
  keypoint_scores : Option (List ℚ) := none
  keypoint_scales : Option (List ℚ) := none
  track_ids : Option (List Int) := none
  descriptors : Option (List (List Nat)) := none

namespace VisualFrame

/-- The frame has the keypoint measurement channel, visual-frame.cc line 29. -/
def hasKeypointMeasurements (f : VisualFrame) : Bool :=
  f.keypoint_measurements.isSome

/-- The frame has the track id channel, visual-frame.cc line 47. -/
def hasTrackIds (f : VisualFrame) : Bool :=
  f.track_ids.isSome

/-- The frame has the raw image channel, visual-frame.cc line 50. -/
def hasRawImage (f : VisualFrame) : Bool :=
  f.raw_image.isSome

/-- The data of the keypoint channel, visual-frame.cc line 54; reading a channel that does
not exist is fatal. -/
def getKeypointMeasurements (f : VisualFrame) : Option (List Point2f) :=
  f.keypoint_measurements

/-- The raw image, visual-frame.cc line 75; fatal without the channel. -/
def getRawImage (f : VisualFrame) : Option Mat :=
  f.raw_image

/-- Modelled from the spec: `getNumKeypointMeasurements()` of the missing header
visual-frame.h, the number of columns of the keypoint matrix. What the accessor does on a
frame without the keypoint channel is not visible in the sources and is the parameter
`without_channel` (none: fatal, some n: it returns n). -/
def getNumKeypointMeasurements (without_channel : Option Nat) (f : VisualFrame) : Option Nat :=
  match f.keypoint_measurements with
  | some m => some m.length
  | none => without_channel

/-- The condition `!frame.hasKeypointMeasurements() || frame.getNumKeypointMeasurements() == 0u`
of lines 137, 272 and 487; the count is read only if the channel exists. -/
def hasNoKeypointMeasurements (f : VisualFrame) : Bool :=
  match f.keypoint_measurements with
  | none => true
  | some m => m.length == 0

/-- The condition `!frame.hasTrackIds() || frame.getTrackIds().rows() == 0` of line 273. -/
def hasNoTrackIds (f : VisualFrame) : Bool :=
  match f.track_ids with
  | none => true
  | some ids => ids.length == 0

/-- The setter of the keypoint channel, visual-frame.cc lines 164-172. -/
def setKeypointMeasurements (f : VisualFrame) (keypoints_new : List Point2f) : VisualFrame :=
  { f with keypoint_measurements := some keypoints_new }

/-- The setter of the uncertainty channel, visual-frame.cc lines 173-181. -/
def setKeypointMeasurementUncertainties (f : VisualFrame) (uncertainties_new : List ℚ) :
    VisualFrame :=
  { f with keypoint_measurement_uncertainties := some uncertainties_new }

/-- The setter of the scale channel, visual-frame.cc lines 182-190. -/
def setKeypointScales (f : VisualFrame) (scales_new : List ℚ) : VisualFrame :=
  { f with keypoint_scales := some scales_new }

/-- The setter of the orientation channel, visual-frame.cc lines 191-199. -/
def setKeypointOrientations (f : VisualFrame) (orientations_new : List ℚ) : VisualFrame :=
  { f with keypoint_orientations := some orientations_new }

/-- The setter of the score channel, visual-frame.cc lines 200-208. -/
def setKeypointScores (f : VisualFrame) (scores_new : List ℚ) : VisualFrame :=
  { f with keypoint_scores := some scores_new }

/-- The setter of the descriptor channel, visual-frame.cc lines 209-217; the matrix is the
list of its columns. -/
def setDescriptors (f : VisualFrame) (descriptors_new : List (List Nat)) : VisualFrame :=
  { f with descriptors := some descriptors_new }

/-- The setter of the track id channel, visual-frame.cc lines 227-234. -/
def setTrackIds (f : VisualFrame) (track_ids_new : List Int) : VisualFrame :=
  { f with track_ids := some track_ids_new }

/-- The accessor getKeypointMeasurement, visual-frame.cc lines 120-126: the check compares
the index converted to int with the number of columns, then column `index` is read. Reading
the data of a channel that does not exist is fatal. -/
def getKeypointMeasurement (f : VisualFrame) (index : Nat) : Except AccessError Point2f :=
  match f.keypoint_measurements with
  | none => Except.error AccessError.checkFailed
  | some keypoints =>
    if static_cast_int index < (keypoints.length : Int) then
      match keypoints[index]? with
      | some keypoint => Except.ok keypoint
      | none => Except.error AccessError.outOfBounds
    else Except.error AccessError.checkFailed

/-- The accessor getKeypointMeasurementUncertainty, visual-frame.cc lines 127-132; it reads
`data.coeff(0, index)`. -/
def getKeypointMeasurementUncertainty (f : VisualFrame) (index : Nat) :
    Except AccessError ℚ :=
  match f.keypoint_measurement_uncertainties with
  | none => Except.error AccessError.checkFailed
  | some data =>
    if static_cast_int index < (data.length : Int) then coeff data 0 index
    else Except.error AccessError.checkFailed

/-- The accessor getKeypointScale, visual-frame.cc lines 133-138; it reads
`data.coeff(index, 0)`. -/
def getKeypointScale (f : VisualFrame) (index : Nat) : Except AccessError ℚ :=
  match f.keypoint_scales with
  | none => Except.error AccessError.checkFailed
  | some data =>
    if static_cast_int index < (data.length : Int) then coeff data index 0
    else Except.error AccessError.checkFailed

/-- The accessor getKeypointOrientation, visual-frame.cc lines 139-144. -/
def getKeypointOrientation (f : VisualFrame) (index : Nat) : Except AccessError ℚ :=
  match f.keypoint_orientations with
  | none => Except.error AccessError.checkFailed
  | some data =>
    if static_cast_int index < (data.length : Int) then coeff data index 0
    else Except.error AccessError.checkFailed

/-- The accessor getKeypointScore, visual-frame.cc lines 145-150. -/
def getKeypointScore (f : VisualFrame) (index : Nat) : Except AccessError ℚ :=
  match f.keypoint_scores with
  | none => Except.error AccessError.checkFailed
  | some data =>
    if static_cast_int index < (data.length : Int) then coeff data index 0
    else Except.error AccessError.checkFailed

/-- The accessor getDescriptor, visual-frame.cc lines 151-156: the check compares the index
with the number of columns; the result points to the first byte of column `index`, here the
column. -/
def getDescriptor (f : VisualFrame) (index : Nat) : Except AccessError (List Nat) :=
  match f.descriptors with
  | none => Except.error AccessError.checkFailed
  | some descriptors =>
    if static_cast_int index < (descriptors.length : Int) then
      match descriptors[index]? with
      | some descriptor => Except.ok descriptor
      | none => Except.error AccessError.outOfBounds
    else Except.error AccessError.checkFailed

/-- The accessor getTrackId, visual-frame.cc lines 157-162. -/
def getTrackId (f : VisualFrame) (index : Nat) : Except AccessError Int :=
  match f.track_ids with
  | none => Except.error AccessError.checkFailed
  | some track_ids =>
    if static_cast_int index < (track_ids.length : Int) then coeff track_ids index 0
    else Except.error AccessError.checkFailed

end VisualFrame

/-- A bearing vector, Eigen::Vector3d. -/
structure Vector3d where
  x : ℚ
  y : ℚ
  z : ℚ
deriving DecidableEq

/-- The result of a projection, aslam::ProjectionResult, with the states of its status (the
class is declared in a header that is not among the sources). -/
inductive ProjectionResult where
  | KEYPOINT_VISIBLE
  | KEYPOINT_OUTSIDE_IMAGE_BOX
  | POINT_BEHIND_CAMERA
  | PROJECTION_INVALID
  | UNINITIALIZED
deriving DecidableEq

/-- The projection routines of an aslam::Camera that the frame calls; they are virtual
functions of a class whose code is not among the sources. An out-parameter is part of the
result: backProject3 returns the bearing and its success, project3 the image coordinates and
the result of the projection, the vectorized routines the same for every column. -/
structure CameraProjection where
  backProject3 : Point2f → Vector3d × Bool
  project3 : Vector3d → Point2f × ProjectionResult
  backProject3Vectorized : List Point2f → List Vector3d × List Bool
  project3Vectorized : List Vector3d → List Point2f × List ProjectionResult

/-- The function toRawImageCoordinates, visual-frame.cc lines 342-354, for the projection
routines of the members camera_geometry_ and raw_camera_geometry_ of the frame; a null pointer
in them is outside the model. `out_image_coordinates` is the value behind the out-parameter
before the call; the function returns the value after it and the result. -/
def VisualFrame.toRawImageCoordinates (camera_geometry raw_camera_geometry : CameraProjection)
    (keypoint : Point2f) (out_image_coordinates : Point2f) : Point2f × ProjectionResult :=
  if (camera_geometry.backProject3 keypoint).2 then
    raw_camera_geometry.project3 (camera_geometry.backProject3 keypoint).1
  else (out_image_coordinates, ProjectionResult.PROJECTION_INVALID)

/-- The loop of visual-frame.cc lines 365-369 from index `i` on: the result of every column
whose back-projection failed becomes PROJECTION_INVALID. A write behind the end of `results`
is undefined behaviour, `none`. -/
def VisualFrame.invalidateResults :
    List Bool → Nat → List ProjectionResult → Option (List ProjectionResult)
  | [], _, results => some results
  | success_i :: success, i, results =>
    if !success_i then
      if i < results.length then
        invalidateResults success (i + 1) (results.set i ProjectionResult.PROJECTION_INVALID)
      else none
    else invalidateResults success (i + 1) results

/-- The function toRawImageCoordinatesVectorized, visual-frame.cc lines 356-370: the image
coordinates and the results of all columns. -/
def VisualFrame.toRawImageCoordinatesVectorized
    (camera_geometry raw_camera_geometry : CameraProjection) (keypoints : List Point2f) :
    Option (List Point2f × List ProjectionResult) :=
  match VisualFrame.invalidateResults (camera_geometry.backProject3Vectorized keypoints).2 0
      (raw_camera_geometry.project3Vectorized
        (camera_geometry.backProject3Vectorized keypoints).1).2 with
  | none => none
  | some results =>
    some ((raw_camera_geometry.project3Vectorized
      (camera_geometry.backProject3Vectorized keypoints).1).1, results)

/-- Modelled from the spec: `insertCvKeypointsIntoEmptyVisualFrame` of the tracking helpers,
whose code is missing: it writes the positions of the keypoints into the keypoint storage of
the frame, in the same order, with the fixed uncertainty for each of them. -/
def insertCvKeypointsIntoEmptyVisualFrame (new_keypoints : List KeyPoint)
    (fixed_keypoint_uncertainty_px : ℚ) (frame : VisualFrame) : VisualFrame :=
  (frame.setKeypointMeasurements (new_keypoints.map fun k => k.pt)).setKeypointMeasurementUncertainties
    (new_keypoints.map fun _ => fixed_keypoint_uncertainty_px)

/-- The detector types of LkTrackerSettings. -/
inductive DetectorType where
  | kBriskDetector
  | kOcvGfft
  | kOcvBrisk
  | kOcvSurf
deriving DecidableEq

/-- The settings of the tracker, lines 44-62; the defaults are those of the flags. -/
structure LkTrackerSettings where
  detector_type : DetectorType := .kOcvBrisk
  ocv_brisk_detector_octaves : Int := 0
  ocv_brisk_detector_patternScale : ℚ := 1
  ocv_brisk_detector_threshold : Int := 20
  brisk_detector_octaves : Nat := 1
  brisk_detector_uniformity_radius_px : Nat := 0
  brisk_detector_absolute_threshold : Nat := 45
  min_distance_between_features_px : ℚ := 5
  max_feature_count : Nat := 750
  min_feature_count : Nat := 500
  lk_min_eigen_threshold : ℚ := 1 / 1000
  lk_max_pyramid_level : Nat := 3
  lk_window_size : Nat := 21

/-- The checks of the LkTrackerSettings constructor, lines 63-71. -/
def LkTrackerSettings.checks (s : LkTrackerSettings) : Prop :=
  0 ≤ s.ocv_brisk_detector_octaves ∧ 0 < s.ocv_brisk_detector_patternScale ∧
  0 ≤ s.ocv_brisk_detector_threshold ∧ 0 ≤ s.brisk_detector_octaves ∧
  1 < s.min_distance_between_features_px ∧ 0 < s.min_feature_count ∧
  s.min_feature_count < s.max_feature_count ∧ 0 < s.lk_min_eigen_threshold ∧
  0 < s.lk_window_size

instance (s : LkTrackerSettings) : Decidable s.checks := by
  unfold LkTrackerSettings.checks; infer_instance

/-- The function convertStringToDetectorType, lines 74-86: the detector type that the string
names; the comparison is that of std::string, and an unknown string is fatal. -/
def LkTrackerSettings.convertStringToDetectorType (detector_string : String) :
    Option DetectorType :=
  if detector_string = "brisk" then some DetectorType.kBriskDetector
  else if detector_string = "ocvgfft" then some DetectorType.kOcvGfft
  else if detector_string = "ocvbrisk" then some DetectorType.kOcvBrisk
  else if detector_string = "ocvsurf" then some DetectorType.kOcvSurf
  else none

/-- The constructor of LkTrackerSettings, lines 44-72: the detector type is converted from the
flag `FLAGS_lk_detector_type`, the other members are copied from their flags, here the members
of `flags`, and the checks of lines 63-71 are made. -/
def LkTrackerSettings.create (FLAGS_lk_detector_type : String) (flags : LkTrackerSettings) :
    Option LkTrackerSettings :=
  match LkTrackerSettings.convertStringToDetectorType FLAGS_lk_detector_type with
  | none => none
  | some detector_type =>
    if ({ flags with detector_type := detector_type } : LkTrackerSettings).checks then
      some { flags with detector_type := detector_type }
    else none

/-- The match that track emits, `(index in frame k+1, index in frame k, score)`. -/
structure FrameToFrameMatchWithScore where
  keypoint_index_kp1 : Nat
  keypoint_index_k : Int
  score : Weight
deriving DecidableEq

/-- The rotation prior handed to track; the tracker only passes it on. -/
structure Quaternion where
  w : ℚ
  x : ℚ
  y : ℚ
  z : ℚ

/-- The routines the tracker calls whose code is outside the translated sources, and the
process-wide flags it reads.

* `detect`: `detector_->detect(image, keypoints, mask)` of the OpenCV detector built in the
  constructor; `retainBest`: cv::KeyPointsFilter::retainBest.
* `briskDetect`: the brisk scale space detector built for a keypoint budget, applied to the
  image (it ignores the mask).
* `goodFeaturesToTrack`, `cornerSubPix`, `calcOpticalFlowPyrLK`: the OpenCV routines; the flow
  returns the positions, the status flags and the errors.
* `predictKeypointsByRotation`, `getCvKeypointsFromFrame`: helpers of the tracker library.
* `num_keypoints_without_channel`: see `VisualFrame.getNumKeypointMeasurements`. -/
structure Externals where
  detect : Mat → Mat → List KeyPoint
  retainBest : List KeyPoint → Nat → List KeyPoint
  briskDetect : Nat → Mat → List KeyPoint
  goodFeaturesToTrack : Mat → Nat → ℚ → Mat → List Point2f
  cornerSubPix : Mat → List Point2f → List Point2f
  calcOpticalFlowPyrLK : Mat → Mat → List Point2f → List Point2f →
    List Point2f × List Bool × List ℚ
  predictKeypointsByRotation : VisualFrame → Quaternion → List Point2f × List Bool
  getCvKeypointsFromFrame : VisualFrame → Option (List KeyPoint)
  num_keypoints_without_channel : Option Nat
  FLAGS_lk_keypoint_search_radius_pixels_squared : ℚ := 3
  FLAGS_lk_max_tracking_error : ℚ := 1

/-! ## The tracker -/

/-- The FeatureTrackerLk object. `kMinDistanceToImageBorderPx` and `kKeypointUncertaintyPx` are
constants of the missing header and are parameters here. The abort set is a std::unordered_set
of which only membership and emptiness are used. An object exists only after the constructor
passed the two border checks of lines 98-99, which the last two fields record. -/
structure FeatureTrackerLk where
  camera : Camera
  settings : LkTrackerSettings
  kMinDistanceToImageBorderPx : Nat
  kKeypointUncertaintyPx : ℚ
  detection_mask_image_border : Mat
  keypoint_indices_to_abort : List Nat
  abort_keypoints_wrt_frame_id : UniqueId
  border_width_checked : 2 * kMinDistanceToImageBorderPx < camera.imageWidth
  border_height_checked : 2 * kMinDistanceToImageBorderPx < camera.imageHeight

/-- Subtraction of two size_t values, which wraps modulo 2^64 below zero. -/
def sizeSub (a b : Nat) : Nat :=
  if b ≤ a then a - b else a + 2 ^ 64 - b

/-- The rounding `cvRound` of OpenCV, with which a Point2f becomes a Point: to the nearest
integer, a value halfway between two integers to the even one. -/
def cvRound (value : ℚ) : Int :=
  if value - ⌊value⌋ < 1 / 2 then ⌊value⌋
  else if 1 / 2 < value - ⌊value⌋ then ⌊value⌋ + 1
  else if ⌊value⌋ % 2 = 0 then ⌊value⌋
  else ⌊value⌋ + 1

/-- The value of `detection_mask.at<unsigned char>(pt)`: the position is converted to a Point
with cvRound, and the pixel in that row and column is read. -/
def Mat.atPoint (m : Mat) (pt : Point2f) : Nat :=
  m.px (cvRound pt.y).toNat (cvRound pt.x).toNat

/-- The unit in the last place of the integer `m` in a binary floating point format with a
significand of `p` bits: the least power of two `ulp`, from `ulp` on, with `m / ulp < 2 ^ p`;
`fuel` bounds the search. -/
def unitInLastPlace (p m : Nat) : Nat → Nat → Nat
  | 0, ulp => ulp
  | fuel + 1, ulp => if m / ulp < 2 ^ p then ulp else unitInLastPlace p m fuel (2 * ulp)

/-- The integer `v` rounded to a binary floating point format with a significand of `p` bits,
to the nearest value of the format and to the one with the even significand halfway between
two of them. The exponent range of the format is not reached by the values of the model. -/
def roundToSignificand (p : Nat) (v : Int) : Int :=
  let ulp := unitInLastPlace p v.natAbs v.natAbs 1
  let q := v.natAbs / ulp
  let r := v.natAbs % ulp
  let rounded := if 2 * r < ulp ∨ (2 * r = ulp ∧ q % 2 = 0) then q * ulp else (q + 1) * ulp
  if 0 ≤ v then (rounded : Int) else -(rounded : Int)

/-- The conversion of an integer value to float, which has a significand of 24 bits. -/
def toFloat (v : Int) : Int :=
  roundToSignificand 24 v

/-- The conversion of an integer value to double, which has a significand of 53 bits. -/
def toDouble (v : Int) : Int :=
  roundToSignificand 53 v

/-- The pixelwise `cv::bitwise_and` of two masks. -/
def bitwise_and (a b : Mat) : Mat where
  rows := a.rows
  cols := a.cols
  px := fun r c => Nat.land (a.px r c) (b.px r c)

/-- The mask that lines 108-115 make for a camera without a mask: 255 on the rectangle that
starts at `(margin + 1, margin + 1)` and is `imageWidth - 2 * margin - 1` wide and
`imageHeight - 2 * margin - 1` high, 0 elsewhere. -/
def borderMask (camera : Camera) (margin : Nat) : Mat where
  rows := camera.imageHeight
  cols := camera.imageWidth
  px := fun r c =>
    if margin + 1 ≤ c ∧ c < margin + 1 + (camera.imageWidth - 2 * margin - 1) ∧
        margin + 1 ≤ r ∧ r < margin + 1 + (camera.imageHeight - 2 * margin - 1)
    then 255 else 0

/-- The constructor of FeatureTrackerLk with the function it calls, lines 88-132: the two
border checks, and the detection mask, which is the mask of the camera (it must have the size
of the image) or the border mask. No abort request is pending. -/
def FeatureTrackerLk.create (camera : Camera) (settings : LkTrackerSettings)
    (kMinDistanceToImageBorderPx : Nat) (kKeypointUncertaintyPx : ℚ) :
    Option FeatureTrackerLk :=
  if h : 2 * kMinDistanceToImageBorderPx < camera.imageWidth ∧
      2 * kMinDistanceToImageBorderPx < camera.imageHeight then
    match camera.mask with
    | some mask =>
      if mask.rows = camera.imageHeight ∧ mask.cols = camera.imageWidth then
        some ⟨camera, settings, kMinDistanceToImageBorderPx, kKeypointUncertaintyPx, mask, [],
          UniqueId.invalid, h.1, h.2⟩
      else none
    | none =>
      some ⟨camera, settings, kMinDistanceToImageBorderPx, kKeypointUncertaintyPx,
        borderMask camera kMinDistanceToImageBorderPx, [], UniqueId.invalid, h.1, h.2⟩
  else none

namespace FeatureTrackerLk

/-- The border test of lines 206-209, 340-343 and 651-654: the position is closer than
kMinDistanceToImageBorderPx to an image border. -/
def tooCloseToImageBorder (t : FeatureTrackerLk) (pt : Point2f) : Bool :=
  decide (pt.x < (t.kMinDistanceToImageBorderPx : ℚ) ∨
    ((t.camera.imageWidth - t.kMinDistanceToImageBorderPx : Nat) : ℚ) ≤ pt.x ∨
    pt.y < (t.kMinDistanceToImageBorderPx : ℚ) ∨
    ((t.camera.imageHeight - t.kMinDistanceToImageBorderPx : Nat) : ℚ) ≤ pt.y)

/-- The scores that lines 633-637 give to the keypoints of the gfft detector in the order of
its output. `score` is the double of line 633, which holds an integer throughout: it starts
at 1.0 and `score -= 1.0` subtracts 1 and rounds to double. `keypoint.response = score` stores
it in the float member `response`, which rounds it to float. -/
def assignScores : List KeyPoint → Int → List KeyPoint
  | [], _ => []
  | k :: ks, score =>
    { k with response := ((toFloat score : Int) : ℚ) } :: assignScores ks (toDouble (score - 1))

/-- The keypoints of the detector selected in the settings, the switch of lines 570-643. -/
def detectorKeypoints (t : FeatureTrackerLk) (ext : Externals) (image_kp1 : Mat)
    (num_keypoints_to_detect : Nat) (detection_mask : Mat) : List KeyPoint :=
  match t.settings.detector_type with
  | .kOcvSurf => ext.retainBest (ext.detect image_kp1 detection_mask) num_keypoints_to_detect
  | .kOcvBrisk => ext.retainBest (ext.detect image_kp1 detection_mask) num_keypoints_to_detect
  | .kBriskDetector =>
    (ext.briskDetect num_keypoints_to_detect image_kp1).filter
      (fun k => decide (0 < detection_mask.atPoint k.pt))
  | .kOcvGfft =>
    assignScores
      ((ext.cornerSubPix image_kp1
        (ext.goodFeaturesToTrack image_kp1 num_keypoints_to_detect
          t.settings.min_distance_between_features_px detection_mask)).map
        (fun p => (⟨p, 1, -1, 1⟩ : KeyPoint))) 1

/-- The function detectNewKeypoints, lines 558-666: the candidates of the detector that are
not too close to the image border; nothing is detected for a budget of zero. -/
def detectNewKeypoints (t : FeatureTrackerLk) (ext : Externals) (image_kp1 : Mat)
    (num_keypoints_to_detect : Nat) (detection_mask : Mat) : List KeyPoint :=
  if num_keypoints_to_detect = 0 then []
  else
    (t.detectorKeypoints ext image_kp1 num_keypoints_to_detect detection_mask).filter
      (fun k => !t.tooCloseToImageBorder k.pt)

/-- The point that line 229 builds for a new detection: id -1, the response as weight. -/
def newWeightedKeypoint (k : KeyPoint) : WeightedKeypoint :=
  ⟨k, k.pt.y, k.pt.x, .val k.response, -1⟩

/-- The insertion loop of lines 227-237. -/
def insertNewKeypoints (min_distance : ℚ) :
    List KeyPoint → OccupancyGrid → Option OccupancyGrid
  | [], g => some g
  | k :: ks, g =>
    match g.addPointOrReplaceWeakestNearestPoints (newWeightedKeypoint k) min_distance with
    | none => none
    | some g1 => insertNewKeypoints min_distance ks g1

/-- The function detectNewKeypointsInVisualFrame, lines 178-250. -/
def detectNewKeypointsInVisualFrame (t : FeatureTrackerLk) (ext : Externals)
    (frame : VisualFrame) (detection_mask : Mat) (occupancy_grid : OccupancyGrid) :
    Option OccupancyGrid :=
  match frame.getRawImage with
  | none => none
  | some image =>
    let num_keypoints_to_detect :=
      sizeSub t.settings.max_feature_count occupancy_grid.getNumPoints
    let new_keypoints :=
      (t.detectNewKeypoints ext image num_keypoints_to_detect detection_mask).filter
        (fun k => !t.tooCloseToImageBorder k.pt)
    insertNewKeypoints t.settings.min_distance_between_features_px new_keypoints occupancy_grid

/-- The grid that lines 144-146 and 318-320 make: the image size, cells of the minimal feature
distance. -/
def newOccupancyGrid (t : FeatureTrackerLk) : OccupancyGrid :=
  OccupancyGrid.create t.camera.imageHeight t.camera.imageWidth
    t.settings.min_distance_between_features_px t.settings.min_distance_between_features_px

/-- The function initializeKeypointsInEmptyVisualFrame, lines 134-176. -/
def initializeKeypointsInEmptyVisualFrame (t : FeatureTrackerLk) (ext : Externals)
    (frame : VisualFrame) : Option VisualFrame :=
  if frame.hasNoKeypointMeasurements then
    match t.detectNewKeypointsInVisualFrame ext frame t.detection_mask_image_border
        t.newOccupancyGrid with
    | none => none
    | some occupancy_grid =>
      let keypoints := occupancy_grid.getAllPointsInGrid
      let frame1 := insertCvKeypointsIntoEmptyVisualFrame (keypoints.map fun p => p.point)
        t.kKeypointUncertaintyPx frame
      if frame1.hasKeypointMeasurements then some frame1 else none
  else none

/-- The function trackKeypoints, lines 476-556: the positions, the success flags and the
errors of the optical flow, or three empty lists if frame k has no keypoints. -/
def trackKeypoints (ext : Externals) (q_Ckp1_Ck : Quaternion) (frame_k : VisualFrame)
    (image_frame_kp1 : Mat) : Option (List Point2f × List Bool × List ℚ) :=
  if frame_k.hasNoKeypointMeasurements then some ([], [], [])
  else
    let predicted_keypoints_kp1 := (ext.predictKeypointsByRotation frame_k q_Ckp1_Ck).1
    match frame_k.getKeypointMeasurements, frame_k.getRawImage with
    | some keypoints_k, some image_k =>
      let flow := ext.calcOpticalFlowPyrLK image_k image_frame_kp1 keypoints_k
        predicted_keypoints_kp1
      if flow.1.length = keypoints_k.length ∧ flow.2.1.length = flow.1.length ∧
          flow.2.2.length = flow.1.length then some flow
      else none
    | _, _ => none

/-- The search of lines 356-367 for the fresh detection nearest to `point`, from index `idx`
on: the pair `(min_distance, min_index)`, where `none` is the initial infinite distance. -/
def nearestKeypoint (point : Point2f) : List KeyPoint → Nat → Option ℚ × Nat → Option ℚ × Nat
  | [], _, best => best
  | k :: ks, idx, best =>
    let distance_pixels_squared := squaredNorm k.pt.x k.pt.y point.x point.y
    let closer : Bool :=
      match best.1 with
      | none => true
      | some min_distance => decide (distance_pixels_squared < min_distance)
    nearestKeypoint point ks (idx + 1)
      (if closer then (some distance_pixels_squared, idx) else best)

/-- The test `min_distance < FLAGS_lk_keypoint_search_radius_pixels_squared` of line 371. -/
def withinSearchRadius (ext : Externals) (min_distance : Option ℚ) : Bool :=
  match min_distance with
  | none => false
  | some d => decide (d < ext.FLAGS_lk_keypoint_search_radius_pixels_squared)

/-- One pass of the loop body of lines 330-390 for the keypoint with index `keypoint_idx_k`
of frame k: `none` if the keypoint is dropped, else the point the body hands to
addPointOrReplaceWeakestNearestPoints. The index is stored in the int member `id`; a frame
holds fewer than 2^31 keypoints, so that the conversion is exact. -/
def trackedPointToInsert (t : FeatureTrackerLk) (ext : Externals)
    (keypoints_kp1_match : List KeyPoint) (keypoint : KeyPoint) (tracking_success : Bool)
    (tracking_error : ℚ) (keypoint_idx_k : Nat) : Option WeightedKeypoint :=
  if !tracking_success then none
  else if t.tooCloseToImageBorder keypoint.pt then none
  else if keypoint_idx_k ∈ t.keypoint_indices_to_abort then none
  else
    let nearest := nearestKeypoint keypoint.pt keypoints_kp1_match 0 (none, 0)
    if withinSearchRadius ext nearest.1 then
      let point := (keypoints_kp1_match.getD nearest.2 keypoint).pt
      some ⟨keypoint, point.y, point.x, .val (-tracking_error), keypoint_idx_k⟩
    else if ext.FLAGS_lk_max_tracking_error < tracking_error then none
    else some ⟨keypoint, keypoint.pt.y, keypoint.pt.x, .val (-tracking_error), keypoint_idx_k⟩

/-- The selection loop of lines 328-394 from index `keypoint_idx_k` on, over the tracked
keypoints with their success flags and errors. -/
def selectTrackedKeypoints (t : FeatureTrackerLk) (ext : Externals)
    (keypoints_kp1_match : List KeyPoint) :
    List (KeyPoint × Bool × ℚ) → Nat → OccupancyGrid → Option OccupancyGrid
  | [], _, g => some g
  | (keypoint, tracking_success, tracking_error) :: rest, keypoint_idx_k, g =>
    match t.trackedPointToInsert ext keypoints_kp1_match keypoint tracking_success
        tracking_error keypoint_idx_k with
    | none => selectTrackedKeypoints t ext keypoints_kp1_match rest (keypoint_idx_k + 1) g
    | some point =>
      match g.addPointOrReplaceWeakestNearestPoints point
          t.settings.min_distance_between_features_px with
      | none => none
      | some g1 => selectTrackedKeypoints t ext keypoints_kp1_match rest (keypoint_idx_k + 1) g1

/-- The detection mask of the redetection, lines 429-435: the border mask and the mask of the
points in the grid. -/
def redetectionMask (t : FeatureTrackerLk) (occupancy_grid : OccupancyGrid) : Mat :=
  bitwise_and t.detection_mask_image_border
    (occupancy_grid.getOccupancyMask t.settings.min_distance_between_features_px (2 ^ 64 - 1))

/-- The conditional redetection of lines 423-445. -/
def redetect (t : FeatureTrackerLk) (ext : Externals) (frame_kp1 : VisualFrame)
    (occupancy_grid : OccupancyGrid) : Option OccupancyGrid :=
  if occupancy_grid.getNumPoints < t.settings.min_feature_count then
    if occupancy_grid.getNumPoints < t.settings.max_feature_count then
      t.detectNewKeypointsInVisualFrame ext frame_kp1 (t.redetectionMask occupancy_grid)
        occupancy_grid
    else none
  else some occupancy_grid

/-- The matches of the loop of lines 457-466 over the points read from the grid, from
index `keypoint_idx_kp1` on. -/
def extractMatches : List WeightedKeypoint → Nat → List FrameToFrameMatchWithScore
  | [], _ => []
  | point :: rest, keypoint_idx_kp1 =>
    if 0 ≤ point.id then
      ⟨keypoint_idx_kp1, point.id, point.weight⟩ :: extractMatches rest (keypoint_idx_kp1 + 1)
    else extractMatches rest (keypoint_idx_kp1 + 1)

/-- The test of line 276: an abort request is pending and its frame id is not the id of
frame k; it is fatal. -/
def abortRequestOfOtherFrame (t : FeatureTrackerLk) (frame_k : VisualFrame) : Bool :=
  !t.keypoint_indices_to_abort.isEmpty && decide (t.abort_keypoints_wrt_frame_id ≠ frame_k.id)

/-- The checks of lines 256-278 that track makes before it does anything. -/
def trackPreconditions (t : FeatureTrackerLk) (frame_k frame_kp1 : VisualFrame) : Bool :=
  (match frame_k.camera_geometry with
    | none => false
    | some c => decide (t.camera.id = c.id)) &&
  (match frame_kp1.camera_geometry with
    | none => false
    | some c => decide (t.camera.id = c.id)) &&
  frame_kp1.hasRawImage && frame_kp1.hasNoKeypointMeasurements && frame_kp1.hasNoTrackIds &&
  !t.abortRequestOfOtherFrame frame_k

/-- The tracked keypoints of lines 292-298: the keypoints of frame k with their positions
replaced by the tracked ones. -/
def setTrackedPositions (keypoints : List KeyPoint) (tracked_points_kp1 : List Point2f) :
    List KeyPoint :=
  List.zipWith (fun k p => { k with pt := p }) keypoints tracked_points_kp1

/-- Lines 280-298 of track: the flow of the keypoints of frame k into the image of frame k+1,
the two size checks, and the tracked keypoints with their success flags and errors. -/
def trackedKeypoints (ext : Externals) (q_Ckp1_Ck : Quaternion) (frame_k : VisualFrame)
    (image_kp1 : Mat) : Option (List KeyPoint × List Bool × List ℚ) :=
  match trackKeypoints ext q_Ckp1_Ck frame_k image_kp1,
      frame_k.getNumKeypointMeasurements ext.num_keypoints_without_channel,
      ext.getCvKeypointsFromFrame frame_k with
  | some (tracked_points_kp1, tracking_success, tracking_errors), some num_keypoints_k,
      some keypoints_k =>
    if num_keypoints_k = tracked_points_kp1.length ∧
        keypoints_k.length = tracked_points_kp1.length then
      some (setTrackedPositions keypoints_k tracked_points_kp1, tracking_success,
        tracking_errors)
    else none
  | _, _, _ => none

/-- The pool of fresh detections of lines 302-304, used to snap the tracked keypoints. -/
def freshDetections (t : FeatureTrackerLk) (ext : Externals) (image_kp1 : Mat) :
    List KeyPoint :=
  t.detectNewKeypoints ext image_kp1 t.settings.max_feature_count t.detection_mask_image_border

/-- Lines 300-421 of track: the fresh detection, the selection of the tracked keypoints and
their protection by the maximal weight. The result is the grid of the tracked survivors. -/
def trackedSurvivors (t : FeatureTrackerLk) (ext : Externals) (image_kp1 : Mat)
    (tracked_keypoints_kp1 : List KeyPoint) (tracking_success : List Bool)
    (tracking_errors : List ℚ) : Option OccupancyGrid :=
  match t.selectTrackedKeypoints ext (t.freshDetections ext image_kp1)
      (tracked_keypoints_kp1.zip (tracking_success.zip tracking_errors)) 0
      t.newOccupancyGrid with
  | none => none
  | some occupancy_grid =>
    some (occupancy_grid.setConstantWeightForAllPointsInGrid Weight.max)

/-- Lines 300-445 of track: the grid of the tracked survivors after the conditional
redetection. This grid is read out. -/
def trackGrid (t : FeatureTrackerLk) (ext : Externals) (frame_kp1 : VisualFrame)
    (image_kp1 : Mat) (tracked_keypoints_kp1 : List KeyPoint) (tracking_success : List Bool)
    (tracking_errors : List ℚ) : Option OccupancyGrid :=
  match t.trackedSurvivors ext image_kp1 tracked_keypoints_kp1 tracking_success
      tracking_errors with
  | none => none
  | some occupancy_grid => t.redetect ext frame_kp1 occupancy_grid

/-- The function track, lines 252-474. It returns the tracker with the abort set reset,
frame k+1 with its keypoints, and the matches. -/
def track (t : FeatureTrackerLk) (ext : Externals) (q_Ckp1_Ck : Quaternion)
    (frame_k frame_kp1 : VisualFrame) :
    Option (FeatureTrackerLk × VisualFrame × List FrameToFrameMatchWithScore) :=
  if t.trackPreconditions frame_k frame_kp1 then
    match frame_kp1.getRawImage with
    | none => none
    | some image_kp1 =>
      match trackedKeypoints ext q_Ckp1_Ck frame_k image_kp1 with
      | none => none
      | some (tracked_keypoints_kp1, tracking_success, tracking_errors) =>
        match t.trackGrid ext frame_kp1 image_kp1 tracked_keypoints_kp1 tracking_success
            tracking_errors with
        | none => none
        | some occupancy_grid =>
          let keypoints_kp1 := occupancy_grid.getAllPointsInGrid
          some ({ t with keypoint_indices_to_abort := []
                         abort_keypoints_wrt_frame_id := UniqueId.invalid },
            insertCvKeypointsIntoEmptyVisualFrame (keypoints_kp1.map fun p => p.point)
              t.kKeypointUncertaintyPx frame_kp1,
            extractMatches keypoints_kp1 0)
  else none

/-- The function swapKeypointIndicesToAbort, lines 668-674: the tracker with the new abort set
and the set it held before; an invalid frame id is fatal. -/
def swapKeypointIndicesToAbort (t : FeatureTrackerLk) (frame_id : UniqueId)
    (keypoint_indices_to_abort : List Nat) : Option (FeatureTrackerLk × List Nat) :=
  if frame_id.isValid then
    some ({ t with keypoint_indices_to_abort := keypoint_indices_to_abort
                   abort_keypoints_wrt_frame_id := frame_id },
      t.keypoint_indices_to_abort)
  else none

end FeatureTrackerLk

/-! ## The camera rig -/

/-- The method `setId` of a camera, Sensor::setId of sensor.cc lines 14-17; an invalid id is
fatal. -/
def Camera.setId (c : Camera) (id : UniqueId) : Option Camera :=
  if id.isValid then some { c with id := id } else none

/-- The method `removeDistortion` of a camera, declared in a header that is not among the
sources: the camera gets the null distortion. -/
def Camera.removeDistortion (c : Camera) : Camera :=
  { c with distortion := none }

/-- A rigid transformation T_C_B; the rig only stores it. -/
structure Transformation where
  matrix : List ℚ

/-- The camera rig NCamera of ncamera.cc: its id, the transformations and the cameras (none
is a null pointer), the label, and the contents of the map `id_to_index_` from camera ids to
indices, a std::unordered_map of which only lookup, assignment and erasure are used. -/
structure NCamera where
  id : UniqueId
  T_C_B : List Transformation
  cameras : List (Option Camera)
  label : String
  id_to_index : List (UniqueId × Nat)

namespace NCamera

/-- The assignment `id_to_index_[id] = i` of a std::unordered_map: the entry of the key is
replaced or added. -/
def assign (id_to_index : List (UniqueId × Nat)) (id : UniqueId) (i : Nat) :
    List (UniqueId × Nat) :=
  (id, i) :: id_to_index.filter fun entry => decide (entry.1 ≠ id)

/-- The loop of initInternal, lines 131-135, from index `i` on: every camera must exist and
have a valid id, and its id is mapped to its index. -/
def initLoop : List (Option Camera) → Nat → List (UniqueId × Nat) →
    Option (List (UniqueId × Nat))
  | [], _, id_to_index => some id_to_index
  | none :: _, _, _ => none
  | some camera :: cameras, i, id_to_index =>
    if camera.id.isValid then initLoop cameras (i + 1) (assign id_to_index camera.id i)
    else none

/-- The function initInternal, lines 128-136. -/
def initInternal (n : NCamera) : Option NCamera :=
  if n.cameras.length = n.T_C_B.length then
    match initLoop n.cameras 0 [] with
    | none => none
    | some id_to_index => some { n with id_to_index := id_to_index }
  else none

/-- The constructor of lines 19-25; the constructor of Sensor (sensor.cc lines 5-7) and
line 23 check the id. -/
def create (id : UniqueId) (T_C_B : List Transformation) (cameras : List (Option Camera))
    (label : String) : Option NCamera :=
  if id.isValid then initInternal ⟨id, T_C_B, cameras, label, []⟩ else none

/-- The function getNumCameras, lines 138-140. -/
def getNumCameras (n : NCamera) : Nat :=
  n.cameras.length

/-- The function getCamera, lines 177-181; an index out of range and a null pointer are
fatal. -/
def getCamera (n : NCamera) (camera_index : Nat) : Option Camera :=
  match n.cameras[camera_index]? with
  | some (some camera) => some camera
  | _ => none

/-- The copy constructor, lines 32-41, which `clone()` calls: the id, the transformations and
the label are copied, every camera is cloned (a clone has the id of its camera), and
initInternal fills the map. -/
def clone (other : NCamera) : Option NCamera :=
  if other.cameras.all (fun camera => camera.isSome) then
    initInternal ⟨other.id, other.T_C_B, other.cameras, other.label, []⟩
  else none

/-- The function setCamera, lines 199-205: the id of the camera that is replaced is erased
from the map and the id of the new camera is mapped to the index. -/
def setCamera (n : NCamera) (camera_index : Nat) (camera : Option Camera) : Option NCamera :=
  match camera, n.cameras[camera_index]? with
  | some new_camera, some (some old_camera) =>
    some { n with
      cameras := n.cameras.set camera_index (some new_camera)
      id_to_index :=
        assign (n.id_to_index.filter fun entry => decide (entry.1 ≠ old_camera.id))
          new_camera.id camera_index }
  | _, _ => none

/-- The function getCameraId, lines 215-218; an index out of range is fatal. -/
def getCameraId (n : NCamera) (camera_index : Nat) : Option UniqueId :=
  match n.cameras[camera_index]? with
  | some (some camera) => some camera.id
  | _ => none

/-- The function hasCameraWithId, lines 220-223; an invalid id is fatal. -/
def hasCameraWithId (n : NCamera) (id : UniqueId) : Option Bool :=
  if id.isValid then some (n.id_to_index.lookup id).isSome else none

/-- The function getCameraIndex, lines 225-233: the index of the camera with the id, or -1;
an invalid id is fatal. -/
def getCameraIndex (n : NCamera) (id : UniqueId) : Option Int :=
  if id.isValid then
    match n.id_to_index.lookup id with
    | none => some (-1)
    | some i => some (i : Int)
  else none

/-- The loop of cloneRigWithoutDistortion, lines 301-306, from the camera with index `i` on:
the distortion of the camera is removed and the camera gets the id that the `i`-th call of
generateId returns. -/
def renewCameras (generateId : Nat → UniqueId) :
    List (Option Camera) → Nat → Option (List (Option Camera))
  | [], _ => some []
  | none :: _, _ => none
  | some camera :: cameras, i =>
    match camera.removeDistortion.setId (generateId i), renewCameras generateId cameras (i + 1)
    with
    | some renewed, some rest => some (some renewed :: rest)
    | _, _ => none

/-- The function cloneRigWithoutDistortion, lines 298-312. `generateId k` is the id that the
call number `k` of generateId returns, a routine whose code is not among the sources; the
last call makes the id of the rig, which setId (sensor.cc lines 14-17) checks. -/
def cloneRigWithoutDistortion (n : NCamera) (generateId : Nat → UniqueId) : Option NCamera :=
  match n.clone with
  | none => none
  | some rig_without_distortion =>
    match renewCameras generateId rig_without_distortion.cameras 0 with
    | none => none
    | some cameras =>
      if (generateId rig_without_distortion.cameras.length).isValid then
        some { rig_without_distortion with
          cameras := cameras
          id := generateId rig_without_distortion.cameras.length }
      else none

end NCamera

/-! ## Notions used to state the properties -/

/-- The grid points `p` and `q` are at Euclidean distance at least `d` (compared by
squares). -/
def OccupancyGrid.apart (d : ℚ) (p q : WeightedKeypoint) : Prop :=
  d * d ≤ squaredNorm p.v_cols p.u_rows q.v_cols q.u_rows

instance (d : ℚ) (p q : WeightedKeypoint) : Decidable (OccupancyGrid.apart d p q) := by
  unfold OccupancyGrid.apart; infer_instance

/-- A call that changes an occupancy grid. -/
inductive GridCall where
  | addPointOrReplaceWeakestNearestPoints (point : WeightedKeypoint)
  | setConstantWeightForAllPointsInGrid (w : Weight)

/-- A sequence of calls on a grid, every insertion with the minimal distance
`min_distance`; a fatal call ends it. -/
def OccupancyGrid.runCalls (min_distance : ℚ) :
    List GridCall → OccupancyGrid → Option OccupancyGrid
  | [], g => some g
  | .addPointOrReplaceWeakestNearestPoints point :: rest, g =>
    match g.addPointOrReplaceWeakestNearestPoints point min_distance with
    | none => none
    | some g1 => runCalls min_distance rest g1
  | .setConstantWeightForAllPointsInGrid w :: rest, g =>
    runCalls min_distance rest (g.setConstantWeightForAllPointsInGrid w)

/-- The insertion of a list of points, one after the other; a fatal insertion ends it. -/
def OccupancyGrid.addAll (min_distance : ℚ) :
    List WeightedKeypoint → OccupancyGrid → Option OccupancyGrid
  | [], g => some g
  | point :: rest, g =>
    match g.addPointOrReplaceWeakestNearestPoints point min_distance with
    | none => none
    | some g1 => addAll min_distance rest g1

/-- The position keeps the border margin: `margin <= x < imageWidth - margin` and
`margin <= y < imageHeight - margin` for `margin = kMinDistanceToImageBorderPx`. -/
def FeatureTrackerLk.insideBorder (t : FeatureTrackerLk) (pt : Point2f) : Prop :=
  (t.kMinDistanceToImageBorderPx : ℚ) ≤ pt.x ∧
  pt.x < (t.camera.imageWidth : ℚ) - (t.kMinDistanceToImageBorderPx : ℚ) ∧
  (t.kMinDistanceToImageBorderPx : ℚ) ≤ pt.y ∧
  pt.y < (t.camera.imageHeight : ℚ) - (t.kMinDistanceToImageBorderPx : ℚ)

instance (t : FeatureTrackerLk) (pt : Point2f) : Decidable (t.insideBorder pt) := by
  unfold FeatureTrackerLk.insideBorder; infer_instance

/-- The points that the selection loop of lines 328-394 offers to the grid, those for which
it calls addPointOrReplaceWeakestNearestPoints, in the order of the calls. -/
def FeatureTrackerLk.offeredPoints (t : FeatureTrackerLk) (ext : Externals)
    (keypoints_kp1_match : List KeyPoint) :
    List (KeyPoint × Bool × ℚ) → Nat → List WeightedKeypoint
  | [], _ => []
  | (keypoint, tracking_success, tracking_error) :: rest, keypoint_idx_k =>
    match t.trackedPointToInsert ext keypoints_kp1_match keypoint tracking_success
        tracking_error keypoint_idx_k with
    | none => offeredPoints t ext keypoints_kp1_match rest (keypoint_idx_k + 1)
    | some point => point :: offeredPoints t ext keypoints_kp1_match rest (keypoint_idx_k + 1)

/-- The new detections that detectNewKeypointsInVisualFrame inserts into the grid, lines
188-215: the candidates of detectNewKeypoints for the remaining budget that keep the border
margin. -/
def FeatureTrackerLk.newKeypoints (t : FeatureTrackerLk) (ext : Externals) (image : Mat)
    (detection_mask : Mat) (occupancy_grid : OccupancyGrid) : List KeyPoint :=
  (t.detectNewKeypoints ext image
    (sizeSub t.settings.max_feature_count occupancy_grid.getNumPoints) detection_mask).filter
    (fun k => !t.tooCloseToImageBorder k.pt)

/-- The keypoints `a` and `b` are at Euclidean distance at least `d` (compared by squares). -/
def KeyPoint.apart (d : ℚ) (a b : KeyPoint) : Prop :=
  d * d ≤ squaredNorm a.pt.x a.pt.y b.pt.x b.pt.y

instance (d : ℚ) (a b : KeyPoint) : Decidable (KeyPoint.apart d a b) := by
  unfold KeyPoint.apart; infer_instance

/-- The contract of the detection routines about the keypoint budget: none of them returns
more keypoints than it was asked for, and the sub-pixel refinement keeps their number. -/
def Externals.honoursBudget (ext : Externals) : Prop :=
  (∀ l n, (ext.retainBest l n).length ≤ n) ∧
  (∀ n image, (ext.briskDetect n image).length ≤ n) ∧
  (∀ image n d mask, (ext.goodFeaturesToTrack image n d mask).length ≤ n) ∧
  (∀ image l, (ext.cornerSubPix image l).length = l.length)

/-- The vectorized routines of the camera do for every column what the scalar routines do
for it. -/
def CameraProjection.vectorizedAgrees (c : CameraProjection) : Prop :=
  (∀ keypoints, c.backProject3Vectorized keypoints =
    (keypoints.map fun k => (c.backProject3 k).1, keypoints.map fun k => (c.backProject3 k).2)) ∧
  (∀ bearings, c.project3Vectorized bearings =
    (bearings.map fun b => (c.project3 b).1, bearings.map fun b => (c.project3 b).2))

/-! ## A small concrete scene

A camera of 20 x 20 pixels with a border margin of 2 pixels and a minimal feature distance of
2 pixels; at most 3 and at least 2 features. The properties below are instantiated on it. -/

namespace Scene

/-- An image of the scene, all pixels 255; the external routines of the scene do not look at
it. It also serves as a mask that admits every pixel. -/
def image : Mat :=
  ⟨20, 20, fun _ _ => 255⟩

/-- The camera of the scene; its mask admits the whole image. -/
def camera : Camera :=
  { id := ⟨7⟩, imageWidth := 20, imageHeight := 20, mask := some image }

/-- The settings of the scene. -/
def settings : LkTrackerSettings :=
  { min_distance_between_features_px := 2, max_feature_count := 3, min_feature_count := 2 }

/-- The tracker that the constructor makes for the camera and the settings of the scene, with
a border margin of 2 pixels. -/
def tracker : FeatureTrackerLk :=
  { camera := camera, settings := settings, kMinDistanceToImageBorderPx := 2,
    kKeypointUncertaintyPx := 1 / 2, detection_mask_image_border := image,
    keypoint_indices_to_abort := [], abort_keypoints_wrt_frame_id := UniqueId.invalid,
    border_width_checked := by decide, border_height_checked := by decide }

/-- A keypoint at `(x, y)` with the given response. -/
def keypoint (x y response : ℚ) : KeyPoint :=
  ⟨⟨x, y⟩, 1, 0, response⟩

/-- External routines of the scene: the detector finds the keypoints `detections`, the flow
moves the keypoints of frame k to `flow`. -/
def externals (detections : List KeyPoint) (flow : List Point2f × List Bool × List ℚ) :
    Externals :=
  { detect := fun _ _ => detections
    retainBest := fun l n => l.take n
    briskDetect := fun _ _ => []
    goodFeaturesToTrack := fun _ _ _ _ => []
    cornerSubPix := fun _ l => l
    calcOpticalFlowPyrLK := fun _ _ _ _ => flow
    predictKeypointsByRotation := fun f _ => (f.keypoint_measurements.getD [], [])
    getCvKeypointsFromFrame := fun f =>
      f.keypoint_measurements.map fun l => l.map fun p => ⟨p, 1, 0, 0⟩
    num_keypoints_without_channel := none }

/-- Frame k of the scene, with the keypoints `keypoints`. -/
def frame_k (keypoints : List Point2f) : VisualFrame :=
  { id := ⟨1⟩, camera_geometry := some camera, raw_image := some image,
    keypoint_measurements := some keypoints }

/-- Frame k+1 of the scene: an image and no keypoints. -/
def frame_kp1 : VisualFrame :=
  { id := ⟨2⟩, camera_geometry := some camera, raw_image := some image }

/-- The rotation prior of the scene. -/
def rotation : Quaternion :=
  ⟨1, 0, 0, 0⟩

/-- Fresh detections of the scene: two keypoints with responses 10 and 9. -/
def detections : List KeyPoint :=
  [keypoint 5 5 10, keypoint 10 10 9]

/-- A flow of two keypoints: both are found, at (5, 6) without error and at (15, 15) with
error 1/2. -/
def flow : List Point2f × List Bool × List ℚ :=
  ([⟨5, 6⟩, ⟨15, 15⟩], [true, true], [0, 1 / 2])

/-- The keypoints of frame k in the scene. -/
def keypoints_k : List Point2f :=
  [⟨5, 5⟩, ⟨14, 14⟩]

/-- The tracker of the scene after the abort of keypoint 1 was requested for frame k. -/
def trackerAbort : FeatureTrackerLk :=
  { tracker with keypoint_indices_to_abort := [1], abort_keypoints_wrt_frame_id := ⟨1⟩ }

/-- A grid point at `(x, y)` with the given weight and id. -/
def point (x y : ℚ) (weight : Weight) (id : Int) : WeightedKeypoint :=
  ⟨keypoint x y 0, y, x, weight, id⟩

/-- Five calls on a grid: a point at (5, 5), a stronger one next to it at (6, 5), which
replaces it, the overwrite of all weights by the maximal one, a point at (5, 6), which is
discarded, and a point far from the others at (10, 10). -/
def calls : List GridCall :=
  [.addPointOrReplaceWeakestNearestPoints (point 5 5 (.val 1) 0),
   .addPointOrReplaceWeakestNearestPoints (point 6 5 (.val 2) 1),
   .setConstantWeightForAllPointsInGrid .max,
   .addPointOrReplaceWeakestNearestPoints (point 5 6 (.val 10) (-1)),
   .addPointOrReplaceWeakestNearestPoints (point 10 10 (.val 1) (-1))]

/-- A flow of one keypoint, found at (10, 10) without error. -/
def flowOne : List Point2f × List Bool × List ℚ :=
  ([⟨10, 10⟩], [true], [0])

/-- A flow of two keypoints of which only the first is found, at (15, 15) with error 1/2. -/
def flowLost : List Point2f × List Bool × List ℚ :=
  ([⟨15, 15⟩, ⟨3, 3⟩], [true, false], [1 / 2, 0])

/-- Three fresh detections that keep the border margin and are far from each other. -/
def detectionsThree : List KeyPoint :=
  [keypoint 5 5 10, keypoint 10 10 9, keypoint 15 15 8]

/-- The tracked keypoints of `flow` with their success flags and errors. -/
def tracked : List (KeyPoint × Bool × ℚ) :=
  [(keypoint 5 6 0, true, 0), (keypoint 15 15 0, true, 1 / 2)]

/-- The rule of cv::KeyPointsFilter::retainBest of OpenCV: of more than `n_points` keypoints
it keeps those whose response is at least the response of the `n_points`-th best one, the
keypoints that tie with that one included. -/
def retainBestWithTies (keypoints : List KeyPoint) (n_points : Nat) : List KeyPoint :=
  if keypoints.length ≤ n_points then keypoints
  else if n_points = 0 then []
  else
    match (keypoints.insertionSort fun a b => b.response ≤ a.response)[n_points - 1]? with
    | none => keypoints
    | some ambiguous => keypoints.filter fun k => decide (ambiguous.response ≤ k.response)

/-- External routines like `externals` whose retainBest keeps ties. -/
def externalsWithTies (detections : List KeyPoint) : Externals :=
  { externals detections ([], [], []) with retainBest := retainBestWithTies }

/-- Two detections with the same response. -/
def detectionsTied : List KeyPoint :=
  [keypoint 5 5 10, keypoint 10 10 10]

/-- External routines whose corner detector finds the positions `corners`, at most as many
as asked for. -/
def externalsGfft (corners : List Point2f) : Externals :=
  { externals [] ([], [], []) with goodFeaturesToTrack := fun _ n _ _ => corners.take n }

/-- A tracker like `tracker` with the detector type ocvgfft. -/
def trackerGfft : FeatureTrackerLk :=
  { tracker with settings := { settings with detector_type := DetectorType.kOcvGfft } }

/-- Three corners, the second of them on the image border. -/
def corners : List Point2f :=
  [⟨5, 5⟩, ⟨1, 10⟩, ⟨15, 15⟩]

/-- A big output of the corner detector: 2^24 + 3 corners at the position (5, 5) (only their
number matters). -/
def manyCorners : List Point2f :=
  List.replicate 16777219 ⟨5, 5⟩

/-- One fresh detection, far from the position (10, 10). -/
def detectionsOne : List KeyPoint :=
  [keypoint 5 5 10]

/-- A frame with two entries in every keypoint channel. -/
def frameChannels : VisualFrame :=
  ((((((frame_k keypoints_k).setKeypointMeasurementUncertainties [1 / 2, 7 / 10]).setKeypointScales
    [1, 2]).setKeypointOrientations [0, 90]).setKeypointScores [10, 9]).setDescriptors
    [[1, 2], [3, 4]]).setTrackIds [3, 4]

/-- A second camera, with the id 8 and a distortion. -/
def cameraTwo : Camera :=
  { camera with id := ⟨8⟩, distortion := some [1 / 10] }

/-- The ids that generateId returns in the scene: 100, 101, 102, ... -/
def generateId (k : Nat) : UniqueId :=
  ⟨100 + k⟩

/-- The rig that the constructor makes of the two cameras of the scene, with the id 3. -/
def rig : Option NCamera :=
  NCamera.create ⟨3⟩ [⟨[]⟩, ⟨[]⟩] [some camera, some cameraTwo] "rig"

/-- Projection routines of the scene: the back-projection fails left of the image, the
projection is behind the camera for a negative depth, and the vectorized routines do for
every column what the scalar ones do. -/
def projection : CameraProjection where
  backProject3 := fun k => (⟨k.x, k.y, k.x - 3⟩, decide (0 ≤ k.x))
  project3 := fun b =>
    (⟨b.x + 1, b.y + 1⟩,
      if 0 < b.z then ProjectionResult.KEYPOINT_VISIBLE
      else ProjectionResult.POINT_BEHIND_CAMERA)
  backProject3Vectorized := fun ks =>
    (ks.map fun k => ⟨k.x, k.y, k.x - 3⟩, ks.map fun k => decide (0 ≤ k.x))
  project3Vectorized := fun bs =>
    (bs.map fun b => ⟨b.x + 1, b.y + 1⟩,
      bs.map fun b =>
        if 0 < b.z then ProjectionResult.KEYPOINT_VISIBLE
        else ProjectionResult.POINT_BEHIND_CAMERA)

/-- External routines like `externals` whose retainBest keeps ties, with the flow `flow`. -/
def externalsWithTiesAndFlow (detections : List KeyPoint)
    (flow : List Point2f × List Bool × List ℚ) : Externals :=
  { externals detections flow with retainBest := retainBestWithTies }

/-- Three detections with the same response, far from each other and from (15, 15). -/
def detectionsThreeTied : List KeyPoint :=
  [keypoint 5 5 10, keypoint 10 10 10, keypoint 5 12 10]

/-- Projection routines of a raw camera like `projection`, whose projection is invalid for a
bearing with depth 0. -/
def projectionRaw : CameraProjection where
  backProject3 := fun k => (⟨k.x, k.y, k.x - 3⟩, decide (0 ≤ k.x))
  project3 := fun b =>
    (⟨b.x + 1, b.y + 1⟩,
      if b.z = 0 then ProjectionResult.PROJECTION_INVALID
      else if 0 < b.z then ProjectionResult.KEYPOINT_VISIBLE
      else ProjectionResult.POINT_BEHIND_CAMERA)
  backProject3Vectorized := fun ks =>
    (ks.map fun k => ⟨k.x, k.y, k.x - 3⟩, ks.map fun k => decide (0 ≤ k.x))
  project3Vectorized := fun bs =>
    (bs.map fun b => ⟨b.x + 1, b.y + 1⟩,
      bs.map fun b =>
        if b.z = 0 then ProjectionResult.PROJECTION_INVALID
        else if 0 < b.z then ProjectionResult.KEYPOINT_VISIBLE
        else ProjectionResult.POINT_BEHIND_CAMERA)

end Scene

/-! # Properties -/

/-! ## The occupancy grid -/

namespace OccupancyGrid

theorem squaredNorm_comm (x1 y1 x2 y2 : ℚ) :
    squaredNorm x1 y1 x2 y2 = squaredNorm x2 y2 x1 y1 := by
  unfold squaredNorm; ring

theorem apart_comm {d : ℚ} {p q : WeightedKeypoint} (h : apart d p q) : apart d q p := by
  unfold apart at *; rw [squaredNorm_comm]; exact h

/-- Two coordinates whose cells are not adjacent differ by at least the cell size. -/
theorem far_of_floor_gap {a b c : ℚ} (hc : 0 < c)
    (h : ¬ Int.natAbs (⌊a / c⌋ - ⌊b / c⌋) ≤ 1) : c * c ≤ (a - b) * (a - b) := by
  have ha1 := Int.floor_le (a / c)
  have ha2 := Int.lt_floor_add_one (a / c)
  have hb1 := Int.floor_le (b / c)
  have hb2 := Int.lt_floor_add_one (b / c)
  have hgap : ⌊a / c⌋ - ⌊b / c⌋ ≥ 2 ∨ ⌊b / c⌋ - ⌊a / c⌋ ≥ 2 := by omega
  have hdiv : a / c - b / c = (a - b) / c := by ring
  rcases hgap with hg | hg
  · have hg' : ((⌊a / c⌋ : ℤ) : ℚ) - ((⌊b / c⌋ : ℤ) : ℚ) ≥ 2 := by exact_mod_cast hg
    have h1 : 1 < (a - b) / c := by rw [← hdiv]; linarith
    have h2 : c < a - b := by
      have := (lt_div_iff₀ hc).mp h1
      linarith
    nlinarith
  · have hg' : ((⌊b / c⌋ : ℤ) : ℚ) - ((⌊a / c⌋ : ℤ) : ℚ) ≥ 2 := by exact_mod_cast hg
    have h1 : (a - b) / c < -1 := by rw [← hdiv]; linarith
    have h2 : a - b < -c := by
      have := (div_lt_iff₀ hc).mp h1
      linarith
    nlinarith

/-- With cells at least as large as the minimal distance, a retained point that does not
conflict with `p` is at least `d` away from it. -/
theorem apart_of_not_conflictsWith {g : OccupancyGrid} {d : ℚ} {p q : WeightedKeypoint}
    (hd : 0 < d) (hr : d ≤ g.cell_size_rows) (hc : d ≤ g.cell_size_cols)
    (h : g.conflictsWith d p q = false) : apart d q p := by
  unfold conflictsWith at h
  unfold apart
  rw [Bool.and_eq_false_iff] at h
  rcases h with h | h
  · unfold inNeighbourCells at h
    simp only [decide_eq_false_iff_not, not_and_or] at h
    unfold squaredNorm
    rcases h with h | h
    · have := far_of_floor_gap (lt_of_lt_of_le hd hr) h
      unfold cellRow at h
      nlinarith [mul_self_nonneg (q.v_cols - p.v_cols), mul_le_mul hr hr hd.le (hd.le.trans hr)]
    · have := far_of_floor_gap (lt_of_lt_of_le hd hc) h
      nlinarith [mul_self_nonneg (q.u_rows - p.u_rows), mul_le_mul hc hc hd.le (hd.le.trans hc)]
  · unfold closerThan at h
    simp only [decide_eq_false_iff_not, not_and, not_lt] at h
    exact h hd

theorem add_cases {g g1 : OccupancyGrid} {p : WeightedKeypoint} {d : ℚ}
    (h : g.addPointOrReplaceWeakestNearestPoints p d = some g1) :
    g.inGrid p ∧
    ((g.points.filter (g.conflictsWith d p) = [] ∧ g1 = { g with points := g.points ++ [p] }) ∨
     (∃ c cs, g.points.filter (g.conflictsWith d p) = c :: cs ∧
        (weakestWeight c cs).lt p.weight = true ∧
        g1 = { g with
          points := g.points.filter (fun q => !g.conflictsWith d p q) ++ [p] }) ∨
     (∃ c cs, g.points.filter (g.conflictsWith d p) = c :: cs ∧
        (weakestWeight c cs).lt p.weight = false ∧ g1 = g)) := by
  unfold addPointOrReplaceWeakestNearestPoints at h
  split_ifs at h with hin
  refine ⟨hin, ?_⟩
  split at h
  · left
    rename_i hnil
    exact ⟨hnil, (Option.some.inj h).symm⟩
  · rename_i c cs hcons
    right
    split_ifs at h with hw
    · left
      exact ⟨c, cs, hcons, hw, (Option.some.inj h).symm⟩
    · right
      exact ⟨c, cs, hcons, by simpa using hw, (Option.some.inj h).symm⟩

/-- The points after an insertion: the old ones without the conflicting ones, followed by
the new point, or the old ones unchanged. -/
theorem add_points {g g1 : OccupancyGrid} {p : WeightedKeypoint} {d : ℚ}
    (h : g.addPointOrReplaceWeakestNearestPoints p d = some g1) :
    g1.points = g.points.filter (fun q => !g.conflictsWith d p q) ++ [p] ∨
    g1.points = g.points := by
  obtain ⟨_, h1 | ⟨c, cs, _, _, h2⟩ | ⟨c, cs, _, _, h3⟩⟩ := add_cases h
  · left
    obtain ⟨hnil, rfl⟩ := h1
    have : g.points.filter (fun q => !g.conflictsWith d p q) = g.points := by
      rw [List.filter_eq_self]
      intro a ha
      have := List.filter_eq_nil_iff.mp hnil a ha
      simpa using this
    simp [this]
  · left; rw [h2]
  · right; rw [h3]

theorem add_dims {g g1 : OccupancyGrid} {p : WeightedKeypoint} {d : ℚ}
    (h : g.addPointOrReplaceWeakestNearestPoints p d = some g1) :
    g1.max_input_coordinate_rows = g.max_input_coordinate_rows ∧
    g1.max_input_coordinate_cols = g.max_input_coordinate_cols ∧
    g1.cell_size_rows = g.cell_size_rows ∧ g1.cell_size_cols = g.cell_size_cols := by
  obtain ⟨_, ⟨_, rfl⟩ | ⟨c, cs, _, _, rfl⟩ | ⟨c, cs, _, _, rfl⟩⟩ := add_cases h <;> simp

theorem add_mem {g g1 : OccupancyGrid} {p q : WeightedKeypoint} {d : ℚ}
    (h : g.addPointOrReplaceWeakestNearestPoints p d = some g1) (hq : q ∈ g1.points) :
    q ∈ g.points ∨ q = p := by
  rcases add_points h with h1 | h1
  · rw [h1, List.mem_append] at hq
    rcases hq with hq | hq
    · exact Or.inl (List.mem_filter.mp hq).1
    · exact Or.inr (by simpa using hq)
  · rw [h1] at hq; exact Or.inl hq

theorem add_length_le {g g1 : OccupancyGrid} {p : WeightedKeypoint} {d : ℚ}
    (h : g.addPointOrReplaceWeakestNearestPoints p d = some g1) :
    g1.points.length ≤ g.points.length + 1 := by
  rcases add_points h with h1 | h1
  · rw [h1, List.length_append]
    have := List.length_filter_le (fun q => !g.conflictsWith d p q) g.points
    simp; omega
  · rw [h1]; omega

/-- A point that is in the image and at least `d` away from all retained points is appended. -/
theorem add_of_apart {g : OccupancyGrid} {p : WeightedKeypoint} {d : ℚ}
    (hin : g.inGrid p) (hfar : ∀ q ∈ g.points, apart d q p) :
    g.addPointOrReplaceWeakestNearestPoints p d = some { g with points := g.points ++ [p] } := by
  have hnil : g.points.filter (g.conflictsWith d p) = [] := by
    rw [List.filter_eq_nil_iff]
    intro q hq
    have := hfar q hq
    unfold apart at this
    unfold conflictsWith closerThan
    simp only [Bool.and_eq_true, decide_eq_true_eq, not_and, not_lt]
    intro _ _
    exact this
  unfold addPointOrReplaceWeakestNearestPoints
  rw [if_pos hin, hnil]

/-- An insertion keeps the retained points pairwise at least `d` apart, for cells that are
at least as large as `d`. -/
theorem add_pairwise_apart {g g1 : OccupancyGrid} {p : WeightedKeypoint} {d : ℚ}
    (hd : 0 < d) (hr : d ≤ g.cell_size_rows) (hc : d ≤ g.cell_size_cols)
    (hpw : g.points.Pairwise (apart d))
    (h : g.addPointOrReplaceWeakestNearestPoints p d = some g1) :
    g1.points.Pairwise (apart d) := by
  rcases add_points h with h1 | h1
  · rw [h1, List.pairwise_append]
    refine ⟨hpw.filter _, List.pairwise_singleton _ _, ?_⟩
    intro a ha b hb
    have hb' : b = p := by simpa using hb
    subst hb'
    have hna := (List.mem_filter.mp ha).2
    have hna' : g.conflictsWith d b a = false := by simpa using hna
    exact apart_of_not_conflictsWith hd hr hc hna'
  · rw [h1]; exact hpw

theorem mem_getAllPointsInGrid {g : OccupancyGrid} {q : WeightedKeypoint}
    (h : q ∈ g.getAllPointsInGrid) : q ∈ g.points := by
  unfold getAllPointsInGrid cell at h
  simp only [List.mem_flatMap, List.mem_filter] at h
  obtain ⟨_, _, _, _, hq, _⟩ := h
  exact hq

theorem sum_range_ite (N : Nat) (z : Int) (n : Nat) :
    ((List.range N).map (fun i : Nat => if z = (i : Int) then n else 0)).sum =
      if 0 ≤ z ∧ z < (N : Int) then n else 0 := by
  induction N with
  | zero =>
    have h : ¬ (0 ≤ z ∧ z < ((0 : Nat) : Int)) := by omega
    rw [if_neg h]; rfl
  | succ N ih =>
    rw [List.range_succ, List.map_append, List.sum_append, ih]
    simp only [List.map_cons, List.map_nil, List.sum_cons, List.sum_nil, add_zero]
    by_cases h1 : z = (N : Int)
    · subst h1
      simp
    · rw [if_neg h1]
      by_cases h2 : 0 ≤ z ∧ z < (N : Int)
      · rw [if_pos h2, if_pos ⟨h2.1, by push_cast; omega⟩]; rfl
      · rw [if_neg h2, if_neg (by push_cast; omega)]

theorem count_cell (g : OccupancyGrid) (a : WeightedKeypoint) (r c : Int) :
    (g.cell r c).count a =
      if g.cellRow a = r then (if g.cellCol a = c then g.points.count a else 0) else 0 := by
  unfold cell
  by_cases h : g.cellRow a = r ∧ g.cellCol a = c
  · rw [List.count_filter (by simpa using h), if_pos h.1, if_pos h.2]
  · have : a ∉ g.points.filter (fun p => decide (g.cellRow p = r ∧ g.cellCol p = c)) := by
      intro hm
      have := (List.mem_filter.mp hm).2
      exact h (by simpa using this)
    rw [List.count_eq_zero_of_not_mem this]
    by_cases h1 : g.cellRow a = r
    · rw [if_pos h1, if_neg (fun h2 => h ⟨h1, h2⟩)]
    · rw [if_neg h1]

theorem count_getAllPointsInGrid (g : OccupancyGrid) (a : WeightedKeypoint) :
    g.getAllPointsInGrid.count a =
      if 0 ≤ g.cellRow a ∧ g.cellRow a < (g.numCellRows : Int) then
        (if 0 ≤ g.cellCol a ∧ g.cellCol a < (g.numCellCols : Int) then g.points.count a else 0)
      else 0 := by
  unfold getAllPointsInGrid
  rw [List.count_flatMap]
  have hinner : ∀ r : Nat, (List.count a ∘ fun r : Nat =>
      (List.range g.numCellCols).flatMap fun c : Nat => g.cell (r : Int) (c : Int)) r =
      if g.cellRow a = (r : Int) then
        (if 0 ≤ g.cellCol a ∧ g.cellCol a < (g.numCellCols : Int) then g.points.count a else 0)
      else 0 := by
    intro r
    simp only [Function.comp]
    rw [List.count_flatMap]
    by_cases h1 : g.cellRow a = (r : Int)
    · rw [if_pos h1, ← sum_range_ite]
      congr 1
      apply List.map_congr_left
      intro c _
      simp only [Function.comp]
      rw [count_cell, if_pos h1]
    · rw [if_neg h1]
      apply List.sum_eq_zero
      intro x hx
      rw [List.mem_map] at hx
      obtain ⟨c, _, rfl⟩ := hx
      simp only [Function.comp]
      rw [count_cell, if_neg h1]
  rw [List.map_congr_left (fun r _ => hinner r)]
  exact sum_range_ite _ _ _

/-- The cell of a point of the image is one of the cells of the grid. -/
theorem cell_in_range {x m c : ℚ} (hc : 0 < c) (h0 : 0 ≤ x) (h1 : x < m) :
    0 ≤ ⌊x / c⌋ ∧ ⌊x / c⌋ < ((⌈m / c⌉.toNat : Nat) : Int) := by
  have hx : 0 ≤ x / c := div_nonneg h0 hc.le
  have hlt : x / c < m / c := div_lt_div_of_pos_right h1 hc
  refine ⟨Int.floor_nonneg.mpr hx, ?_⟩
  have h2 : ⌊x / c⌋ < ⌈m / c⌉ := by
    rw [Int.floor_lt]
    exact lt_of_lt_of_le hlt (Int.le_ceil _)
  have h3 : 0 ≤ ⌈m / c⌉ := by
    have := Int.floor_nonneg.mpr hx
    omega
  rw [Int.toNat_of_nonneg h3]
  exact h2

/-- Reading the grid out yields the retained points, each once, in cell order. -/
theorem getAllPointsInGrid_perm {g : OccupancyGrid} (hr : 0 < g.cell_size_rows)
    (hc : 0 < g.cell_size_cols) (hin : ∀ q ∈ g.points, g.inGrid q) :
    g.getAllPointsInGrid.Perm g.points := by
  rw [List.perm_iff_count]
  intro a
  rw [count_getAllPointsInGrid]
  by_cases ha : a ∈ g.points
  · obtain ⟨h1, h2, h3, h4⟩ := hin a ha
    have hrow : 0 ≤ g.cellRow a ∧ g.cellRow a < (g.numCellRows : Int) :=
      cell_in_range hr h1 h2
    have hcol : 0 ≤ g.cellCol a ∧ g.cellCol a < (g.numCellCols : Int) :=
      cell_in_range hc h3 h4
    rw [if_pos hrow, if_pos hcol]
  · rw [List.count_eq_zero_of_not_mem ha]
    split_ifs <;> rfl

theorem setConstantWeight_pairwise_apart {g : OccupancyGrid} {d : ℚ} (w : Weight)
    (h : g.points.Pairwise (apart d)) :
    (g.setConstantWeightForAllPointsInGrid w).points.Pairwise (apart d) := by
  unfold setConstantWeightForAllPointsInGrid
  simp only [List.pairwise_map]
  exact h

theorem runCalls_pairwise_apart {d : ℚ} (hd : 0 < d) (calls : List GridCall) :
    ∀ (g g1 : OccupancyGrid), d ≤ g.cell_size_rows → d ≤ g.cell_size_cols →
      g.points.Pairwise (apart d) → runCalls d calls g = some g1 →
      g1.points.Pairwise (apart d) := by
  induction calls with
  | nil =>
    intro g g1 _ _ hpw h
    simp only [runCalls, Option.some.injEq] at h
    subst h; exact hpw
  | cons call rest ih =>
    intro g g1 hr hc hpw h
    cases call with
    | addPointOrReplaceWeakestNearestPoints point =>
      simp only [runCalls] at h
      split at h
      · exact absurd h (by simp)
      · rename_i g2 hadd
        obtain ⟨_, _, h3, h4⟩ := add_dims hadd
        exact ih g2 g1 (h3 ▸ hr) (h4 ▸ hc) (add_pairwise_apart hd hr hc hpw hadd) h
    | setConstantWeightForAllPointsInGrid w =>
      simp only [runCalls] at h
      exact ih (g.setConstantWeightForAllPointsInGrid w) g1 hr hc
        (setConstantWeight_pairwise_apart w hpw) h


theorem addAll_mem {d : ℚ} (ps : List WeightedKeypoint) :
    ∀ (g g1 : OccupancyGrid), addAll d ps g = some g1 →
      ∀ q ∈ g1.points, q ∈ g.points ∨ q ∈ ps := by
  induction ps with
  | nil =>
    intro g g1 h q hq
    simp only [addAll, Option.some.injEq] at h
    subst h; exact Or.inl hq
  | cons p rest ih =>
    intro g g1 h q hq
    simp only [addAll] at h
    split at h
    · exact absurd h (by simp)
    · rename_i g2 hadd
      rcases ih g2 g1 h q hq with h1 | h1
      · rcases add_mem hadd h1 with h2 | h2
        · exact Or.inl h2
        · exact Or.inr (h2 ▸ List.mem_cons_self _ _)
      · exact Or.inr (List.mem_cons_of_mem _ h1)

theorem addAll_dims {d : ℚ} (ps : List WeightedKeypoint) :
    ∀ (g g1 : OccupancyGrid), addAll d ps g = some g1 →
      g1.max_input_coordinate_rows = g.max_input_coordinate_rows ∧
      g1.max_input_coordinate_cols = g.max_input_coordinate_cols ∧
      g1.cell_size_rows = g.cell_size_rows ∧ g1.cell_size_cols = g.cell_size_cols := by
  induction ps with
  | nil =>
    intro g g1 h
    simp only [addAll, Option.some.injEq] at h
    subst h; simp
  | cons p rest ih =>
    intro g g1 h
    simp only [addAll] at h
    split at h
    · exact absurd h (by simp)
    · rename_i g2 hadd
      obtain ⟨a1, a2, a3, a4⟩ := add_dims hadd
      obtain ⟨b1, b2, b3, b4⟩ := ih g2 g1 h
      exact ⟨b1.trans a1, b2.trans a2, b3.trans a3, b4.trans a4⟩

theorem addAll_length_le {d : ℚ} (ps : List WeightedKeypoint) :
    ∀ (g g1 : OccupancyGrid), addAll d ps g = some g1 →
      g1.points.length ≤ g.points.length + ps.length := by
  induction ps with
  | nil =>
    intro g g1 h
    simp only [addAll, Option.some.injEq] at h
    subst h; simp
  | cons p rest ih =>
    intro g g1 h
    simp only [addAll] at h
    split at h
    · exact absurd h (by simp)
    · rename_i g2 hadd
      have h1 := add_length_le hadd
      have h2 := ih g2 g1 h
      simp only [List.length_cons]
      omega

/-- The insertion of points of the image is never fatal. -/
theorem addAll_isSome {d : ℚ} (ps : List WeightedKeypoint) :
    ∀ (g : OccupancyGrid), (∀ p ∈ ps, g.inGrid p) → ∃ g1, addAll d ps g = some g1 := by
  induction ps with
  | nil => intro g _; exact ⟨g, rfl⟩
  | cons p rest ih =>
    intro g hin
    have hp := hin p (List.mem_cons_self _ _)
    have hadd : ∃ g2, g.addPointOrReplaceWeakestNearestPoints p d = some g2 := by
      unfold addPointOrReplaceWeakestNearestPoints
      rw [if_pos hp]
      split
      · exact ⟨_, rfl⟩
      · split_ifs
        · exact ⟨_, rfl⟩
        · exact ⟨_, rfl⟩
    obtain ⟨g2, hg2⟩ := hadd
    obtain ⟨a1, a2, _, _⟩ := add_dims hg2
    have hin2 : ∀ q ∈ rest, g2.inGrid q := by
      intro q hq
      have := hin q (List.mem_cons_of_mem _ hq)
      unfold inGrid at *
      rw [a1, a2]; exact this
    obtain ⟨g3, hg3⟩ := ih g2 hin2
    exact ⟨g3, by simp only [addAll, hg2, hg3]⟩

/-- Only points of the image are inserted. -/
theorem addAll_inGrid {d : ℚ} (ps : List WeightedKeypoint) :
    ∀ (g g1 : OccupancyGrid), addAll d ps g = some g1 → ∀ p ∈ ps, g.inGrid p := by
  induction ps with
  | nil => intro g g1 _ p hp; simp at hp
  | cons p rest ih =>
    intro g g1 h q hq
    simp only [addAll] at h
    split at h
    · exact absurd h (by simp)
    · rename_i g2 hadd
      rcases List.mem_cons.mp hq with rfl | hq
      · exact (add_cases hadd).1
      · have := ih g2 g1 h q hq
        obtain ⟨a1, a2, _, _⟩ := add_dims hadd
        unfold inGrid at *
        rw [← a1, ← a2]; exact this

end OccupancyGrid

namespace FeatureTrackerLk

theorem tooCloseToImageBorder_eq_false (t : FeatureTrackerLk) (pt : Point2f) :
    t.tooCloseToImageBorder pt = false ↔ t.insideBorder pt := by
  have hw := t.border_width_checked
  have hh := t.border_height_checked
  unfold tooCloseToImageBorder insideBorder
  rw [decide_eq_false_iff_not]
  rw [Nat.cast_sub (by omega), Nat.cast_sub (by omega)]
  simp only [not_or, not_lt, not_le]

theorem insertNewKeypoints_eq_addAll (d : ℚ) (ks : List KeyPoint) :
    ∀ g : OccupancyGrid,
      insertNewKeypoints d ks g = OccupancyGrid.addAll d (ks.map newWeightedKeypoint) g := by
  induction ks with
  | nil => intro g; rfl
  | cons k rest ih =>
    intro g
    simp only [insertNewKeypoints, List.map_cons, OccupancyGrid.addAll]
    split
    · rfl
    · exact ih _

theorem selectTrackedKeypoints_eq_addAll (t : FeatureTrackerLk) (ext : Externals)
    (cands : List KeyPoint) (l : List (KeyPoint × Bool × ℚ)) :
    ∀ (i : Nat) (g : OccupancyGrid),
      t.selectTrackedKeypoints ext cands l i g =
        OccupancyGrid.addAll t.settings.min_distance_between_features_px
          (t.offeredPoints ext cands l i) g := by
  induction l with
  | nil => intro i g; rfl
  | cons a rest ih =>
    intro i g
    obtain ⟨k, s, e⟩ := a
    simp only [selectTrackedKeypoints, offeredPoints]
    split
    · rw [ih]
    · simp only [OccupancyGrid.addAll]
      split
      · rfl
      · exact ih _ _

/-- The offered points are those the loop body yields at the indices of the list. -/
theorem mem_offeredPoints (t : FeatureTrackerLk) (ext : Externals)
    (cands : List KeyPoint) (l : List (KeyPoint × Bool × ℚ)) :
    ∀ (i : Nat) (p : WeightedKeypoint),
      p ∈ t.offeredPoints ext cands l i ↔
        ∃ j k s e, l[j]? = some (k, s, e) ∧
          t.trackedPointToInsert ext cands k s e (i + j) = some p := by
  induction l with
  | nil => intro i p; simp [offeredPoints]
  | cons a rest ih =>
    intro i p
    obtain ⟨k, s, e⟩ := a
    constructor
    · intro h
      simp only [offeredPoints] at h
      split at h
      · obtain ⟨j, k1, s1, e1, h1, h2⟩ := (ih (i + 1) p).mp h
        exact ⟨j + 1, k1, s1, e1, by simpa using h1, by rw [← h2]; congr 1; omega⟩
      · rename_i q hq
        rcases List.mem_cons.mp h with rfl | h
        · exact ⟨0, k, s, e, by simp, by simpa using hq⟩
        · obtain ⟨j, k1, s1, e1, h1, h2⟩ := (ih (i + 1) p).mp h
          exact ⟨j + 1, k1, s1, e1, by simpa using h1, by rw [← h2]; congr 1; omega⟩
    · rintro ⟨j, k1, s1, e1, h1, h2⟩
      simp only [offeredPoints]
      cases j with
      | zero =>
        simp only [List.getElem?_cons_zero, Option.some.injEq, Prod.mk.injEq] at h1
        obtain ⟨rfl, rfl, rfl⟩ := h1
        simp only [add_zero] at h2
        rw [h2]
        exact List.mem_cons_self _ _
      | succ j =>
        have h3 : p ∈ t.offeredPoints ext cands rest (i + 1) :=
          (ih (i + 1) p).mpr ⟨j, k1, s1, e1, by simpa using h1, by rw [← h2]; congr 1; omega⟩
        split
        · exact h3
        · exact List.mem_cons_of_mem _ h3


/-- The nearest fresh detection is within the search radius exactly if some fresh detection
is (or if the initial value already was). -/
theorem withinSearchRadius_nearestKeypoint (ext : Externals) (point : Point2f)
    (l : List KeyPoint) :
    ∀ (idx : Nat) (best : Option ℚ × Nat),
      withinSearchRadius ext (nearestKeypoint point l idx best).1 = true ↔
        (withinSearchRadius ext best.1 = true ∨
          ∃ c ∈ l, squaredNorm c.pt.x c.pt.y point.x point.y <
            ext.FLAGS_lk_keypoint_search_radius_pixels_squared) := by
  induction l with
  | nil => intro idx best; simp [nearestKeypoint]
  | cons k ks ih =>
    intro idx best
    simp only [nearestKeypoint]
    rw [ih]
    simp only [List.mem_cons, exists_eq_or_imp]
    rw [← or_assoc]
    apply or_congr_left
    obtain ⟨b, j⟩ := best
    cases b with
    | none => simp [withinSearchRadius]
    | some m =>
      by_cases hlt : squaredNorm k.pt.x k.pt.y point.x point.y < m
      · simp only [hlt, decide_True, if_true, withinSearchRadius, decide_eq_true_eq]
        constructor
        · intro h; exact Or.inr h
        · rintro (h | h)
          · exact lt_trans hlt h
          · exact h
      · simp only [hlt, decide_False, Bool.false_eq_true, if_false, withinSearchRadius,
          decide_eq_true_eq]
        constructor
        · intro h; exact Or.inl h
        · rintro (h | h)
          · exact h
          · exact lt_of_le_of_lt (not_lt.mp hlt) h

/-- The index found by the search is that of a fresh detection at the minimal distance found. -/
theorem nearestKeypoint_index (point : Point2f) (l : List KeyPoint) :
    ∀ (pre : List KeyPoint) (best : Option ℚ × Nat),
      (∀ m, best.1 = some m → ∃ c, (pre ++ l)[best.2]? = some c ∧
        squaredNorm c.pt.x c.pt.y point.x point.y = m) →
      ∀ m, (nearestKeypoint point l pre.length best).1 = some m →
        ∃ c, (pre ++ l)[(nearestKeypoint point l pre.length best).2]? = some c ∧
          squaredNorm c.pt.x c.pt.y point.x point.y = m := by
  induction l with
  | nil => intro pre best hbest m hm; exact hbest m hm
  | cons k ks ih =>
    intro pre best hbest m hm
    simp only [nearestKeypoint] at hm ⊢
    have hlen : (pre ++ [k]).length = pre.length + 1 := by simp
    have happ : pre ++ k :: ks = (pre ++ [k]) ++ ks := by simp
    rw [← hlen] at hm ⊢
    rw [happ]
    apply ih (pre ++ [k]) _ _ m hm
    intro m1 hm1
    rw [← happ]
    split_ifs at hm1 ⊢ with hc
    · simp only [Option.some.injEq] at hm1
      exact ⟨k, by rw [List.getElem?_append_right (le_refl _)]; simp, hm1⟩
    · exact hbest m1 hm1

/-- The distance found by the search is minimal. -/
theorem nearestKeypoint_le (point : Point2f) (l : List KeyPoint) :
    ∀ (idx : Nat) (best : Option ℚ × Nat),
      (∀ b, best.1 = some b → ∃ m, (nearestKeypoint point l idx best).1 = some m ∧ m ≤ b) ∧
      (∀ c ∈ l, ∃ m, (nearestKeypoint point l idx best).1 = some m ∧
        m ≤ squaredNorm c.pt.x c.pt.y point.x point.y) := by
  induction l with
  | nil =>
    intro idx best
    exact ⟨fun b hb => ⟨b, hb, le_refl b⟩, fun c hc => absurd hc (List.not_mem_nil c)⟩
  | cons k ks ih =>
    intro idx best
    simp only [nearestKeypoint]
    obtain ⟨b0, j0⟩ := best
    cases b0 with
    | none =>
      simp only [if_true]
      obtain ⟨h1, h2⟩ := ih (idx + 1) (some (squaredNorm k.pt.x k.pt.y point.x point.y), idx)
      refine ⟨fun b hb => absurd hb (by simp), ?_⟩
      intro c hc
      rcases List.mem_cons.mp hc with rfl | hc
      · exact h1 _ rfl
      · exact h2 c hc
    | some b0 =>
      by_cases hlt : squaredNorm k.pt.x k.pt.y point.x point.y < b0
      · simp only [hlt, decide_True, if_true]
        obtain ⟨h1, h2⟩ := ih (idx + 1) (some (squaredNorm k.pt.x k.pt.y point.x point.y), idx)
        obtain ⟨m, hm, hle⟩ := h1 _ rfl
        refine ⟨?_, ?_⟩
        · intro b hb
          simp only [Option.some.injEq] at hb
          subst hb
          exact ⟨m, hm, le_trans hle hlt.le⟩
        · intro c hc
          rcases List.mem_cons.mp hc with rfl | hc
          · exact ⟨m, hm, hle⟩
          · exact h2 c hc
      · simp only [hlt, decide_False, Bool.false_eq_true, if_false]
        obtain ⟨h1, h2⟩ := ih (idx + 1) (some b0, j0)
        obtain ⟨m, hm, hle⟩ := h1 _ rfl
        refine ⟨?_, ?_⟩
        · intro b hb
          simp only [Option.some.injEq] at hb
          subst hb
          exact ⟨m, hm, hle⟩
        · intro c hc
          rcases List.mem_cons.mp hc with rfl | hc
          · exact ⟨m, hm, le_trans hle (not_lt.mp hlt)⟩
          · exact h2 c hc

/-- The loop body offers the keypoint exactly if the flow succeeded, the position keeps the
border margin, the index is not to be aborted, and a fresh detection is within the search
radius or the flow error is not above the maximal tracking error. -/
theorem trackedPointToInsert_isSome (t : FeatureTrackerLk) (ext : Externals)
    (cands : List KeyPoint) (k : KeyPoint) (s : Bool) (e : ℚ) (i : Nat) :
    (t.trackedPointToInsert ext cands k s e i).isSome = true ↔
      (s = true ∧ t.insideBorder k.pt ∧ i ∉ t.keypoint_indices_to_abort ∧
        ((∃ c ∈ cands, squaredNorm c.pt.x c.pt.y k.pt.x k.pt.y <
            ext.FLAGS_lk_keypoint_search_radius_pixels_squared) ∨
          e ≤ ext.FLAGS_lk_max_tracking_error)) := by
  have hn := withinSearchRadius_nearestKeypoint ext k.pt cands 0 (none, 0)
  simp only [show withinSearchRadius ext ((none, 0) : Option ℚ × Nat).1 = false from rfl,
    Bool.false_eq_true, false_or] at hn
  rw [← tooCloseToImageBorder_eq_false, ← hn]
  unfold trackedPointToInsert
  cases s with
  | false => simp
  | true =>
    simp only [Bool.not_true, Bool.false_eq_true, if_false, true_and]
    cases hb : t.tooCloseToImageBorder k.pt with
    | true => simp
    | false =>
      simp only [Bool.false_eq_true, if_false, true_and]
      by_cases ha : i ∈ t.keypoint_indices_to_abort
      · simp [ha]
      · simp only [ha, if_false, not_false_eq_true, true_and]
        cases hw : withinSearchRadius ext (nearestKeypoint k.pt cands 0 (none, 0)).1 with
        | true => simp
        | false =>
          simp only [Bool.false_eq_true, if_false, false_or]
          by_cases he : ext.FLAGS_lk_max_tracking_error < e
          · simp [he]
          · simp [he, not_lt.mp he]

/-- What the loop body offers: the tracked keypoint itself with the negated error as weight
and its index as id, at its own position or at that of a fresh detection. -/
theorem trackedPointToInsert_some (t : FeatureTrackerLk) (ext : Externals)
    (cands : List KeyPoint) (k : KeyPoint) (s : Bool) (e : ℚ) (i : Nat) (p : WeightedKeypoint)
    (h : t.trackedPointToInsert ext cands k s e i = some p) :
    p.point = k ∧ p.weight = Weight.val (-e) ∧ p.id = (i : Int) ∧
      ((p.u_rows = k.pt.y ∧ p.v_cols = k.pt.x) ∨
        (∃ c ∈ cands, p.u_rows = c.pt.y ∧ p.v_cols = c.pt.x ∧
          squaredNorm c.pt.x c.pt.y k.pt.x k.pt.y <
            ext.FLAGS_lk_keypoint_search_radius_pixels_squared ∧
          ∀ c1 ∈ cands, squaredNorm c.pt.x c.pt.y k.pt.x k.pt.y ≤
            squaredNorm c1.pt.x c1.pt.y k.pt.x k.pt.y)) := by
  unfold trackedPointToInsert at h
  by_cases h1 : (!s) = true
  · rw [if_pos h1] at h; exact absurd h (by simp)
  rw [if_neg h1] at h
  by_cases h2 : t.tooCloseToImageBorder k.pt = true
  · rw [if_pos h2] at h; exact absurd h (by simp)
  rw [if_neg h2] at h
  by_cases h3 : i ∈ t.keypoint_indices_to_abort
  · rw [if_pos h3] at h; exact absurd h (by simp)
  rw [if_neg h3] at h
  simp only [] at h
  by_cases h4 : withinSearchRadius ext (nearestKeypoint k.pt cands 0 (none, 0)).1 = true
  · rw [if_pos h4] at h
    simp only [Option.some.injEq] at h
    subst h
    refine ⟨rfl, rfl, rfl, Or.inr ?_⟩
    cases hm : (nearestKeypoint k.pt cands 0 (none, 0)).1 with
    | none => rw [hm] at h4; simp [withinSearchRadius] at h4
    | some m =>
      rw [hm] at h4
      simp only [withinSearchRadius, decide_eq_true_eq] at h4
      have hidx := nearestKeypoint_index k.pt cands [] (none, 0) (by simp) m
        (by simpa using hm)
      simp only [List.nil_append, List.length_nil] at hidx
      obtain ⟨c, hc, hd⟩ := hidx
      have hget : cands.getD (nearestKeypoint k.pt cands 0 (none, 0)).2 k = c := by
        rw [List.getD_eq_getElem?_getD, hc]; rfl
      rw [hget]
      refine ⟨c, List.getElem?_mem hc, rfl, rfl, hd ▸ h4, ?_⟩
      intro c1 hc1
      obtain ⟨m1, hm1, hle⟩ := (nearestKeypoint_le k.pt cands 0 (none, 0)).2 c1 hc1
      rw [hm] at hm1
      simp only [Option.some.injEq] at hm1
      rw [hd, hm1]; exact hle
  · rw [if_neg h4] at h
    by_cases h5 : ext.FLAGS_lk_max_tracking_error < e
    · rw [if_pos h5] at h; exact absurd h (by simp)
    rw [if_neg h5] at h
    simp only [Option.some.injEq] at h
    subst h
    exact ⟨rfl, rfl, rfl, Or.inl ⟨rfl, rfl⟩⟩


/-- What a returning call of track computed, stage by stage. -/
theorem track_some {t t1 : FeatureTrackerLk} {ext : Externals} {q : Quaternion}
    {frame_k frame_kp1 f1 : VisualFrame} {matches_kp1_k : List FrameToFrameMatchWithScore}
    (h : t.track ext q frame_k frame_kp1 = some (t1, f1, matches_kp1_k)) :
    t.trackPreconditions frame_k frame_kp1 = true ∧
    ∃ image kps succ errs g,
      frame_kp1.raw_image = some image ∧
      trackedKeypoints ext q frame_k image = some (kps, succ, errs) ∧
      t.trackGrid ext frame_kp1 image kps succ errs = some g ∧
      t1 = { t with keypoint_indices_to_abort := []
                    abort_keypoints_wrt_frame_id := UniqueId.invalid } ∧
      f1 = insertCvKeypointsIntoEmptyVisualFrame (g.getAllPointsInGrid.map fun p => p.point)
        t.kKeypointUncertaintyPx frame_kp1 ∧
      matches_kp1_k = extractMatches g.getAllPointsInGrid 0 := by
  unfold track at h
  split_ifs at h with hpre
  refine ⟨hpre, ?_⟩
  split at h
  · exact absurd h (by simp)
  · rename_i image himg
    split at h
    · exact absurd h (by simp)
    · rename_i kps succ errs htr
      split at h
      · exact absurd h (by simp)
      · rename_i g hg
        simp only [Option.some.injEq, Prod.mk.injEq] at h
        obtain ⟨h1, h2, h3⟩ := h
        exact ⟨image, kps, succ, errs, g, himg, htr, hg, h1.symm, h2.symm, h3.symm⟩

/-- The keypoints that a frame holds after insertCvKeypointsIntoEmptyVisualFrame. -/
theorem insertCvKeypoints_measurements (ks : List KeyPoint) (u : ℚ) (f : VisualFrame) :
    (insertCvKeypointsIntoEmptyVisualFrame ks u f).keypoint_measurements =
      some (ks.map fun k => k.pt) := rfl

theorem newOccupancyGrid_dims (t : FeatureTrackerLk) :
    t.newOccupancyGrid.max_input_coordinate_rows = (t.camera.imageHeight : ℚ) ∧
    t.newOccupancyGrid.max_input_coordinate_cols = (t.camera.imageWidth : ℚ) ∧
    t.newOccupancyGrid.cell_size_rows = t.settings.min_distance_between_features_px ∧
    t.newOccupancyGrid.cell_size_cols = t.settings.min_distance_between_features_px ∧
    t.newOccupancyGrid.points = [] :=
  ⟨rfl, rfl, rfl, rfl, rfl⟩

/-- The grid of the tracked survivors: the grid after the selection loop, with all weights
maximal. -/
theorem trackedSurvivors_some {t : FeatureTrackerLk} {ext : Externals} {image : Mat}
    {kps : List KeyPoint} {succ : List Bool} {errs : List ℚ} {g0 : OccupancyGrid}
    (h : t.trackedSurvivors ext image kps succ errs = some g0) :
    ∃ g, OccupancyGrid.addAll t.settings.min_distance_between_features_px
        (t.offeredPoints ext (t.freshDetections ext image) (kps.zip (succ.zip errs)) 0)
        t.newOccupancyGrid = some g ∧
      g0 = g.setConstantWeightForAllPointsInGrid Weight.max := by
  unfold trackedSurvivors at h
  rw [selectTrackedKeypoints_eq_addAll] at h
  split at h
  · exact absurd h (by simp)
  · rename_i g hg
    exact ⟨g, hg, (Option.some.inj h).symm⟩

/-- The candidates that the redetection inserts into the grid `g`. -/
theorem detectNewKeypointsInVisualFrame_some {t : FeatureTrackerLk} {ext : Externals}
    {frame : VisualFrame} {mask : Mat} {g g1 : OccupancyGrid}
    (h : t.detectNewKeypointsInVisualFrame ext frame mask g = some g1) :
    ∃ image, frame.raw_image = some image ∧
      OccupancyGrid.addAll t.settings.min_distance_between_features_px
        ((t.newKeypoints ext image mask g).map newWeightedKeypoint) g = some g1 := by
  unfold detectNewKeypointsInVisualFrame at h
  split at h
  · exact absurd h (by simp)
  · rename_i image himg
    rw [insertNewKeypoints_eq_addAll] at h
    exact ⟨image, himg, h⟩

/-- Every point of a grid after detectNewKeypointsInVisualFrame was in the grid before or is
a new detection that keeps the border margin. -/
theorem detectNewKeypointsInVisualFrame_mem {t : FeatureTrackerLk} {ext : Externals}
    {frame : VisualFrame} {mask : Mat} {g g1 : OccupancyGrid}
    (h : t.detectNewKeypointsInVisualFrame ext frame mask g = some g1)
    {q : WeightedKeypoint} (hq : q ∈ g1.points) :
    q ∈ g.points ∨ ∃ k, q = newWeightedKeypoint k ∧ t.tooCloseToImageBorder k.pt = false := by
  obtain ⟨image, _, hadd⟩ := detectNewKeypointsInVisualFrame_some h
  rcases OccupancyGrid.addAll_mem _ _ _ hadd q hq with h1 | h1
  · exact Or.inl h1
  · right
    rw [List.mem_map] at h1
    obtain ⟨k, hk, rfl⟩ := h1
    unfold newKeypoints at hk
    have := (List.mem_filter.mp hk).2
    exact ⟨k, rfl, by simpa using this⟩

theorem redetect_mem {t : FeatureTrackerLk} {ext : Externals}
    {frame : VisualFrame} {g g1 : OccupancyGrid}
    (h : t.redetect ext frame g = some g1) {q : WeightedKeypoint} (hq : q ∈ g1.points) :
    q ∈ g.points ∨ ∃ k, q = newWeightedKeypoint k ∧ t.tooCloseToImageBorder k.pt = false := by
  unfold redetect at h
  split_ifs at h with h1 h2
  · exact detectNewKeypointsInVisualFrame_mem h hq
  · rw [Option.some.inj h]; exact Or.inl hq

/-- Where the points of the grid that track reads out come from: a point is a tracked
keypoint that the selection loop offered, with maximal weight, or a new detection that keeps
the border margin. -/
theorem trackGrid_mem {t : FeatureTrackerLk} {ext : Externals} {frame_kp1 : VisualFrame}
    {image : Mat} {kps : List KeyPoint} {succ : List Bool} {errs : List ℚ} {g : OccupancyGrid}
    (h : t.trackGrid ext frame_kp1 image kps succ errs = some g)
    {q : WeightedKeypoint} (hq : q ∈ g.points) :
    (∃ p ∈ t.offeredPoints ext (t.freshDetections ext image) (kps.zip (succ.zip errs)) 0,
        q = { p with weight := Weight.max }) ∨
      ∃ k, q = newWeightedKeypoint k ∧ t.tooCloseToImageBorder k.pt = false := by
  unfold trackGrid at h
  split at h
  · exact absurd h (by simp)
  · rename_i g0 hg0
    obtain ⟨g2, hadd, rfl⟩ := trackedSurvivors_some hg0
    rcases redetect_mem h hq with h1 | h1
    · left
      unfold OccupancyGrid.setConstantWeightForAllPointsInGrid at h1
      simp only [List.mem_map] at h1
      obtain ⟨p, hp, rfl⟩ := h1
      rcases OccupancyGrid.addAll_mem _ _ _ hadd p hp with h2 | h2
      · rw [(newOccupancyGrid_dims t).2.2.2.2] at h2
        exact absurd h2 (List.not_mem_nil p)
      · exact ⟨p, h2, rfl⟩
    · exact Or.inr h1

/-- The matches are read off the points with a non-negative id, with their position in the
list as index. -/
theorem mem_extractMatches (l : List WeightedKeypoint) :
    ∀ (i : Nat) (m : FrameToFrameMatchWithScore),
      m ∈ extractMatches l i ↔
        ∃ p, i ≤ m.keypoint_index_kp1 ∧ l[m.keypoint_index_kp1 - i]? = some p ∧ 0 ≤ p.id ∧
          m.keypoint_index_k = p.id ∧ m.score = p.weight := by
  induction l with
  | nil => intro i m; simp [extractMatches]
  | cons a rest ih =>
    intro i m
    have hrest : (∃ p, i + 1 ≤ m.keypoint_index_kp1 ∧
          rest[m.keypoint_index_kp1 - (i + 1)]? = some p ∧ 0 ≤ p.id ∧
          m.keypoint_index_k = p.id ∧ m.score = p.weight) ↔
        (∃ p, i < m.keypoint_index_kp1 ∧ (a :: rest)[m.keypoint_index_kp1 - i]? = some p ∧
          0 ≤ p.id ∧ m.keypoint_index_k = p.id ∧ m.score = p.weight) := by
      constructor
      · rintro ⟨p, h1, h2, h3⟩
        refine ⟨p, h1, ?_, h3⟩
        have : m.keypoint_index_kp1 - i = (m.keypoint_index_kp1 - (i + 1)) + 1 := by omega
        rw [this, List.getElem?_cons_succ]; exact h2
      · rintro ⟨p, h1, h2, h3⟩
        refine ⟨p, h1, ?_, h3⟩
        have : m.keypoint_index_kp1 - i = (m.keypoint_index_kp1 - (i + 1)) + 1 := by omega
        rw [this, List.getElem?_cons_succ] at h2; exact h2
    have hhead : (∃ p, i ≤ m.keypoint_index_kp1 ∧
          (a :: rest)[m.keypoint_index_kp1 - i]? = some p ∧ 0 ≤ p.id ∧
          m.keypoint_index_k = p.id ∧ m.score = p.weight) ↔
        ((m.keypoint_index_kp1 = i ∧ 0 ≤ a.id ∧ m.keypoint_index_k = a.id ∧
            m.score = a.weight) ∨
          (∃ p, i < m.keypoint_index_kp1 ∧ (a :: rest)[m.keypoint_index_kp1 - i]? = some p ∧
            0 ≤ p.id ∧ m.keypoint_index_k = p.id ∧ m.score = p.weight)) := by
      constructor
      · rintro ⟨p, h1, h2, h3⟩
        rcases Nat.eq_or_lt_of_le h1 with h4 | h4
        · left
          rw [← h4] at h2
          simp only [Nat.sub_self, List.getElem?_cons_zero, Option.some.injEq] at h2
          subst h2
          exact ⟨h4.symm, h3⟩
        · right; exact ⟨p, h4, h2, h3⟩
      · rintro (⟨h1, h3⟩ | ⟨p, h1, h2, h3⟩)
        · exact ⟨a, h1.ge, by rw [h1]; simp, h3⟩
        · exact ⟨p, h1.le, h2, h3⟩
    rw [hhead, ← hrest, ← ih (i + 1) m]
    simp only [extractMatches]
    split_ifs with hid
    · rw [List.mem_cons]
      apply or_congr_left
      constructor
      · rintro rfl; exact ⟨rfl, hid, rfl, rfl⟩
      · rintro ⟨h1, _, h3, h4⟩
        cases m
        simp only at h1 h3 h4
        subst h1 h3 h4
        rfl
    · constructor
      · intro h; exact Or.inr h
      · rintro (⟨_, h2, _⟩ | h)
        · exact absurd h2 hid
        · exact h

/-- The indices in frame k+1 of the matches increase along the list. -/
theorem extractMatches_sorted (l : List WeightedKeypoint) :
    ∀ i : Nat, ((extractMatches l i).map fun m => m.keypoint_index_kp1).Sorted (· < ·) := by
  induction l with
  | nil => intro i; simp [extractMatches]
  | cons a rest ih =>
    intro i
    simp only [extractMatches]
    split_ifs with hid
    · simp only [List.map_cons, List.sorted_cons]
      refine ⟨?_, ih (i + 1)⟩
      intro b hb
      rw [List.mem_map] at hb
      obtain ⟨m, hm, rfl⟩ := hb
      obtain ⟨p, h1, _⟩ := (mem_extractMatches rest (i + 1) m).mp hm
      omega
    · exact ih (i + 1)


/-- Where the points that track reads out of the grid come from: the point at the index of
a tracked keypoint of frame k that the loop body offered, with maximal weight, or a new
detection that keeps the border margin. -/
theorem trackGrid_origin {t : FeatureTrackerLk} {ext : Externals} {frame_kp1 : VisualFrame}
    {image : Mat} {kps : List KeyPoint} {succ : List Bool} {errs : List ℚ} {g : OccupancyGrid}
    (h : t.trackGrid ext frame_kp1 image kps succ errs = some g)
    {q : WeightedKeypoint} (hq : q ∈ g.getAllPointsInGrid) :
    (∃ j k s e p, kps[j]? = some k ∧ succ[j]? = some s ∧ errs[j]? = some e ∧
        t.trackedPointToInsert ext (t.freshDetections ext image) k s e j = some p ∧
        q = { p with weight := Weight.max }) ∨
      ∃ k, q = newWeightedKeypoint k ∧ t.tooCloseToImageBorder k.pt = false := by
  rcases trackGrid_mem h (OccupancyGrid.mem_getAllPointsInGrid hq) with ⟨p, hp, rfl⟩ | h1
  · left
    obtain ⟨j, k, s, e, hj, hins⟩ := (mem_offeredPoints t ext _ _ 0 p).mp hp
    rw [List.getElem?_zip_eq_some] at hj
    obtain ⟨hk, hse⟩ := hj
    rw [List.getElem?_zip_eq_some] at hse
    simp only [zero_add] at hins
    exact ⟨j, k, s, e, p, hk, hse.1, hse.2, hins, rfl⟩
  · exact Or.inr h1

end FeatureTrackerLk

namespace OccupancyGrid

/-- Points of the image that are at least `d` away from each other and from the retained
points are all appended. -/
theorem addAll_of_apart {d : ℚ} (ps : List WeightedKeypoint) :
    ∀ (g : OccupancyGrid), (∀ p ∈ ps, g.inGrid p) → ps.Pairwise (apart d) →
      (∀ p ∈ ps, ∀ q ∈ g.points, apart d q p) →
      addAll d ps g = some { g with points := g.points ++ ps } := by
  induction ps with
  | nil => intro g _ _ _; simp [addAll]
  | cons p rest ih =>
    intro g hin hpw hfar
    simp only [addAll]
    rw [add_of_apart (hin p (List.mem_cons_self _ _)) (hfar p (List.mem_cons_self _ _))]
    simp only
    rw [ih]
    · simp
    · intro q hq; exact hin q (List.mem_cons_of_mem _ hq)
    · exact (List.pairwise_cons.mp hpw).2
    · intro q hq r hr
      simp only [List.mem_append, List.mem_singleton] at hr
      rcases hr with hr | rfl
      · exact hfar q (List.mem_cons_of_mem _ hq) r hr
      · exact (List.pairwise_cons.mp hpw).1 q hq

/-- The points of a grid stay in the image when points are inserted. -/
theorem addAll_points_inGrid {d : ℚ} {ps : List WeightedKeypoint} {g g1 : OccupancyGrid}
    (h : addAll d ps g = some g1) (hg : ∀ q ∈ g.points, g.inGrid q) :
    ∀ q ∈ g1.points, g1.inGrid q := by
  intro q hq
  obtain ⟨a1, a2, _, _⟩ := addAll_dims ps g g1 h
  have : g.inGrid q := by
    rcases addAll_mem ps g g1 h q hq with h1 | h1
    · exact hg q h1
    · exact addAll_inGrid ps g g1 h q h1
  unfold inGrid at *
  rw [a1, a2]; exact this

end OccupancyGrid

namespace FeatureTrackerLk

theorem assignScores_length (l : List KeyPoint) :
    ∀ s : Int, (assignScores l s).length = l.length := by
  induction l with
  | nil => intro s; rfl
  | cons k ks ih => intro s; simp [assignScores, ih]

/-- A detector that honours the budget makes detectNewKeypoints return at most the number of
keypoints that was asked for. -/
theorem detectNewKeypoints_length_le (t : FeatureTrackerLk) {ext : Externals}
    (hb : ext.honoursBudget) (image : Mat) (n : Nat) (mask : Mat) :
    (t.detectNewKeypoints ext image n mask).length ≤ n := by
  obtain ⟨h1, h2, h3, h4⟩ := hb
  unfold detectNewKeypoints
  split_ifs with h0
  · simp
  · refine le_trans (List.length_filter_le _ _) ?_
    unfold detectorKeypoints
    split
    · exact h1 _ _
    · exact h1 _ _
    · exact le_trans (List.length_filter_le _ _) (h2 _ _)
    · rw [assignScores_length, List.length_map, h4]
      exact h3 _ _ _ _

/-- A position that keeps the border margin lies in the image. -/
theorem inGrid_of_insideBorder (t : FeatureTrackerLk) {g : OccupancyGrid}
    (hr : g.max_input_coordinate_rows = (t.camera.imageHeight : ℚ))
    (hc : g.max_input_coordinate_cols = (t.camera.imageWidth : ℚ))
    {p : WeightedKeypoint} (h : t.insideBorder ⟨p.v_cols, p.u_rows⟩) : g.inGrid p := by
  unfold insideBorder at h
  unfold OccupancyGrid.inGrid
  simp only at h
  have hm : (0 : ℚ) ≤ (t.kMinDistanceToImageBorderPx : ℚ) := Nat.cast_nonneg _
  rw [hr, hc]
  refine ⟨?_, ?_, ?_, ?_⟩ <;> linarith [h.1, h.2.1, h.2.2.1, h.2.2.2]

theorem inGrid_newWeightedKeypoint (t : FeatureTrackerLk) {g : OccupancyGrid}
    (hr : g.max_input_coordinate_rows = (t.camera.imageHeight : ℚ))
    (hc : g.max_input_coordinate_cols = (t.camera.imageWidth : ℚ))
    {k : KeyPoint} (h : t.tooCloseToImageBorder k.pt = false) :
    g.inGrid (newWeightedKeypoint k) :=
  inGrid_of_insideBorder t hr hc ((tooCloseToImageBorder_eq_false t k.pt).mp h)

/-- The fresh detections keep the border margin. -/
theorem freshDetections_insideBorder (t : FeatureTrackerLk) (ext : Externals) (image : Mat)
    {c : KeyPoint} (hc : c ∈ t.freshDetections ext image) : t.insideBorder c.pt := by
  unfold freshDetections detectNewKeypoints at hc
  split_ifs at hc
  · simp at hc
  · have := (List.mem_filter.mp hc).2
    rw [← tooCloseToImageBorder_eq_false]
    simpa using this

/-- The point that the loop body offers lies in the image. -/
theorem inGrid_trackedPointToInsert (t : FeatureTrackerLk) (ext : Externals) (image : Mat)
    {g : OccupancyGrid}
    (hr : g.max_input_coordinate_rows = (t.camera.imageHeight : ℚ))
    (hc : g.max_input_coordinate_cols = (t.camera.imageWidth : ℚ))
    {k : KeyPoint} {s : Bool} {e : ℚ} {i : Nat} {p : WeightedKeypoint}
    (h : t.trackedPointToInsert ext (t.freshDetections ext image) k s e i = some p) :
    g.inGrid p := by
  apply inGrid_of_insideBorder t hr hc
  obtain ⟨_, _, _, hpos⟩ := trackedPointToInsert_some t ext _ k s e i p h
  rcases hpos with ⟨h1, h2⟩ | ⟨c, hcm, h1, h2, _⟩
  · rw [h1, h2]
    exact ((trackedPointToInsert_isSome t ext _ k s e i).mp (by rw [h]; rfl)).2.1
  · rw [h1, h2]
    exact freshDetections_insideBorder t ext image hcm

/-- With the fresh detections of track as candidates, no insertion of the selection loop is
fatal: the loop offers every point of `offeredPoints`. -/
theorem selectTrackedKeypoints_isSome (t : FeatureTrackerLk) (ext : Externals) (image : Mat)
    (l : List (KeyPoint × Bool × ℚ)) :
    ∃ g, t.selectTrackedKeypoints ext (t.freshDetections ext image) l 0 t.newOccupancyGrid =
      some g := by
  have hall : ∀ p ∈ t.offeredPoints ext (t.freshDetections ext image) l 0,
      t.newOccupancyGrid.inGrid p := by
    intro p hp
    obtain ⟨j, k, s, e, _, hins⟩ := (mem_offeredPoints t ext _ _ 0 p).mp hp
    exact inGrid_trackedPointToInsert t ext image (newOccupancyGrid_dims t).1
      (newOccupancyGrid_dims t).2.1 hins
  obtain ⟨g, hg⟩ := OccupancyGrid.addAll_isSome
    (d := t.settings.min_distance_between_features_px) _ t.newOccupancyGrid hall
  exact ⟨g, by rw [selectTrackedKeypoints_eq_addAll, hg]⟩

/-- The grid of the tracked survivors has the size of the image and cells of the minimal
feature distance; its points lie in the image and have the maximal weight. -/
theorem trackedSurvivors_grid {t : FeatureTrackerLk} {ext : Externals} {image : Mat}
    {kps : List KeyPoint} {succ : List Bool} {errs : List ℚ} {g0 : OccupancyGrid}
    (h : t.trackedSurvivors ext image kps succ errs = some g0) :
    g0.max_input_coordinate_rows = (t.camera.imageHeight : ℚ) ∧
    g0.max_input_coordinate_cols = (t.camera.imageWidth : ℚ) ∧
    g0.cell_size_rows = t.settings.min_distance_between_features_px ∧
    g0.cell_size_cols = t.settings.min_distance_between_features_px ∧
    (∀ q ∈ g0.points, g0.inGrid q) ∧ (∀ q ∈ g0.points, q.weight = Weight.max) := by
  obtain ⟨g, hadd, rfl⟩ := trackedSurvivors_some h
  obtain ⟨a1, a2, a3, a4⟩ := OccupancyGrid.addAll_dims _ _ _ hadd
  obtain ⟨b1, b2, b3, b4, b5⟩ := newOccupancyGrid_dims t
  have hin := OccupancyGrid.addAll_points_inGrid hadd (by rw [b5]; simp)
  refine ⟨a1.trans b1, a2.trans b2, a3.trans b3, a4.trans b4, ?_, ?_⟩
  · intro q hq
    unfold OccupancyGrid.setConstantWeightForAllPointsInGrid at hq ⊢
    simp only [List.mem_map] at hq
    obtain ⟨p, hp, rfl⟩ := hq
    exact hin p hp
  · intro q hq
    unfold OccupancyGrid.setConstantWeightForAllPointsInGrid at hq
    simp only [List.mem_map] at hq
    obtain ⟨p, _, rfl⟩ := hq
    rfl

/-- The grid that track reads out has the size of the image and cells of the minimal feature
distance, and its points lie in the image. -/
theorem trackGrid_grid {t : FeatureTrackerLk} {ext : Externals} {frame_kp1 : VisualFrame}
    {image : Mat} {kps : List KeyPoint} {succ : List Bool} {errs : List ℚ} {g : OccupancyGrid}
    (h : t.trackGrid ext frame_kp1 image kps succ errs = some g) :
    g.cell_size_rows = t.settings.min_distance_between_features_px ∧
    g.cell_size_cols = t.settings.min_distance_between_features_px ∧
    (∀ q ∈ g.points, g.inGrid q) := by
  unfold trackGrid at h
  split at h
  · exact absurd h (by simp)
  · rename_i g0 hg0
    obtain ⟨_, _, c3, c4, c5, _⟩ := trackedSurvivors_grid hg0
    unfold redetect at h
    split_ifs at h
    · obtain ⟨image1, _, hadd⟩ := detectNewKeypointsInVisualFrame_some h
      obtain ⟨a1, a2, a3, a4⟩ := OccupancyGrid.addAll_dims _ _ _ hadd
      exact ⟨a3.trans c3, a4.trans c4, OccupancyGrid.addAll_points_inGrid hadd c5⟩
    · rw [← Option.some.inj h]
      exact ⟨c3, c4, c5⟩

/-- The number of keypoints that track writes is the number of points of the grid. -/
theorem track_keypoints_perm {t : FeatureTrackerLk} {ext : Externals} {frame_kp1 : VisualFrame}
    {image : Mat} {kps : List KeyPoint} {succ : List Bool} {errs : List ℚ} {g : OccupancyGrid}
    (hd : 0 < t.settings.min_distance_between_features_px)
    (h : t.trackGrid ext frame_kp1 image kps succ errs = some g) :
    g.getAllPointsInGrid.Perm g.points := by
  obtain ⟨h1, h2, h3⟩ := trackGrid_grid h
  exact OccupancyGrid.getAllPointsInGrid_perm (h1 ▸ hd) (h2 ▸ hd) h3

end FeatureTrackerLk

/-- The tracker of the scene is the one the constructor returns. -/
theorem Scene.tracker_created :
    FeatureTrackerLk.create Scene.camera Scene.settings 2 (1 / 2) = some Scene.tracker :=
  rfl

/-- The external routines of the scene honour the keypoint budget. -/
theorem Scene.externals_honoursBudget (detections : List KeyPoint)
    (flow : List Point2f × List Bool × List ℚ) :
    (Scene.externals detections flow).honoursBudget := by
  refine ⟨?_, ?_, ?_, ?_⟩
  · intro l n; exact List.length_take_le n l
  · intro n image; exact Nat.zero_le n
  · intro image n d mask; exact Nat.zero_le n
  · intro image l; rfl

namespace FeatureTrackerLk

/-- The redetection when fewer than min_feature_count tracked keypoints survive: unless the
check of line 443 is fatal, the new keypoints for the budget `max_feature_count - count` are
inserted into the grid of the survivors. -/
theorem trackGrid_of_few_survivors {t : FeatureTrackerLk} {ext : Externals}
    {frame_kp1 : VisualFrame} {image : Mat} {kps : List KeyPoint} {succ : List Bool}
    {errs : List ℚ} {g0 g : OccupancyGrid}
    (himg : frame_kp1.raw_image = some image)
    (hsurv : t.trackedSurvivors ext image kps succ errs = some g0)
    (hlow : g0.getNumPoints < t.settings.min_feature_count)
    (h : t.trackGrid ext frame_kp1 image kps succ errs = some g) :
    g0.getNumPoints < t.settings.max_feature_count ∧
    t.trackGrid ext frame_kp1 image kps succ errs =
      OccupancyGrid.addAll t.settings.min_distance_between_features_px
        ((t.newKeypoints ext image (t.redetectionMask g0) g0).map newWeightedKeypoint) g0 := by
  have hcheck : g0.getNumPoints < t.settings.max_feature_count := by
    unfold trackGrid at h
    rw [hsurv] at h
    simp only [redetect, if_pos hlow] at h
    by_contra hn
    rw [if_neg hn] at h
    exact absurd h (by simp)
  refine ⟨hcheck, ?_⟩
  unfold trackGrid
  rw [hsurv]
  simp only [redetect, if_pos hlow, if_pos hcheck]
  unfold detectNewKeypointsInVisualFrame VisualFrame.getRawImage
  rw [himg]
  simp only
  rw [insertNewKeypoints_eq_addAll]
  rfl

end FeatureTrackerLk

namespace OccupancyGrid

end OccupancyGrid

namespace FeatureTrackerLk

/-- The previous-frame indices of the matches are the non-negative ids of the points, in
their order. -/
theorem extractMatches_index_k (l : List WeightedKeypoint) :
    ∀ i : Nat, (extractMatches l i).map (fun m => m.keypoint_index_k) =
      (l.filter (fun p => decide (0 ≤ p.id))).map (fun p => p.id) := by
  induction l with
  | nil => intro i; rfl
  | cons a rest ih =>
    intro i
    simp only [extractMatches]
    by_cases h : 0 ≤ a.id
    · rw [if_pos h, List.filter_cons_of_pos (by simpa using h)]
      simp only [List.map_cons, ih]
    · rw [if_neg h, List.filter_cons_of_neg (by simpa using h)]
      exact ih (i + 1)

end FeatureTrackerLk

namespace FeatureTrackerLk

/-- What detectNewKeypoints returns is a sublist of the keypoints of the detector. -/
theorem detectNewKeypoints_sublist_detector (t : FeatureTrackerLk) (ext : Externals)
    (image : Mat) (n : Nat) (mask : Mat) :
    (t.detectNewKeypoints ext image n mask).Sublist (t.detectorKeypoints ext image n mask) := by
  unfold detectNewKeypoints
  split_ifs
  · exact List.nil_sublist _
  · exact List.filter_sublist _

end FeatureTrackerLk

namespace FeatureTrackerLk

/-- What the preconditions of track say about the frames and the tracker. -/
theorem trackPreconditions_iff (t : FeatureTrackerLk) (frame_k frame_kp1 : VisualFrame) :
    t.trackPreconditions frame_k frame_kp1 = true ↔
      (∃ c, frame_k.camera_geometry = some c ∧ t.camera.id = c.id) ∧
      (∃ c, frame_kp1.camera_geometry = some c ∧ t.camera.id = c.id) ∧
      frame_kp1.raw_image.isSome = true ∧
      (frame_kp1.keypoint_measurements = none ∨ frame_kp1.keypoint_measurements = some []) ∧
      (frame_kp1.track_ids = none ∨ frame_kp1.track_ids = some []) ∧
      t.abortRequestOfOtherFrame frame_k = false := by
  unfold trackPreconditions VisualFrame.hasRawImage VisualFrame.hasNoKeypointMeasurements
    VisualFrame.hasNoTrackIds
  cases hk : frame_k.camera_geometry <;> cases hk1 : frame_kp1.camera_geometry <;>
    cases hm : frame_kp1.keypoint_measurements <;> cases hi : frame_kp1.track_ids <;>
    simp [List.length_eq_zero, and_assoc]

/-- A call of track whose preconditions fail is fatal, whatever the external routines
are. -/
theorem track_of_not_trackPreconditions (t : FeatureTrackerLk) (ext : Externals)
    (q : Quaternion) {frame_k frame_kp1 : VisualFrame}
    (h : ¬ t.trackPreconditions frame_k frame_kp1 = true) :
    t.track ext q frame_k frame_kp1 = none := by
  unfold track
  rw [if_neg h]

end FeatureTrackerLk

namespace FeatureTrackerLk

/-- The points that the selection loop offers from index `idx` on have ids from `idx` on. -/
theorem offeredPoints_id_ge (t : FeatureTrackerLk) (ext : Externals) (cands : List KeyPoint)
    (l : List (KeyPoint × Bool × ℚ)) (idx : Nat) (p : WeightedKeypoint)
    (hp : p ∈ t.offeredPoints ext cands l idx) : (idx : Int) ≤ p.id := by
  obtain ⟨j, k, s, e, -, hins⟩ := (mem_offeredPoints t ext cands l idx p).mp hp
  rw [(trackedPointToInsert_some t ext cands k s e (idx + j) p hins).2.2.1]
  exact_mod_cast Nat.le_add_right idx j

/-- Of the points that the selection loop offers from index `idx` on, the one with the id
`idx + i` is the point that the loop body makes of the keypoint at position `i` of the
list. -/
theorem offeredPoints_filter_id (t : FeatureTrackerLk) (ext : Externals)
    (cands : List KeyPoint) (l : List (KeyPoint × Bool × ℚ)) :
    ∀ (idx i : Nat) (k : KeyPoint) (s : Bool) (e : ℚ), l[i]? = some (k, s, e) →
      (t.offeredPoints ext cands l idx).filter (fun p => decide (p.id = ((idx + i : Nat) : Int)))
        = (t.trackedPointToInsert ext cands k s e (idx + i)).toList := by
  induction l with
  | nil => intro idx i k s e h; simp at h
  | cons a rest ih =>
    intro idx i k s e h
    obtain ⟨k0, s0, e0⟩ := a
    cases i with
    | zero =>
      simp only [List.getElem?_cons_zero, Option.some.injEq, Prod.mk.injEq] at h
      obtain ⟨rfl, rfl, rfl⟩ := h
      have hrest : (t.offeredPoints ext cands rest (idx + 1)).filter
          (fun p => decide (p.id = ((idx + 0 : Nat) : Int))) = [] := by
        rw [List.filter_eq_nil_iff]
        intro p hp
        have := offeredPoints_id_ge t ext cands rest (idx + 1) p hp
        simp only [decide_eq_true_eq]
        push_cast at this ⊢
        omega
      simp only [offeredPoints]
      cases hins : t.trackedPointToInsert ext cands k0 s0 e0 idx with
      | none => simpa [hins] using hrest
      | some p =>
        have hid := (trackedPointToInsert_some t ext cands k0 s0 e0 idx p hins).2.2.1
        simp only [Nat.add_zero] at hrest ⊢
        rw [hins]
        simp only [List.filter_cons, hid, decide_True, if_true, hrest, Option.toList]
    | succ j =>
      simp only [List.getElem?_cons_succ] at h
      have hih := ih (idx + 1) j k s e h
      have hidx : idx + 1 + j = idx + (j + 1) := by omega
      rw [hidx] at hih
      simp only [offeredPoints]
      cases hins : t.trackedPointToInsert ext cands k0 s0 e0 idx with
      | none => simpa [hins] using hih
      | some p =>
        have hid := (trackedPointToInsert_some t ext cands k0 s0 e0 idx p hins).2.2.1
        have hne : ¬ p.id = ((idx + (j + 1) : Nat) : Int) := by
          rw [hid]
          push_cast
          omega
        simp only [List.filter_cons, hne, decide_False, Bool.false_eq_true, if_false]
        exact hih

end FeatureTrackerLk

namespace FeatureTrackerLk

end FeatureTrackerLk

namespace OccupancyGrid

/-- The points of a grid after an insertion are, up to their order, among the points before
it and the inserted point, each as often as there. -/
theorem add_subperm {g g1 : OccupancyGrid} {p : WeightedKeypoint} {d : ℚ}
    (h : g.addPointOrReplaceWeakestNearestPoints p d = some g1) :
    g1.points.Subperm (g.points ++ [p]) := by
  rcases add_points h with h1 | h1
  · rw [h1]
    exact ((List.filter_sublist _).append_right [p]).subperm
  · rw [h1]
    exact (List.sublist_append_left _ _).subperm

/-- The points of a grid after a list of insertions are, up to their order, among the points
before them and the inserted points. -/
theorem addAll_subperm {d : ℚ} (ps : List WeightedKeypoint) :
    ∀ (g g1 : OccupancyGrid), addAll d ps g = some g1 → g1.points.Subperm (g.points ++ ps) := by
  induction ps with
  | nil =>
    intro g g1 h
    simp only [addAll, Option.some.injEq] at h
    subst h
    rw [List.append_nil]
  | cons p rest ih =>
    intro g g1 h
    simp only [addAll] at h
    split at h
    · exact absurd h (by simp)
    · rename_i g2 hg2
      have h1 := ih g2 g1 h
      have h2 : (g2.points ++ rest).Subperm ((g.points ++ [p]) ++ rest) :=
        (List.subperm_append_right rest).mpr (add_subperm hg2)
      have h3 := h1.trans h2
      simpa using h3

/-- The read-out of a grid holds every point at most as often as the grid. -/
theorem getAllPointsInGrid_subperm (g : OccupancyGrid) :
    g.getAllPointsInGrid.Subperm g.points := by
  rw [List.subperm_ext_iff]
  intro a _
  rw [count_getAllPointsInGrid]
  split_ifs <;> simp

end OccupancyGrid

/-- A list that is, up to its order, part of a list without duplicates has no duplicates. -/
theorem nodup_of_subperm {α : Type} {l1 l2 : List α} (h : l1.Subperm l2) (hn : l2.Nodup) :
    l1.Nodup := by
  obtain ⟨l, hperm, hsub⟩ := h
  exact hperm.nodup_iff.mp (hn.sublist hsub)

/-- The image of a part of a list is part of the image of the list. -/
theorem subperm_map {α β : Type} (f : α → β) {l1 l2 : List α} (h : l1.Subperm l2) :
    (l1.map f).Subperm (l2.map f) := by
  obtain ⟨l, hperm, hsub⟩ := h
  exact ⟨l.map f, hperm.map f, hsub.map f⟩

namespace FeatureTrackerLk

/-- The ids of the points that the selection loop offers increase strictly. -/
theorem offeredPoints_ids_sorted (t : FeatureTrackerLk) (ext : Externals)
    (cands : List KeyPoint) (l : List (KeyPoint × Bool × ℚ)) :
    ∀ idx : Nat, ((t.offeredPoints ext cands l idx).map fun p => p.id).Sorted (· < ·) := by
  induction l with
  | nil => intro idx; simp [offeredPoints]
  | cons a rest ih =>
    intro idx
    obtain ⟨k, s, e⟩ := a
    simp only [offeredPoints]
    cases hins : t.trackedPointToInsert ext cands k s e idx with
    | none => exact ih (idx + 1)
    | some p =>
      simp only [List.map_cons, List.sorted_cons]
      refine ⟨?_, ih (idx + 1)⟩
      intro b hb
      rw [List.mem_map] at hb
      obtain ⟨p1, hp1, rfl⟩ := hb
      have h1 := offeredPoints_id_ge t ext cands rest (idx + 1) p1 hp1
      rw [(trackedPointToInsert_some t ext cands k s e idx p hins).2.2.1]
      push_cast at h1
      omega

/-- The ids of frame k that the grid of track holds, those that are not negative, are
pairwise different. -/
theorem trackGrid_ids_nodup {t : FeatureTrackerLk} {ext : Externals} {frame_kp1 : VisualFrame}
    {image : Mat} {kps : List KeyPoint} {succ : List Bool} {errs : List ℚ} {g : OccupancyGrid}
    (h : t.trackGrid ext frame_kp1 image kps succ errs = some g) :
    ((g.getAllPointsInGrid.filter fun p => decide (0 ≤ p.id)).map fun p => p.id).Nodup := by
  unfold trackGrid at h
  split at h
  · exact absurd h (by simp)
  rename_i g0 hsurv
  obtain ⟨gA, hadd, rfl⟩ := trackedSurvivors_some hsurv
  have hA := OccupancyGrid.addAll_subperm _ _ _ hadd
  rw [(newOccupancyGrid_dims t).2.2.2.2, List.nil_append] at hA
  have hsorted := offeredPoints_ids_sorted t ext (t.freshDetections ext image)
    (kps.zip (succ.zip errs)) 0
  have hnodupA : (gA.points.map fun p => p.id).Nodup :=
    nodup_of_subperm (subperm_map _ hA) hsorted.nodup
  have hids0 : ((gA.setConstantWeightForAllPointsInGrid Weight.max).points.map fun p => p.id) =
      gA.points.map fun p => p.id := by
    simp [OccupancyGrid.setConstantWeightForAllPointsInGrid, List.map_map, Function.comp_def]
  have hg : ((g.points.filter fun p => decide (0 ≤ p.id)).map fun p => p.id).Subperm
      ((gA.setConstantWeightForAllPointsInGrid Weight.max).points.map fun p => p.id) := by
    unfold redetect at h
    split_ifs at h with h1 h2
    · obtain ⟨image1, -, hadd1⟩ := detectNewKeypointsInVisualFrame_some h
      have hB := OccupancyGrid.addAll_subperm _ _ _ hadd1
      have hB1 := subperm_map (fun p => p.id) (hB.filter fun p => decide (0 ≤ p.id))
      refine hB1.trans ?_
      rw [List.filter_append]
      have hnil : (List.map newWeightedKeypoint
          (t.newKeypoints ext image1
            (t.redetectionMask (gA.setConstantWeightForAllPointsInGrid Weight.max))
            (gA.setConstantWeightForAllPointsInGrid Weight.max))).filter
          (fun p => decide (0 ≤ p.id)) = [] := by
        rw [List.filter_eq_nil_iff]
        intro p hp
        rw [List.mem_map] at hp
        obtain ⟨k, -, rfl⟩ := hp
        simp [newWeightedKeypoint]
      rw [hnil, List.append_nil]
      exact subperm_map _ (List.filter_sublist _).subperm
    · simp only [Option.some.injEq] at h
      subst h
      exact subperm_map _ (List.filter_sublist _).subperm
  have hL := subperm_map (fun p => p.id)
    ((OccupancyGrid.getAllPointsInGrid_subperm g).filter fun p => decide (0 ≤ p.id))
  exact nodup_of_subperm (hL.trans hg) (hids0 ▸ hnodupA)

/-- The number of tracked keypoints is the number of keypoints of frame k. -/
theorem trackedKeypoints_count {ext : Externals} {q : Quaternion} {frame_k : VisualFrame}
    {image : Mat} {kps : List KeyPoint} {succ : List Bool} {errs : List ℚ}
    (h : trackedKeypoints ext q frame_k image = some (kps, succ, errs)) :
    frame_k.getNumKeypointMeasurements ext.num_keypoints_without_channel =
      some kps.length := by
  unfold trackedKeypoints at h
  split at h
  · rename_i tracked s e n keypoints_k htk hn hcv
    split_ifs at h with hlen
    simp only [Option.some.injEq, Prod.mk.injEq] at h
    obtain ⟨rfl, -, -⟩ := h
    rw [hn]
    simp [setTrackedPositions, hlen.1, hlen.2]
  · exact absurd h (by simp)

end FeatureTrackerLk

/-- An index below 2^31 is its own conversion to int. -/
theorem static_cast_int_of_lt {index : Nat} (h : index < 2 ^ 31) :
    static_cast_int index = (index : Int) := by
  unfold static_cast_int
  have h1 : index % 2 ^ 32 = index := Nat.mod_eq_of_lt (by omega)
  rw [h1, if_pos h]

/-- The element of a vector with the index `index`, as `coeff(index, 0)` reads it. -/
theorem coeff_index_zero {α : Type} (data : List α) (index : Nat) (value : α)
    (h : data[index]? = some value) : coeff data index 0 = Except.ok value := by
  unfold coeff
  simp [h]

/-- For an index `0 < index < rows` the call `coeff(0, index)` reads outside the vector. -/
theorem coeff_zero_index {α : Type} (data : List α) (index : Nat) (h : 0 < index) :
    coeff data 0 index = Except.error AccessError.outOfBounds := by
  unfold coeff
  have hge : data.length ≤ 0 + index * data.length := by
    rw [Nat.zero_add]
    exact Nat.le_mul_of_pos_left _ h
  rw [List.getElem?_eq_none hge]

/-- The results of the loop of visual-frame.cc lines 365-369: the loop returns when `results`
is long enough, keeps the length, and at an index whose back-projection failed the result is
PROJECTION_INVALID, elsewhere what it was. -/
theorem VisualFrame.invalidateResults_spec (success : List Bool) :
    ∀ (i : Nat) (results : List ProjectionResult), i + success.length ≤ results.length →
      ∃ out, VisualFrame.invalidateResults success i results = some out ∧
        out.length = results.length ∧
        ∀ j, out[j]? =
          if i ≤ j ∧ success[j - i]? = some false then
            some ProjectionResult.PROJECTION_INVALID
          else results[j]? := by
  induction success with
  | nil =>
    intro i results _
    exact ⟨results, rfl, rfl, fun j => by simp⟩
  | cons s rest ih =>
    intro i results hlen
    simp only [List.length_cons] at hlen
    cases s with
    | false =>
      have hi : i < results.length := by omega
      obtain ⟨out, hout, hl, hj⟩ := ih (i + 1)
        (results.set i ProjectionResult.PROJECTION_INVALID) (by simp; omega)
      refine ⟨out, ?_, by simpa using hl, ?_⟩
      · simp only [VisualFrame.invalidateResults, Bool.not_false, if_true, if_pos hi]
        exact hout
      · intro j
        rw [hj j]
        rcases Nat.lt_trichotomy j i with hlt | heq | hgt
        · have h1 : ¬ (i + 1 ≤ j ∧ rest[j - (i + 1)]? = some false) := fun h => by omega
          have h2 : ¬ (i ≤ j ∧ (false :: rest)[j - i]? = some false) := fun h => by omega
          rw [if_neg h1, if_neg h2, List.getElem?_set_ne (by omega)]
        · subst heq
          have h1 : ¬ (j + 1 ≤ j ∧ rest[j - (j + 1)]? = some false) := fun h => by omega
          have h2 : j ≤ j ∧ (false :: rest)[j - j]? = some false := by simp
          rw [if_neg h1, if_pos h2, List.getElem?_set_self hi]
        · have hji : j - i = (j - (i + 1)) + 1 := by omega
          have hiff : (i + 1 ≤ j ∧ rest[j - (i + 1)]? = some false) ↔
              (i ≤ j ∧ (false :: rest)[j - i]? = some false) := by
            rw [hji, List.getElem?_cons_succ]
            constructor
            · rintro ⟨-, h⟩; exact ⟨by omega, h⟩
            · rintro ⟨-, h⟩; exact ⟨by omega, h⟩
          rw [List.getElem?_set_ne (by omega)]
          by_cases hc : i + 1 ≤ j ∧ rest[j - (i + 1)]? = some false
          · rw [if_pos hc, if_pos (hiff.mp hc)]
          · rw [if_neg hc, if_neg (fun h => hc (hiff.mpr h))]
    | true =>
      obtain ⟨out, hout, hl, hj⟩ := ih (i + 1) results (by omega)
      refine ⟨out, ?_, hl, ?_⟩
      · simp only [VisualFrame.invalidateResults, Bool.not_true, Bool.false_eq_true, if_false]
        exact hout
      · intro j
        rw [hj j]
        rcases Nat.lt_trichotomy j i with hlt | heq | hgt
        · have h1 : ¬ (i + 1 ≤ j ∧ rest[j - (i + 1)]? = some false) := fun h => by omega
          have h2 : ¬ (i ≤ j ∧ (true :: rest)[j - i]? = some false) := fun h => by omega
          rw [if_neg h1, if_neg h2]
        · subst heq
          have h1 : ¬ (j + 1 ≤ j ∧ rest[j - (j + 1)]? = some false) := fun h => by omega
          have h2 : ¬ (j ≤ j ∧ (true :: rest)[j - j]? = some false) := by simp
          rw [if_neg h1, if_neg h2]
        · have hji : j - i = (j - (i + 1)) + 1 := by omega
          have hiff : (i + 1 ≤ j ∧ rest[j - (i + 1)]? = some false) ↔
              (i ≤ j ∧ (true :: rest)[j - i]? = some false) := by
            rw [hji, List.getElem?_cons_succ]
            constructor
            · rintro ⟨-, h⟩; exact ⟨by omega, h⟩
            · rintro ⟨-, h⟩; exact ⟨by omega, h⟩
          by_cases hc : i + 1 ≤ j ∧ rest[j - (i + 1)]? = some false
          · rw [if_pos hc, if_pos (hiff.mp hc)]
          · rw [if_neg hc, if_neg (fun h => hc (hiff.mpr h))]

/-- An integer below 2^p in absolute value is a value of the format with `p` bits. -/
theorem roundToSignificand_of_lt (p : Nat) (v : Int) (h : v.natAbs < 2 ^ p) :
    roundToSignificand p v = v := by
  have hulp : unitInLastPlace p v.natAbs v.natAbs 1 = 1 := by
    cases hm : v.natAbs with
    | zero => rfl
    | succ m =>
      rw [hm] at h
      simp only [unitInLastPlace, Nat.div_one, if_pos h]
  unfold roundToSignificand
  simp only [hulp, Nat.div_one, Nat.mod_one, Nat.mul_zero, Nat.lt_one_iff, Nat.mul_one,
    true_or, if_true]
  rcases Int.natAbs_eq v with hv | hv
  · have h0 : 0 ≤ v := by omega
    rw [if_pos h0]
    omega
  · by_cases h0 : 0 ≤ v
    · rw [if_pos h0]
      omega
    · rw [if_neg h0]
      omega

/-- The integers up to 2^24 in absolute value are floats. -/
theorem toFloat_of_le (v : Int) (h : v.natAbs ≤ 2 ^ 24) : toFloat v = v := by
  by_cases hlt : v.natAbs < 2 ^ 24
  · exact roundToSignificand_of_lt 24 v hlt
  · have heq : v.natAbs = 2 ^ 24 := by omega
    rcases Int.natAbs_eq v with hv | hv
    · rw [heq] at hv
      rw [hv]
      decide!
    · rw [heq] at hv
      rw [hv]
      decide!

namespace FeatureTrackerLk

/-- The keypoint at index `i` of the scored list is that of the input with the score
`score - i`, rounded to float, as long as the scores are below 2^53 in absolute value, where
the double `score` is exact. -/
theorem assignScores_getElem (l : List KeyPoint) :
    ∀ (score : Int) (i : Nat) (k : KeyPoint), l[i]? = some k →
      (∀ j : Nat, j ≤ i → (score - (j : Int)).natAbs < 2 ^ 53) →
      (assignScores l score)[i]? =
        some { k with response := ((toFloat (score - (i : Int)) : Int) : ℚ) } := by
  induction l with
  | nil => intro score i k h; simp at h
  | cons a rest ih =>
    intro score i k h hb
    cases i with
    | zero =>
      simp only [List.getElem?_cons_zero, Option.some.injEq] at h
      subst h
      simp [assignScores]
    | succ j =>
      simp only [List.getElem?_cons_succ] at h
      have h1 : toDouble (score - 1) = score - 1 := by
        apply roundToSignificand_of_lt
        have := hb 1 (by omega)
        simpa using this
      have hb1 : ∀ j1 : Nat, j1 ≤ j → (score - 1 - (j1 : Int)).natAbs < 2 ^ 53 := by
        intro j1 hj1
        have := hb (j1 + 1) (by omega)
        have he : score - 1 - (j1 : Int) = score - ((j1 + 1 : Nat) : Int) := by
          push_cast
          ring
        rw [he]
        exact this
      have := ih (score - 1) j k h hb1
      simp only [assignScores, List.getElem?_cons_succ, h1, this]
      have he : score - 1 - (j : Int) = score - ((j + 1 : Nat) : Int) := by
        push_cast
        ring
      rw [he]

/-- The first 2^24 + 2 scores of the list that starts with the score 1 are 1, 0, -1, ...:
the keypoint at an index `i` up to 2^24 + 1 has the response 1 - i. -/
theorem assignScores_one_getElem (l : List KeyPoint) (i : Nat) (k : KeyPoint)
    (h : l[i]? = some k) (hi : i ≤ 2 ^ 24 + 1) :
    (assignScores l 1)[i]? = some { k with response := 1 - (i : ℚ) } := by
  rw [assignScores_getElem l 1 i k h (fun j hj => by omega), toFloat_of_le _ (by omega)]
  push_cast
  rfl

end FeatureTrackerLk

namespace FeatureTrackerLk

/-- The scored keypoints have the positions of the input. -/
theorem assignScores_pt (l : List KeyPoint) :
    ∀ (score : Int) (a : KeyPoint), a ∈ assignScores l score → ∃ k ∈ l, a.pt = k.pt := by
  induction l with
  | nil => intro score a h; simp [assignScores] at h
  | cons k rest ih =>
    intro score a h
    simp only [assignScores, List.mem_cons] at h
    rcases h with rfl | h
    · exact ⟨k, List.mem_cons_self _ _, rfl⟩
    · obtain ⟨k1, hk1, hpt⟩ := ih _ a h
      exact ⟨k1, List.mem_cons_of_mem _ hk1, hpt⟩

end FeatureTrackerLk

/-- C1: a call of track that passed its checks and has the tracked keypoints `kps` with the
success flags `succ` and the flow errors `errs` offers to the occupancy grid exactly the
points `offeredPoints` of its selection loop, over the fresh detections of the image as
candidates: the loop calls addPointOrReplaceWeakestNearestPoints for them, one after the
other, on the new grid, no call is fatal, the grid of the tracked survivors is the result
with all weights maximal, and what track returns is made of that grid by the redetection
and the read-out. The keypoint with index i of frame k is among the points offered if and
only if its flow succeeded, its tracked position keeps the border margin, i is not in the
abort set, and a fresh detection lies at squared distance below the search radius or the
flow error does not exceed the maximal tracking error. -/
theorem track_offers_keypoint_iff (t : FeatureTrackerLk) (ext : Externals) (q : Quaternion)
    (frame_k frame_kp1 : VisualFrame) (image : Mat) (kps : List KeyPoint) (succ : List Bool)
    (errs : List ℚ)
    (hpre : t.trackPreconditions frame_k frame_kp1 = true)
    (himg : frame_kp1.raw_image = some image)
    (htr : FeatureTrackerLk.trackedKeypoints ext q frame_k image = some (kps, succ, errs)) :
    ∃ gA : OccupancyGrid,
      OccupancyGrid.addAll t.settings.min_distance_between_features_px
        (t.offeredPoints ext (t.freshDetections ext image) (kps.zip (succ.zip errs)) 0)
        t.newOccupancyGrid = some gA ∧
      t.selectTrackedKeypoints ext (t.freshDetections ext image) (kps.zip (succ.zip errs)) 0
        t.newOccupancyGrid = some gA ∧
      t.trackedSurvivors ext image kps succ errs =
        some (gA.setConstantWeightForAllPointsInGrid Weight.max) ∧
      t.trackGrid ext frame_kp1 image kps succ errs =
        t.redetect ext frame_kp1 (gA.setConstantWeightForAllPointsInGrid Weight.max) ∧
      t.track ext q frame_k frame_kp1 =
        (t.redetect ext frame_kp1 (gA.setConstantWeightForAllPointsInGrid Weight.max)).map
          (fun occupancy_grid =>
            ({ t with keypoint_indices_to_abort := []
                      abort_keypoints_wrt_frame_id := UniqueId.invalid },
              insertCvKeypointsIntoEmptyVisualFrame
                (occupancy_grid.getAllPointsInGrid.map fun p => p.point)
                t.kKeypointUncertaintyPx frame_kp1,
              FeatureTrackerLk.extractMatches occupancy_grid.getAllPointsInGrid 0)) ∧
      ∀ (i : Nat) (k : KeyPoint) (s : Bool) (e : ℚ),
        kps[i]? = some k → succ[i]? = some s → errs[i]? = some e →
        ((∃ p ∈ t.offeredPoints ext (t.freshDetections ext image) (kps.zip (succ.zip errs)) 0,
            p.id = (i : Int)) ↔
          (s = true ∧ t.insideBorder k.pt ∧ i ∉ t.keypoint_indices_to_abort ∧
            ((∃ c ∈ t.freshDetections ext image, squaredNorm c.pt.x c.pt.y k.pt.x k.pt.y <
                ext.FLAGS_lk_keypoint_search_radius_pixels_squared) ∨
              e ≤ ext.FLAGS_lk_max_tracking_error))) := by
  obtain ⟨gA, hsel⟩ := FeatureTrackerLk.selectTrackedKeypoints_isSome t ext image
    (kps.zip (succ.zip errs))
  have hadd := hsel
  rw [FeatureTrackerLk.selectTrackedKeypoints_eq_addAll] at hadd
  have hsurv : t.trackedSurvivors ext image kps succ errs =
      some (gA.setConstantWeightForAllPointsInGrid Weight.max) := by
    unfold FeatureTrackerLk.trackedSurvivors
    rw [hsel]
  have hgrid : t.trackGrid ext frame_kp1 image kps succ errs =
      t.redetect ext frame_kp1 (gA.setConstantWeightForAllPointsInGrid Weight.max) := by
    unfold FeatureTrackerLk.trackGrid
    rw [hsurv]
  refine ⟨gA, hadd, hsel, hsurv, hgrid, ?_, ?_⟩
  · unfold FeatureTrackerLk.track
    rw [if_pos hpre]
    unfold VisualFrame.getRawImage
    rw [himg]
    simp only [htr, hgrid]
    cases t.redetect ext frame_kp1 (gA.setConstantWeightForAllPointsInGrid Weight.max) <;> rfl
  · intro i k s e hk hs he
    have hi : (kps.zip (succ.zip errs))[i]? = some (k, s, e) := by
      rw [List.getElem?_zip_eq_some]
      exact ⟨hk, List.getElem?_zip_eq_some.mpr ⟨hs, he⟩⟩
    rw [← FeatureTrackerLk.trackedPointToInsert_isSome]
    constructor
    · rintro ⟨p, hp, hid⟩
      obtain ⟨j, k1, s1, e1, hj, hins⟩ :=
        (FeatureTrackerLk.mem_offeredPoints t ext _ _ 0 p).mp hp
      have hid2 := (FeatureTrackerLk.trackedPointToInsert_some t ext _ k1 s1 e1
        (0 + j) p hins).2.2.1
      have hji : j = i := by
        rw [hid] at hid2
        have : (i : Int) = ((0 + j : Nat) : Int) := hid2
        omega
      subst hji
      rw [hi] at hj
      simp only [Option.some.injEq, Prod.mk.injEq] at hj
      obtain ⟨rfl, rfl, rfl⟩ := hj
      simp only [zero_add] at hins
      rw [hins]; rfl
    · intro h
      obtain ⟨p, hp⟩ := Option.isSome_iff_exists.mp h
      refine ⟨p, ?_, ?_⟩
      · exact (FeatureTrackerLk.mem_offeredPoints t ext _ _ 0 p).mpr
          ⟨i, k, s, e, hi, by simpa using hp⟩
      · exact (FeatureTrackerLk.trackedPointToInsert_some t ext _ k s e i p hp).2.2.1

/-- C1 on the scene: the detector finds nothing, so the pool of fresh detections is empty;
the keypoint with index 1 of frame k is tracked to (15, 15) with a flow error of 1/2, which
is not above the threshold 1, and track offers it. -/
theorem track_offers_keypoint_iff_witness :
    Scene.tracker.trackPreconditions (Scene.frame_k Scene.keypoints_k) Scene.frame_kp1 = true ∧
    FeatureTrackerLk.trackedKeypoints (Scene.externals [] Scene.flow) Scene.rotation
      (Scene.frame_k Scene.keypoints_k) Scene.image =
        some ([Scene.keypoint 5 6 0, Scene.keypoint 15 15 0], [true, true], [0, 1 / 2]) ∧
    Scene.tracker.freshDetections (Scene.externals [] Scene.flow) Scene.image = [] ∧
    (∃ p ∈ Scene.tracker.offeredPoints (Scene.externals [] Scene.flow)
        (Scene.tracker.freshDetections (Scene.externals [] Scene.flow) Scene.image)
        ([Scene.keypoint 5 6 0, Scene.keypoint 15 15 0].zip
          ([true, true].zip [0, 1 / 2])) 0,
      p.id = ((1 : Nat) : Int)) :=
  ⟨by decide, by decide!, by decide!,
    (track_offers_keypoint_iff Scene.tracker (Scene.externals [] Scene.flow) Scene.rotation
      (Scene.frame_k Scene.keypoints_k) Scene.frame_kp1 Scene.image
      [Scene.keypoint 5 6 0, Scene.keypoint 15 15 0] [true, true] [0, 1 / 2]
      (by decide) rfl (by decide!)).elim fun _ h =>
        (h.2.2.2.2.2 1 (Scene.keypoint 15 15 0) true (1 / 2) rfl rfl rfl).mpr (by decide!)⟩

/-- C2: after the index set S was installed by swapKeypointIndicesToAbort under the id of
frame k, no match that a returning call of track with frame k as previous frame emits has a
previous-frame index in S. -/
theorem track_never_matches_aborted_keypoint (t t0 t1 : FeatureTrackerLk) (ext : Externals)
    (q : Quaternion) (frame_k frame_kp1 f1 : VisualFrame) (S old : List Nat)
    (matches_kp1_k : List FrameToFrameMatchWithScore)
    (hswap : t.swapKeypointIndicesToAbort frame_k.id S = some (t0, old))
    (h : t0.track ext q frame_k frame_kp1 = some (t1, f1, matches_kp1_k)) :
    ∀ m ∈ matches_kp1_k, ∀ s ∈ S, m.keypoint_index_k ≠ (s : Int) := by
  intro m hm s hs heq
  have habort : t0.keypoint_indices_to_abort = S := by
    unfold FeatureTrackerLk.swapKeypointIndicesToAbort at hswap
    split_ifs at hswap
    simp only [Option.some.injEq, Prod.mk.injEq] at hswap
    rw [← hswap.1]
  obtain ⟨_, image, kps, succ, errs, g, _, _, hg, _, _, hM⟩ := FeatureTrackerLk.track_some h
  rw [hM] at hm
  obtain ⟨p, _, hp, hid, hmk, _⟩ := (FeatureTrackerLk.mem_extractMatches _ 0 m).mp hm
  rcases FeatureTrackerLk.trackGrid_origin hg (List.getElem?_mem hp) with
    ⟨j, k, s1, e, p0, _, _, _, hins, rfl⟩ | ⟨k, rfl, _⟩
  · have hsome := (FeatureTrackerLk.trackedPointToInsert_isSome t0 ext _ k s1 e j).mp
      (by rw [hins]; rfl)
    have hidj := (FeatureTrackerLk.trackedPointToInsert_some t0 ext _ k s1 e j p0 hins).2.2.1
    simp only at hmk
    rw [hmk, hidj] at heq
    have hjs : j = s := by exact_mod_cast heq
    rw [habort, hjs] at hsome
    exact hsome.2.2.1 hs
  · simp [FeatureTrackerLk.newWeightedKeypoint] at hid

/-- C2 on the scene: keypoint 1 is to be aborted; track returns the single match of
keypoint 0. -/
theorem track_never_matches_aborted_keypoint_witness :
    ∃ t1 f1 matches_kp1_k,
      Scene.tracker.swapKeypointIndicesToAbort (Scene.frame_k Scene.keypoints_k).id [1] =
        some (Scene.trackerAbort, []) ∧
      Scene.trackerAbort.track (Scene.externals Scene.detections Scene.flow) Scene.rotation
        (Scene.frame_k Scene.keypoints_k) Scene.frame_kp1 = some (t1, f1, matches_kp1_k) ∧
      matches_kp1_k = [⟨0, 0, Weight.max⟩] ∧
      ∀ m ∈ matches_kp1_k, ∀ s ∈ [1], m.keypoint_index_k ≠ ((s : Nat) : Int) :=
  (Option.map_eq_some'.mp (by decide! :
    (Scene.trackerAbort.track (Scene.externals Scene.detections Scene.flow) Scene.rotation
      (Scene.frame_k Scene.keypoints_k) Scene.frame_kp1).map (fun r => r.2.2) =
        some [⟨0, 0, Weight.max⟩])).elim
    fun r hr => ⟨r.1, r.2.1, r.2.2, rfl, hr.1, hr.2,
      track_never_matches_aborted_keypoint Scene.tracker Scene.trackerAbort r.1
        (Scene.externals Scene.detections Scene.flow) Scene.rotation
        (Scene.frame_k Scene.keypoints_k) Scene.frame_kp1 r.2.1 [1] [] r.2.2 rfl hr.1⟩

/-- C3: every keypoint position that track or initializeKeypointsInEmptyVisualFrame writes
into a frame keeps the border margin: `margin <= x < imageWidth - margin` and
`margin <= y < imageHeight - margin`, for tracked and for newly detected keypoints. -/
theorem written_keypoints_keep_border_margin (t : FeatureTrackerLk) (ext : Externals) :
    (∀ (q : Quaternion) (frame_k frame_kp1 f1 : VisualFrame) (t1 : FeatureTrackerLk)
        (matches_kp1_k : List FrameToFrameMatchWithScore) (keypoints : List Point2f),
      t.track ext q frame_k frame_kp1 = some (t1, f1, matches_kp1_k) →
      f1.keypoint_measurements = some keypoints → ∀ pt ∈ keypoints, t.insideBorder pt) ∧
    (∀ (frame f1 : VisualFrame) (keypoints : List Point2f),
      t.initializeKeypointsInEmptyVisualFrame ext frame = some f1 →
      f1.keypoint_measurements = some keypoints → ∀ pt ∈ keypoints, t.insideBorder pt) := by
  constructor
  · intro q frame_k frame_kp1 f1 t1 M keypoints h hkps pt hpt
    obtain ⟨_, image, kps, succ, errs, g, _, _, hg, _, hf1, _⟩ := FeatureTrackerLk.track_some h
    rw [hf1, FeatureTrackerLk.insertCvKeypoints_measurements] at hkps
    simp only [Option.some.injEq] at hkps
    rw [← hkps] at hpt
    simp only [List.map_map, List.mem_map, Function.comp] at hpt
    obtain ⟨p, hp, rfl⟩ := hpt
    rw [← FeatureTrackerLk.tooCloseToImageBorder_eq_false]
    rcases FeatureTrackerLk.trackGrid_origin hg hp with
      ⟨j, k, s1, e, p0, _, _, _, hins, rfl⟩ | ⟨k, rfl, hk⟩
    · have hsome := (FeatureTrackerLk.trackedPointToInsert_isSome t ext _ k s1 e j).mp
        (by rw [hins]; rfl)
      have hpk := (FeatureTrackerLk.trackedPointToInsert_some t ext _ k s1 e j p0 hins).1
      simp only
      rw [hpk, FeatureTrackerLk.tooCloseToImageBorder_eq_false]
      exact hsome.2.1
    · exact hk
  · intro frame f1 keypoints h hkps pt hpt
    unfold FeatureTrackerLk.initializeKeypointsInEmptyVisualFrame at h
    split_ifs at h with hempty
    split at h
    · exact absurd h (by simp)
    · rename_i g hg
      simp only at h
      split_ifs at h
      rw [← Option.some.inj h, FeatureTrackerLk.insertCvKeypoints_measurements] at hkps
      simp only [Option.some.injEq] at hkps
      rw [← hkps] at hpt
      simp only [List.map_map, List.mem_map, Function.comp] at hpt
      obtain ⟨p, hp, rfl⟩ := hpt
      rw [← FeatureTrackerLk.tooCloseToImageBorder_eq_false]
      rcases FeatureTrackerLk.detectNewKeypointsInVisualFrame_mem hg
        (OccupancyGrid.mem_getAllPointsInGrid hp) with h1 | ⟨k, rfl, hk⟩
      · rw [(FeatureTrackerLk.newOccupancyGrid_dims t).2.2.2.2] at h1
        exact absurd h1 (List.not_mem_nil p)
      · exact hk

/-- C3 on the scene: track writes the tracked keypoint (5, 6) and the new keypoint
(10, 10); the bootstrap of frame k+1, whose detector here also reports a keypoint at the
border, writes (5, 5) and (10, 10) only. -/
theorem written_keypoints_keep_border_margin_witness :
    (∃ t1 f1 matches_kp1_k,
      Scene.trackerAbort.track (Scene.externals Scene.detections Scene.flow) Scene.rotation
        (Scene.frame_k Scene.keypoints_k) Scene.frame_kp1 = some (t1, f1, matches_kp1_k) ∧
      f1.keypoint_measurements = some [⟨5, 6⟩, ⟨10, 10⟩] ∧
      ∀ pt ∈ [(⟨5, 6⟩ : Point2f), ⟨10, 10⟩], Scene.trackerAbort.insideBorder pt) ∧
    (∃ f1,
      Scene.tracker.initializeKeypointsInEmptyVisualFrame
        (Scene.externals (Scene.keypoint 1 1 20 :: Scene.detections) Scene.flow)
        Scene.frame_kp1 = some f1 ∧
      f1.keypoint_measurements = some [⟨5, 5⟩, ⟨10, 10⟩] ∧
      ∀ pt ∈ [(⟨5, 5⟩ : Point2f), ⟨10, 10⟩], Scene.tracker.insideBorder pt) :=
  ⟨(Option.map_eq_some'.mp (by decide! :
      (Scene.trackerAbort.track (Scene.externals Scene.detections Scene.flow) Scene.rotation
        (Scene.frame_k Scene.keypoints_k) Scene.frame_kp1).map
          (fun r => r.2.1.keypoint_measurements) = some (some [⟨5, 6⟩, ⟨10, 10⟩]))).elim
      fun r hr => ⟨r.1, r.2.1, r.2.2, hr.1, hr.2,
        (written_keypoints_keep_border_margin Scene.trackerAbort
          (Scene.externals Scene.detections Scene.flow)).1 Scene.rotation
          (Scene.frame_k Scene.keypoints_k) Scene.frame_kp1 r.2.1 r.1 r.2.2
          [⟨5, 6⟩, ⟨10, 10⟩] hr.1 hr.2⟩,
    (Option.map_eq_some'.mp (by decide! :
      (Scene.tracker.initializeKeypointsInEmptyVisualFrame
        (Scene.externals (Scene.keypoint 1 1 20 :: Scene.detections) Scene.flow)
        Scene.frame_kp1).map (fun f => f.keypoint_measurements) =
          some (some [⟨5, 5⟩, ⟨10, 10⟩]))).elim
      fun f hf => ⟨f, hf.1, hf.2,
        (written_keypoints_keep_border_margin Scene.tracker
          (Scene.externals (Scene.keypoint 1 1 20 :: Scene.detections) Scene.flow)).2
          Scene.frame_kp1 f [⟨5, 5⟩, ⟨10, 10⟩] hf.1 hf.2⟩⟩

/-- C4 at a concrete input: keypoint 0 is tracked to (5, 6); the fresh detection (5, 5) lies
at squared distance 1, below the search radius 3, and the loop body hands the keypoint to the
grid at the position (5, 5) of that detection. The position that track writes to frame k+1 at
the index 0 of its match is nevertheless the flow output (5, 6). -/
theorem track_writes_flow_position_of_snapped_keypoint :
    squaredNorm 5 5 5 6 <
      (Scene.externals Scene.detections Scene.flow).FLAGS_lk_keypoint_search_radius_pixels_squared ∧
    Scene.tracker.trackedPointToInsert (Scene.externals Scene.detections Scene.flow)
      (Scene.tracker.freshDetections (Scene.externals Scene.detections Scene.flow) Scene.image)
      (Scene.keypoint 5 6 0) true 0 0 = some ⟨Scene.keypoint 5 6 0, 5, 5, .val 0, 0⟩ ∧
    (Scene.tracker.track (Scene.externals Scene.detections Scene.flow) Scene.rotation
      (Scene.frame_k Scene.keypoints_k) Scene.frame_kp1).map
        (fun r => (r.2.1.keypoint_measurements, r.2.2)) =
      some (some [⟨5, 6⟩, ⟨15, 15⟩], [⟨0, 0, .max⟩, ⟨1, 1, .max⟩]) := by
  refine ⟨by decide!, by decide!, by decide!⟩

/-- C5: for a returning call of track, with K the points read out of the grid in grid order:
frame k+1 holds the keypoints of K in this order; the matches are exactly the triples
(i, j, score) for the positions i of K whose point has an id j >= 0 (with its weight as
score), one for each such position and none for a point with id -1; so every match index is
below the number of written keypoints, and the keypoint written there is the one tracked
from the keypoint with index j of frame k. -/
theorem track_matches_index_written_keypoints (t t1 : FeatureTrackerLk) (ext : Externals)
    (q : Quaternion) (frame_k frame_kp1 f1 : VisualFrame)
    (matches_kp1_k : List FrameToFrameMatchWithScore)
    (h : t.track ext q frame_k frame_kp1 = some (t1, f1, matches_kp1_k)) :
    ∃ image kps succ errs g,
      frame_kp1.raw_image = some image ∧
      FeatureTrackerLk.trackedKeypoints ext q frame_k image = some (kps, succ, errs) ∧
      t.trackGrid ext frame_kp1 image kps succ errs = some g ∧
      f1.keypoint_measurements = some (g.getAllPointsInGrid.map fun p => p.point.pt) ∧
      (∀ m, m ∈ matches_kp1_k ↔
        ∃ p, g.getAllPointsInGrid[m.keypoint_index_kp1]? = some p ∧ 0 ≤ p.id ∧
          m.keypoint_index_k = p.id ∧ m.score = p.weight) ∧
      (matches_kp1_k.map fun m => m.keypoint_index_kp1).Nodup ∧
      (∀ m ∈ matches_kp1_k,
        m.keypoint_index_kp1 < (g.getAllPointsInGrid.map fun p => p.point.pt).length ∧
        ∃ j : Nat, m.keypoint_index_k = (j : Int) ∧ ∃ k, kps[j]? = some k ∧
          (g.getAllPointsInGrid.map fun p => p.point.pt)[m.keypoint_index_kp1]? =
            some k.pt) := by
  obtain ⟨_, image, kps, succ, errs, g, himg, htr, hg, _, hf1, hM⟩ :=
    FeatureTrackerLk.track_some h
  have hiff : ∀ m, m ∈ matches_kp1_k ↔
      ∃ p, g.getAllPointsInGrid[m.keypoint_index_kp1]? = some p ∧ 0 ≤ p.id ∧
        m.keypoint_index_k = p.id ∧ m.score = p.weight := by
    intro m
    rw [hM, FeatureTrackerLk.mem_extractMatches]
    simp only [Nat.zero_le, true_and, Nat.sub_zero]
  refine ⟨image, kps, succ, errs, g, himg, htr, hg, ?_, hiff, ?_, ?_⟩
  · rw [hf1, FeatureTrackerLk.insertCvKeypoints_measurements, List.map_map]
    rfl
  · rw [hM]
    exact (FeatureTrackerLk.extractMatches_sorted _ 0).nodup
  · intro m hm
    obtain ⟨p, hp, hid, hmk, _⟩ := (hiff m).mp hm
    have hlt : m.keypoint_index_kp1 < g.getAllPointsInGrid.length :=
      (List.getElem?_eq_some.mp hp).1
    refine ⟨by simpa using hlt, ?_⟩
    rcases FeatureTrackerLk.trackGrid_origin hg (List.getElem?_mem hp) with
      ⟨j, k, s1, e, p0, hk, _, _, hins, rfl⟩ | ⟨k, rfl, _⟩
    · obtain ⟨hpk, _, hidj, _⟩ :=
        FeatureTrackerLk.trackedPointToInsert_some t ext _ k s1 e j p0 hins
      refine ⟨j, by rw [hmk]; exact hidj, k, hk, ?_⟩
      rw [List.getElem?_map, hp]
      simp only [Option.map_some', hpk]
    · simp [FeatureTrackerLk.newWeightedKeypoint] at hid

/-- C5 on the scene: the grid is read out as the tracked keypoint 0 followed by a new
detection; track emits the match (0, 0). -/
theorem track_matches_index_written_keypoints_witness :
    ∃ t1 f1 matches_kp1_k,
      Scene.trackerAbort.track (Scene.externals Scene.detections Scene.flow) Scene.rotation
        (Scene.frame_k Scene.keypoints_k) Scene.frame_kp1 = some (t1, f1, matches_kp1_k) ∧
      matches_kp1_k = [⟨0, 0, Weight.max⟩] ∧
      ∃ image kps succ errs g,
        Scene.frame_kp1.raw_image = some image ∧
        FeatureTrackerLk.trackedKeypoints (Scene.externals Scene.detections Scene.flow)
          Scene.rotation (Scene.frame_k Scene.keypoints_k) image = some (kps, succ, errs) ∧
        Scene.trackerAbort.trackGrid (Scene.externals Scene.detections Scene.flow)
          Scene.frame_kp1 image kps succ errs = some g ∧
        f1.keypoint_measurements = some (g.getAllPointsInGrid.map fun p => p.point.pt) ∧
        (∀ m, m ∈ matches_kp1_k ↔
          ∃ p, g.getAllPointsInGrid[m.keypoint_index_kp1]? = some p ∧ 0 ≤ p.id ∧
            m.keypoint_index_k = p.id ∧ m.score = p.weight) ∧
        (matches_kp1_k.map fun m => m.keypoint_index_kp1).Nodup ∧
        (∀ m ∈ matches_kp1_k,
          m.keypoint_index_kp1 < (g.getAllPointsInGrid.map fun p => p.point.pt).length ∧
          ∃ j : Nat, m.keypoint_index_k = (j : Int) ∧ ∃ k, kps[j]? = some k ∧
            (g.getAllPointsInGrid.map fun p => p.point.pt)[m.keypoint_index_kp1]? =
              some k.pt) :=
  (Option.map_eq_some'.mp (by decide! :
    (Scene.trackerAbort.track (Scene.externals Scene.detections Scene.flow) Scene.rotation
      (Scene.frame_k Scene.keypoints_k) Scene.frame_kp1).map (fun r => r.2.2) =
        some [⟨0, 0, Weight.max⟩])).elim
    fun r hr => ⟨r.1, r.2.1, r.2.2, hr.1, hr.2,
      track_matches_index_written_keypoints Scene.trackerAbort r.1
        (Scene.externals Scene.detections Scene.flow) Scene.rotation
        (Scene.frame_k Scene.keypoints_k) Scene.frame_kp1 r.2.1 r.2.2 hr.1⟩

/-- C7: after any sequence of insertions (and weight overwrites) on a grid whose cell size is
the minimal distance d > 0, all pairs of retained points are at Euclidean distance at least d;
this holds for every pair, also when one point was offered after the other was made
weight-maximal. -/
theorem occupancy_grid_min_distance (rows cols d : ℚ) (calls : List GridCall)
    (g : OccupancyGrid) (hd : 0 < d)
    (hrun : (OccupancyGrid.create rows cols d d).runCalls d calls = some g) :
    g.points.Pairwise (fun p q =>
      OccupancyGrid.apart d p q ∧
      (d : ℝ) ≤ Real.sqrt (((squaredNorm p.v_cols p.u_rows q.v_cols q.u_rows : ℚ) : ℝ))) := by
  have h := OccupancyGrid.runCalls_pairwise_apart hd calls (OccupancyGrid.create rows cols d d) g
    (le_refl d) (le_refl d) List.Pairwise.nil hrun
  refine h.imp ?_
  intro p q hpq
  refine ⟨hpq, ?_⟩
  apply Real.le_sqrt_of_sq_le
  unfold OccupancyGrid.apart at hpq
  have : ((d * d : ℚ) : ℝ) ≤ ((squaredNorm p.v_cols p.u_rows q.v_cols q.u_rows : ℚ) : ℝ) := by
    exact_mod_cast hpq
  rw [pow_two]
  push_cast at this
  exact this

/-- C7 on the scene: after the five calls the grid retains the points at (6, 5) and
(10, 10). -/
theorem occupancy_grid_min_distance_witness :
    (0 : ℚ) < 2 ∧
    (OccupancyGrid.create 20 20 2 2).runCalls 2 Scene.calls =
      some ⟨20, 20, 2, 2, [Scene.point 6 5 .max 1, Scene.point 10 10 (.val 1) (-1)]⟩ ∧
    [Scene.point 6 5 .max 1, Scene.point 10 10 (.val 1) (-1)].Pairwise (fun p q =>
      OccupancyGrid.apart 2 p q ∧
      ((2 : ℚ) : ℝ) ≤
        Real.sqrt (((squaredNorm p.v_cols p.u_rows q.v_cols q.u_rows : ℚ) : ℝ))) :=
  ⟨by decide!, by decide!,
    occupancy_grid_min_distance 20 20 2 Scene.calls
      ⟨20, 20, 2, 2, [Scene.point 6 5 .max 1, Scene.point 10 10 (.val 1) (-1)]⟩
      (by decide!) (by decide!)⟩

/-- C8, as stated, fails: with a retainBest that keeps the keypoints that tie with the last
of the best, as that of OpenCV does, one of two keypoints survives, fewer than the minimum of
2, the redetection has the budget 3 - 1 = 2, the detector finds three detections with the
same response, all three are inserted, and frame k+1 gets 4 keypoints for a max_feature_count
of 3. -/
theorem redetection_exceeds_max_feature_count :
    Scene.tracker.settings.max_feature_count = 3 ∧
    Scene.tracker.settings.min_feature_count = 2 ∧
    (Scene.tracker.trackedSurvivors
      (Scene.externalsWithTiesAndFlow Scene.detectionsThreeTied Scene.flowLost) Scene.image
      [Scene.keypoint 15 15 0, Scene.keypoint 3 3 0] [true, false] [1 / 2, 0]).map
        (fun g => g.getNumPoints) = some 1 ∧
    (Scene.tracker.detectNewKeypoints
      (Scene.externalsWithTiesAndFlow Scene.detectionsThreeTied Scene.flowLost) Scene.image 2
      Scene.image).length = 3 ∧
    (Scene.tracker.track
      (Scene.externalsWithTiesAndFlow Scene.detectionsThreeTied Scene.flowLost) Scene.rotation
      (Scene.frame_k Scene.keypoints_k) Scene.frame_kp1).map
        (fun r => r.2.1.keypoint_measurements) =
      some (some [⟨5, 5⟩, ⟨10, 10⟩, ⟨5, 12⟩, ⟨15, 15⟩]) := by
  refine ⟨rfl, rfl, by decide!, by decide!, by decide!⟩

/-- C8, amended: when fewer than min_feature_count tracked keypoints survive, a returning
call of track has run the redetection with the budget max_feature_count minus the number of
survivors, and for a detector that honours the budget the number of keypoints written to
frame k+1 is at most max_feature_count; it is at least min_feature_count when the new keypoints are enough and are
at least the minimal distance away from each other and from the survivors. -/
theorem redetection_keypoint_count (t t1 : FeatureTrackerLk) (ext : Externals)
    (q : Quaternion) (frame_k frame_kp1 f1 : VisualFrame)
    (matches_kp1_k : List FrameToFrameMatchWithScore) (image : Mat) (kps : List KeyPoint)
    (succ : List Bool) (errs : List ℚ) (g0 : OccupancyGrid) (keypoints : List Point2f)
    (hchecks : t.settings.checks) (hb : ext.honoursBudget)
    (h : t.track ext q frame_k frame_kp1 = some (t1, f1, matches_kp1_k))
    (himg : frame_kp1.raw_image = some image)
    (htr : FeatureTrackerLk.trackedKeypoints ext q frame_k image = some (kps, succ, errs))
    (hsurv : t.trackedSurvivors ext image kps succ errs = some g0)
    (hlow : g0.getNumPoints < t.settings.min_feature_count)
    (hk : f1.keypoint_measurements = some keypoints) :
    t.trackGrid ext frame_kp1 image kps succ errs =
      OccupancyGrid.addAll t.settings.min_distance_between_features_px
        ((t.newKeypoints ext image (t.redetectionMask g0) g0).map
          FeatureTrackerLk.newWeightedKeypoint) g0 ∧
    t.newKeypoints ext image (t.redetectionMask g0) g0 =
      (t.detectNewKeypoints ext image (t.settings.max_feature_count - g0.getNumPoints)
        (t.redetectionMask g0)).filter (fun k => !t.tooCloseToImageBorder k.pt) ∧
    keypoints.length ≤ t.settings.max_feature_count ∧
    ((t.newKeypoints ext image (t.redetectionMask g0) g0).Pairwise
        (KeyPoint.apart t.settings.min_distance_between_features_px) →
      (∀ k ∈ t.newKeypoints ext image (t.redetectionMask g0) g0, ∀ p ∈ g0.points,
        OccupancyGrid.apart t.settings.min_distance_between_features_px p
          (FeatureTrackerLk.newWeightedKeypoint k)) →
      t.settings.min_feature_count ≤
        g0.getNumPoints + (t.newKeypoints ext image (t.redetectionMask g0) g0).length →
      t.settings.min_feature_count ≤ keypoints.length) := by
  have hd : 0 < t.settings.min_distance_between_features_px := by
    have := hchecks.2.2.2.2.1
    linarith
  obtain ⟨_, image1, kps1, succ1, errs1, g, himg1, htr1, hg, _, hf1, _⟩ :=
    FeatureTrackerLk.track_some h
  rw [himg] at himg1
  obtain rfl := Option.some.inj himg1
  rw [htr] at htr1
  simp only [Option.some.injEq, Prod.mk.injEq] at htr1
  obtain ⟨rfl, rfl, rfl⟩ := htr1
  obtain ⟨hcheck, hgrid⟩ := FeatureTrackerLk.trackGrid_of_few_survivors himg hsurv hlow hg
  have hsub : sizeSub t.settings.max_feature_count g0.getNumPoints =
      t.settings.max_feature_count - g0.getNumPoints := by
    unfold sizeSub; rw [if_pos hcheck.le]
  have hnew : t.newKeypoints ext image (t.redetectionMask g0) g0 =
      (t.detectNewKeypoints ext image (t.settings.max_feature_count - g0.getNumPoints)
        (t.redetectionMask g0)).filter (fun k => !t.tooCloseToImageBorder k.pt) := by
    unfold FeatureTrackerLk.newKeypoints; rw [hsub]
  have hlen : keypoints.length = g.points.length := by
    rw [hf1, FeatureTrackerLk.insertCvKeypoints_measurements] at hk
    rw [← Option.some.inj hk, List.length_map, List.length_map]
    exact (FeatureTrackerLk.track_keypoints_perm hd hg).length_eq
  have hadd := hgrid ▸ hg
  refine ⟨hgrid, hnew, ?_, ?_⟩
  · rw [hlen]
    have h1 := OccupancyGrid.addAll_length_le _ _ _ hadd
    rw [List.length_map, hnew] at h1
    have h2 := List.length_filter_le (fun k => !t.tooCloseToImageBorder k.pt)
      (t.detectNewKeypoints ext image (t.settings.max_feature_count - g0.getNumPoints)
        (t.redetectionMask g0))
    have h3 := FeatureTrackerLk.detectNewKeypoints_length_le t hb image
      (t.settings.max_feature_count - g0.getNumPoints) (t.redetectionMask g0)
    simp only [OccupancyGrid.getNumPoints] at hcheck h1 h2 h3
    omega
  · intro hpw hfar hmin
    obtain ⟨c1, c2, _, _, _, _⟩ := FeatureTrackerLk.trackedSurvivors_grid hsurv
    have hin : ∀ p ∈ (t.newKeypoints ext image (t.redetectionMask g0) g0).map
        FeatureTrackerLk.newWeightedKeypoint, g0.inGrid p := by
      intro p hp
      rw [List.mem_map] at hp
      obtain ⟨k, hk1, rfl⟩ := hp
      apply FeatureTrackerLk.inGrid_newWeightedKeypoint t c1 c2
      unfold FeatureTrackerLk.newKeypoints at hk1
      simpa using (List.mem_filter.mp hk1).2
    have hpw2 : ((t.newKeypoints ext image (t.redetectionMask g0) g0).map
        FeatureTrackerLk.newWeightedKeypoint).Pairwise
          (OccupancyGrid.apart t.settings.min_distance_between_features_px) := by
      rw [List.pairwise_map]
      exact hpw
    have hfar2 : ∀ p ∈ (t.newKeypoints ext image (t.redetectionMask g0) g0).map
        FeatureTrackerLk.newWeightedKeypoint, ∀ r ∈ g0.points,
          OccupancyGrid.apart t.settings.min_distance_between_features_px r p := by
      intro p hp r hr
      rw [List.mem_map] at hp
      obtain ⟨k, hk1, rfl⟩ := hp
      exact hfar k hk1 r hr
    rw [OccupancyGrid.addAll_of_apart _ g0 hin hpw2 hfar2] at hadd
    rw [hlen, ← Option.some.inj hadd]
    simp only [List.length_append, List.length_map]
    exact hmin

/-- C8 on the scene: of two keypoints one survives, fewer than the minimum of 2; the
redetection has a budget of 2 and adds the detections (5, 5) and (10, 10), which are far from
each other and from the survivor at (15, 15): frame k+1 gets 3 keypoints. -/
theorem redetection_keypoint_count_witness :
    ∃ t1 f1 matches_kp1_k,
      Scene.tracker.settings.checks ∧
      (Scene.externals Scene.detections Scene.flowLost).honoursBudget ∧
      Scene.tracker.track (Scene.externals Scene.detections Scene.flowLost) Scene.rotation
        (Scene.frame_k Scene.keypoints_k) Scene.frame_kp1 = some (t1, f1, matches_kp1_k) ∧
      Scene.frame_kp1.raw_image = some Scene.image ∧
      FeatureTrackerLk.trackedKeypoints (Scene.externals Scene.detections Scene.flowLost)
        Scene.rotation (Scene.frame_k Scene.keypoints_k) Scene.image =
          some ([Scene.keypoint 15 15 0, Scene.keypoint 3 3 0], [true, false], [1 / 2, 0]) ∧
      Scene.tracker.trackedSurvivors (Scene.externals Scene.detections Scene.flowLost)
        Scene.image [Scene.keypoint 15 15 0, Scene.keypoint 3 3 0] [true, false] [1 / 2, 0] =
          some ⟨20, 20, 2, 2, [⟨Scene.keypoint 15 15 0, 15, 15, .max, 0⟩]⟩ ∧
      (⟨20, 20, 2, 2, [⟨Scene.keypoint 15 15 0, 15, 15, .max, 0⟩]⟩ :
        OccupancyGrid).getNumPoints < Scene.tracker.settings.min_feature_count ∧
      f1.keypoint_measurements = some [⟨5, 5⟩, ⟨10, 10⟩, ⟨15, 15⟩] ∧
      ([(⟨5, 5⟩ : Point2f), ⟨10, 10⟩, ⟨15, 15⟩].length ≤
          Scene.tracker.settings.max_feature_count ∧
        Scene.tracker.settings.min_feature_count ≤
          [(⟨5, 5⟩ : Point2f), ⟨10, 10⟩, ⟨15, 15⟩].length) :=
  (Option.map_eq_some'.mp (by decide! :
    (Scene.tracker.track (Scene.externals Scene.detections Scene.flowLost) Scene.rotation
      (Scene.frame_k Scene.keypoints_k) Scene.frame_kp1).map
        (fun r => r.2.1.keypoint_measurements) =
          some (some [⟨5, 5⟩, ⟨10, 10⟩, ⟨15, 15⟩]))).elim
    fun r hr =>
      have hthm := redetection_keypoint_count Scene.tracker r.1
        (Scene.externals Scene.detections Scene.flowLost) Scene.rotation
        (Scene.frame_k Scene.keypoints_k) Scene.frame_kp1 r.2.1 r.2.2 Scene.image
        [Scene.keypoint 15 15 0, Scene.keypoint 3 3 0] [true, false] [1 / 2, 0]
        ⟨20, 20, 2, 2, [⟨Scene.keypoint 15 15 0, 15, 15, .max, 0⟩]⟩
        [⟨5, 5⟩, ⟨10, 10⟩, ⟨15, 15⟩]
        (by decide!) (Scene.externals_honoursBudget _ _) hr.1 rfl (by decide!) (by decide!)
        (by decide!) hr.2
      ⟨r.1, r.2.1, r.2.2, by decide!, Scene.externals_honoursBudget _ _, hr.1, rfl,
        by decide!, by decide!, by decide!, hr.2, hthm.2.2.1,
        hthm.2.2.2 (by decide!) (by decide!) (by decide!)⟩

/-- C9 as stated fails: on the scene the detector finds 3 = max_feature_count candidates that
are pairwise more than the minimal distance 2 apart, but the one at (1, 1) is closer to the
image border than the margin 2 and is dropped, so the empty frame gets 2 keypoints. -/
theorem bootstrap_drops_candidates_at_border :
    Scene.frame_kp1.hasNoKeypointMeasurements = true ∧
    (Scene.externals (Scene.keypoint 1 1 20 :: Scene.detections) Scene.flow).detect Scene.image
      Scene.tracker.detection_mask_image_border = Scene.keypoint 1 1 20 :: Scene.detections ∧
    Scene.tracker.settings.max_feature_count ≤ (Scene.keypoint 1 1 20 :: Scene.detections).length ∧
    (Scene.keypoint 1 1 20 :: Scene.detections).Pairwise
      (KeyPoint.apart Scene.tracker.settings.min_distance_between_features_px) ∧
    (Scene.tracker.initializeKeypointsInEmptyVisualFrame
      (Scene.externals (Scene.keypoint 1 1 20 :: Scene.detections) Scene.flow)
      Scene.frame_kp1).map (fun f => f.keypoint_measurements) =
        some (some [⟨5, 5⟩, ⟨10, 10⟩]) ∧
    [(⟨5, 5⟩ : Point2f), ⟨10, 10⟩].length ≠ Scene.tracker.settings.max_feature_count := by
  refine ⟨by decide, rfl, by decide, by decide!, by decide!, by decide⟩

/-- C9, amended: for an empty frame with an image and a detector that honours the budget and
supplies, for the budget max_feature_count, at least max_feature_count candidates that all
keep the border margin and are pairwise at least the minimal distance apart,
initializeKeypointsInEmptyVisualFrame returns, and the frame then holds exactly
max_feature_count keypoints: the points read out of the grid, all with id -1. -/
theorem bootstrap_keypoint_count (t : FeatureTrackerLk) (ext : Externals)
    (frame : VisualFrame) (image : Mat)
    (hd : 0 < t.settings.min_distance_between_features_px) (hb : ext.honoursBudget)
    (hempty : frame.hasNoKeypointMeasurements = true) (himg : frame.raw_image = some image)
    (hN : t.settings.max_feature_count ≤
      (t.detectorKeypoints ext image t.settings.max_feature_count
        t.detection_mask_image_border).length)
    (hin : ∀ c ∈ t.detectorKeypoints ext image t.settings.max_feature_count
      t.detection_mask_image_border, t.insideBorder c.pt)
    (hpw : (t.detectorKeypoints ext image t.settings.max_feature_count
      t.detection_mask_image_border).Pairwise
        (KeyPoint.apart t.settings.min_distance_between_features_px)) :
    ∃ f1 g,
      t.initializeKeypointsInEmptyVisualFrame ext frame = some f1 ∧
      t.detectNewKeypointsInVisualFrame ext frame t.detection_mask_image_border
        t.newOccupancyGrid = some g ∧
      f1.keypoint_measurements = some (g.getAllPointsInGrid.map fun p => p.point.pt) ∧
      g.getAllPointsInGrid.length = t.settings.max_feature_count ∧
      ∀ p ∈ g.getAllPointsInGrid, p.id = -1 := by
  obtain ⟨b1, b2, b3, b4, b5⟩ := FeatureTrackerLk.newOccupancyGrid_dims t
  -- the keypoints that are inserted
  have hnew : ∃ ks : List KeyPoint,
      t.newKeypoints ext image t.detection_mask_image_border t.newOccupancyGrid = ks ∧
      ks.length = t.settings.max_feature_count ∧
      (∀ c ∈ ks, t.tooCloseToImageBorder c.pt = false) ∧
      ks.Pairwise (KeyPoint.apart t.settings.min_distance_between_features_px) := by
    have hfilter : (t.detectorKeypoints ext image t.settings.max_feature_count
        t.detection_mask_image_border).filter (fun k => !t.tooCloseToImageBorder k.pt) =
        t.detectorKeypoints ext image t.settings.max_feature_count
          t.detection_mask_image_border := by
      rw [List.filter_eq_self]
      intro c hc
      have := (FeatureTrackerLk.tooCloseToImageBorder_eq_false t c.pt).mpr (hin c hc)
      simp [this]
    have hsub : sizeSub t.settings.max_feature_count t.newOccupancyGrid.getNumPoints =
        t.settings.max_feature_count := by
      unfold sizeSub OccupancyGrid.getNumPoints
      rw [b5]; simp
    by_cases h0 : t.settings.max_feature_count = 0
    · refine ⟨[], ?_, by simp [h0], by simp, List.Pairwise.nil⟩
      unfold FeatureTrackerLk.newKeypoints FeatureTrackerLk.detectNewKeypoints
      rw [hsub, if_pos h0]; rfl
    · have hlen := FeatureTrackerLk.detectNewKeypoints_length_le t hb image
        t.settings.max_feature_count t.detection_mask_image_border
      have hdet : t.detectNewKeypoints ext image t.settings.max_feature_count
          t.detection_mask_image_border = t.detectorKeypoints ext image
            t.settings.max_feature_count t.detection_mask_image_border := by
        unfold FeatureTrackerLk.detectNewKeypoints
        rw [if_neg h0, hfilter]
      refine ⟨_, ?_, ?_, ?_, hpw⟩
      · unfold FeatureTrackerLk.newKeypoints
        rw [hsub, hdet, hfilter]
      · rw [hdet] at hlen; omega
      · intro c hc
        exact (FeatureTrackerLk.tooCloseToImageBorder_eq_false t c.pt).mpr (hin c hc)
  obtain ⟨ks, hks, hlen, hborder, hpw2⟩ := hnew
  obtain ⟨g1, hadd, hpts⟩ : ∃ g1 : OccupancyGrid,
      OccupancyGrid.addAll t.settings.min_distance_between_features_px
        (ks.map FeatureTrackerLk.newWeightedKeypoint) t.newOccupancyGrid = some g1 ∧
      g1.points = ks.map FeatureTrackerLk.newWeightedKeypoint := by
    refine ⟨_, OccupancyGrid.addAll_of_apart _ t.newOccupancyGrid ?_ ?_ ?_, by simp [b5]⟩
    · intro p hp
      rw [List.mem_map] at hp
      obtain ⟨k, hk, rfl⟩ := hp
      exact FeatureTrackerLk.inGrid_newWeightedKeypoint t b1 b2 (hborder k hk)
    · rw [List.pairwise_map]; exact hpw2
    · intro p _ r hr
      rw [b5] at hr
      exact absurd hr (List.not_mem_nil r)
  have hdetect : t.detectNewKeypointsInVisualFrame ext frame t.detection_mask_image_border
      t.newOccupancyGrid = some g1 := by
    unfold FeatureTrackerLk.detectNewKeypointsInVisualFrame VisualFrame.getRawImage
    rw [himg]
    simp only
    rw [FeatureTrackerLk.insertNewKeypoints_eq_addAll, ← hadd, ← hks]
    rfl
  have hperm : g1.getAllPointsInGrid.Perm g1.points := by
    obtain ⟨_, _, a3, a4⟩ := OccupancyGrid.addAll_dims _ _ _ hadd
    apply OccupancyGrid.getAllPointsInGrid_perm
    · rw [a3, b3]; exact hd
    · rw [a4, b4]; exact hd
    · exact OccupancyGrid.addAll_points_inGrid hadd (by rw [b5]; simp)
  refine ⟨insertCvKeypointsIntoEmptyVisualFrame (g1.getAllPointsInGrid.map fun p => p.point)
    t.kKeypointUncertaintyPx frame, g1, ?_, hdetect, ?_, ?_, ?_⟩
  · unfold FeatureTrackerLk.initializeKeypointsInEmptyVisualFrame
    rw [if_pos hempty, hdetect]
    simp only
    rw [if_pos (by rfl)]
  · rw [FeatureTrackerLk.insertCvKeypoints_measurements, List.map_map]
    rfl
  · rw [hperm.length_eq, hpts, List.length_map, hlen]
  · intro p hp
    have := hperm.mem_iff.mp hp
    rw [hpts, List.mem_map] at this
    obtain ⟨k, _, rfl⟩ := this
    rfl

/-- C9, amended, on the scene: the detector supplies three candidates inside the border
margin for the budget of 3, and the empty frame gets 3 keypoints. -/
theorem bootstrap_keypoint_count_witness :
    0 < Scene.tracker.settings.min_distance_between_features_px ∧
    (Scene.externals Scene.detectionsThree Scene.flow).honoursBudget ∧
    Scene.frame_kp1.hasNoKeypointMeasurements = true ∧
    Scene.frame_kp1.raw_image = some Scene.image ∧
    Scene.tracker.settings.max_feature_count ≤
      (Scene.tracker.detectorKeypoints (Scene.externals Scene.detectionsThree Scene.flow)
        Scene.image Scene.tracker.settings.max_feature_count
        Scene.tracker.detection_mask_image_border).length ∧
    (∀ c ∈ Scene.tracker.detectorKeypoints (Scene.externals Scene.detectionsThree Scene.flow)
        Scene.image Scene.tracker.settings.max_feature_count
        Scene.tracker.detection_mask_image_border, Scene.tracker.insideBorder c.pt) ∧
    (Scene.tracker.detectorKeypoints (Scene.externals Scene.detectionsThree Scene.flow)
        Scene.image Scene.tracker.settings.max_feature_count
        Scene.tracker.detection_mask_image_border).Pairwise
      (KeyPoint.apart Scene.tracker.settings.min_distance_between_features_px) ∧
    ∃ f1 g,
      Scene.tracker.initializeKeypointsInEmptyVisualFrame
        (Scene.externals Scene.detectionsThree Scene.flow) Scene.frame_kp1 = some f1 ∧
      Scene.tracker.detectNewKeypointsInVisualFrame
        (Scene.externals Scene.detectionsThree Scene.flow) Scene.frame_kp1
        Scene.tracker.detection_mask_image_border Scene.tracker.newOccupancyGrid = some g ∧
      f1.keypoint_measurements = some (g.getAllPointsInGrid.map fun p => p.point.pt) ∧
      g.getAllPointsInGrid.length = Scene.tracker.settings.max_feature_count ∧
      ∀ p ∈ g.getAllPointsInGrid, p.id = -1 :=
  ⟨by decide!, Scene.externals_honoursBudget _ _, by decide, rfl, by decide!, by decide!,
    by decide!,
    bootstrap_keypoint_count Scene.tracker (Scene.externals Scene.detectionsThree Scene.flow)
      Scene.frame_kp1 Scene.image (by decide!) (Scene.externals_honoursBudget _ _) (by decide)
      rfl (by decide!) (by decide!) (by decide!)⟩

/-- C11: a call of track is fatal whenever a non-empty abort set is pending whose frame id is
not the id of the frame k passed to track, whatever else holds. The test of line 276 fires in
that case only: when the frame id of the request is the id of frame k, the test does not fire
and track checks what it checks for a tracker without a request. -/
theorem track_checks_frame_id_of_abort_request (t : FeatureTrackerLk) (ext : Externals)
    (q : Quaternion) (frame_k frame_kp1 : VisualFrame) :
    (t.keypoint_indices_to_abort ≠ [] → t.abort_keypoints_wrt_frame_id ≠ frame_k.id →
      t.track ext q frame_k frame_kp1 = none) ∧
    (t.abortRequestOfOtherFrame frame_k = true ↔
      t.keypoint_indices_to_abort ≠ [] ∧ t.abort_keypoints_wrt_frame_id ≠ frame_k.id) ∧
    (t.abort_keypoints_wrt_frame_id = frame_k.id →
      t.abortRequestOfOtherFrame frame_k = false ∧
      t.trackPreconditions frame_k frame_kp1 =
        ({ t with keypoint_indices_to_abort := [] } : FeatureTrackerLk).trackPreconditions
          frame_k frame_kp1) := by
  have hiff : t.abortRequestOfOtherFrame frame_k = true ↔
      t.keypoint_indices_to_abort ≠ [] ∧ t.abort_keypoints_wrt_frame_id ≠ frame_k.id := by
    unfold FeatureTrackerLk.abortRequestOfOtherFrame
    cases hl : t.keypoint_indices_to_abort <;> simp
  refine ⟨?_, hiff, ?_⟩
  · intro hne hid
    have hfire : t.abortRequestOfOtherFrame frame_k = true := hiff.mpr ⟨hne, hid⟩
    have hpre : t.trackPreconditions frame_k frame_kp1 = false := by
      unfold FeatureTrackerLk.trackPreconditions
      rw [hfire]
      simp
    unfold FeatureTrackerLk.track
    rw [hpre]
    simp
  · intro hid
    have hoff : t.abortRequestOfOtherFrame frame_k = false := by
      unfold FeatureTrackerLk.abortRequestOfOtherFrame
      simp [hid]
    refine ⟨hoff, ?_⟩
    unfold FeatureTrackerLk.trackPreconditions
    rw [hoff]
    simp [FeatureTrackerLk.abortRequestOfOtherFrame]

/-- C11 on the scene: the request to abort keypoint 1 of frame 1 is fatal for a frame k with
the id 3, and track returns for the frame k with the id 1. -/
theorem track_checks_frame_id_of_abort_request_witness :
    Scene.trackerAbort.track (Scene.externals Scene.detections Scene.flow) Scene.rotation
        { Scene.frame_k Scene.keypoints_k with id := ⟨3⟩ } Scene.frame_kp1 = none ∧
      (Scene.trackerAbort.track (Scene.externals Scene.detections Scene.flow) Scene.rotation
        (Scene.frame_k Scene.keypoints_k) Scene.frame_kp1).isSome = true :=
  ⟨(track_checks_frame_id_of_abort_request Scene.trackerAbort
      (Scene.externals Scene.detections Scene.flow) Scene.rotation
      { Scene.frame_k Scene.keypoints_k with id := ⟨3⟩ } Scene.frame_kp1).1
      (by decide) (by decide), by decide!⟩

/-- C12: after every call of track that returns, the abort set of the tracker is empty and
the frame id of the request is invalid, whatever the frames, the detections and the abort
set were; nothing else of the tracker changes. A second call therefore aborts nothing: it
offers to the grid what the tracker without a request offers. -/
theorem track_resets_abort_request (t t1 : FeatureTrackerLk) (ext : Externals)
    (q : Quaternion) (frame_k frame_kp1 f1 : VisualFrame)
    (matches_kp1_k : List FrameToFrameMatchWithScore)
    (h : t.track ext q frame_k frame_kp1 = some (t1, f1, matches_kp1_k)) :
    t1.keypoint_indices_to_abort = [] ∧
    t1.abort_keypoints_wrt_frame_id = UniqueId.invalid ∧
    t1.abort_keypoints_wrt_frame_id.isValid = false ∧
    t1 = { t with keypoint_indices_to_abort := []
                  abort_keypoints_wrt_frame_id := UniqueId.invalid } ∧
    (∀ frame, t1.abortRequestOfOtherFrame frame = false) ∧
    ∀ (ext1 : Externals) (keypoints_kp1_match : List KeyPoint) (keypoint : KeyPoint)
      (tracking_error : ℚ) (keypoint_idx_k : Nat),
      t1.trackedPointToInsert ext1 keypoints_kp1_match keypoint true tracking_error
          keypoint_idx_k = none →
        t1.tooCloseToImageBorder keypoint.pt = true ∨
          ext1.FLAGS_lk_max_tracking_error < tracking_error := by
  obtain ⟨-, image, kps, succ, errs, g, -, -, -, ht1, -, -⟩ := FeatureTrackerLk.track_some h
  subst ht1
  refine ⟨rfl, rfl, rfl, rfl, fun frame => rfl, ?_⟩
  intro ext1 cands keypoint err idx hnone
  by_contra hcon
  push_neg at hcon
  obtain ⟨hb, he⟩ := hcon
  have hb1 : FeatureTrackerLk.tooCloseToImageBorder
      { t with keypoint_indices_to_abort := []
               abort_keypoints_wrt_frame_id := UniqueId.invalid } keypoint.pt = false := by
    simpa using hb
  unfold FeatureTrackerLk.trackedPointToInsert at hnone
  rw [hb1] at hnone
  simp only [Bool.not_true, Bool.false_eq_true, if_false, List.not_mem_nil] at hnone
  split_ifs at hnone
  exact absurd ‹_› (not_lt.mpr he)

/-- C12 on the scene: the call with the request to abort keypoint 1 returns, and the tracker
it returns holds no request. -/
theorem track_resets_abort_request_witness :
    ∃ t1 f1 M,
      Scene.trackerAbort.track (Scene.externals Scene.detections Scene.flow) Scene.rotation
        (Scene.frame_k Scene.keypoints_k) Scene.frame_kp1 = some (t1, f1, M) ∧
      t1.keypoint_indices_to_abort = [] ∧
      t1.abort_keypoints_wrt_frame_id = UniqueId.invalid :=
  (Option.isSome_iff_exists.mp (by decide! :
    (Scene.trackerAbort.track (Scene.externals Scene.detections Scene.flow) Scene.rotation
      (Scene.frame_k Scene.keypoints_k) Scene.frame_kp1).isSome = true)).elim fun r hr =>
    ⟨r.1, r.2.1, r.2.2, hr,
      (track_resets_abort_request Scene.trackerAbort r.1 _ _ _ _ r.2.1 r.2.2 hr).1,
      (track_resets_abort_request Scene.trackerAbort r.1 _ _ _ _ r.2.1 r.2.2 hr).2.1⟩

/-- C13, as stated, fails: with a retainBest that keeps the keypoints that tie with the n-th
best one, as that of OpenCV does, detectNewKeypoints returns two candidates for the budget
1. -/
theorem detectNewKeypoints_exceeds_budget :
    ¬ ∀ (t : FeatureTrackerLk) (ext : Externals) (image : Mat) (n : Nat) (mask : Mat),
      (t.detectNewKeypoints ext image n mask).length ≤ n := by
  intro h
  have h1 := h Scene.tracker (Scene.externalsWithTies Scene.detectionsTied) Scene.image 1
    Scene.image
  revert h1
  decide!

/-- C13, amended: for every detector type, image, mask and budget n, detectNewKeypoints
returns a sublist of what the selected detection routine hands back, so at most n candidates
when the detection routines honour the budget; for n = 0 it returns the empty list whatever
the detection routines are, none of them being called. -/
theorem detectNewKeypoints_count (t : FeatureTrackerLk) (ext : Externals) (image : Mat)
    (n : Nat) (mask : Mat) (hb : ext.honoursBudget) :
    (t.detectNewKeypoints ext image n mask).length ≤ n ∧
    (t.detectNewKeypoints ext image n mask).Sublist (t.detectorKeypoints ext image n mask) ∧
    ∀ ext1 : Externals, t.detectNewKeypoints ext1 image 0 mask = [] :=
  ⟨FeatureTrackerLk.detectNewKeypoints_length_le t hb image n mask,
    FeatureTrackerLk.detectNewKeypoints_sublist_detector t ext image n mask,
    fun _ => by simp [FeatureTrackerLk.detectNewKeypoints]⟩

/-- C13 on the scene: the detector of the scene honours the budget, and of its two detections
one is returned for the budget 1. -/
theorem detectNewKeypoints_count_witness :
    (Scene.externals Scene.detections Scene.flow).honoursBudget ∧
      (Scene.tracker.detectNewKeypoints (Scene.externals Scene.detections Scene.flow)
        Scene.image 1 Scene.image).length ≤ 1 :=
  ⟨Scene.externals_honoursBudget _ _,
    (detectNewKeypoints_count Scene.tracker (Scene.externals Scene.detections Scene.flow)
      Scene.image 1 Scene.image (Scene.externals_honoursBudget _ _)).1⟩

/-- C14, as stated, fails: the response is a float. For an output of the corner detector of
2^24 + 3 corners that keep the border margin, detectNewKeypoints returns them all, and the
candidate with the index 2^24 + 2 has the float nearest to 1 - (2^24 + 2) = -(2^24 + 1) as
response, which is -2^24, the response of the candidate with the index 2^24 + 1: the response
is not 1 - i, and the responses do not decrease strictly. -/
theorem gfft_scores_tie :
    ((Scene.trackerGfft.detectNewKeypoints (Scene.externalsGfft Scene.manyCorners) Scene.image
        16777219 Scene.image)[16777217]?).map (fun k => k.response) =
      some (-16777216 : ℚ) ∧
    ((Scene.trackerGfft.detectNewKeypoints (Scene.externalsGfft Scene.manyCorners) Scene.image
        16777219 Scene.image)[16777218]?).map (fun k => k.response) =
      some (-16777216 : ℚ) ∧
    (1 : ℚ) - 16777218 ≠ -16777216 := by
  have hkp : Scene.trackerGfft.detectorKeypoints (Scene.externalsGfft Scene.manyCorners)
      Scene.image 16777219 Scene.image =
      FeatureTrackerLk.assignScores
        ((List.replicate 16777219 (⟨5, 5⟩ : Point2f)).map
          (fun p => (⟨p, 1, -1, 1⟩ : KeyPoint))) 1 := by
    have htake : (List.replicate 16777219 (⟨5, 5⟩ : Point2f)).take 16777219 =
        List.replicate 16777219 ⟨5, 5⟩ := by
      rw [List.take_replicate, Nat.min_self]
    show FeatureTrackerLk.assignScores
      (((List.replicate 16777219 (⟨5, 5⟩ : Point2f)).take 16777219).map
        (fun p => (⟨p, 1, -1, 1⟩ : KeyPoint))) 1 = _
    rw [htake]
  have hall : Scene.trackerGfft.detectNewKeypoints (Scene.externalsGfft Scene.manyCorners)
      Scene.image 16777219 Scene.image =
      FeatureTrackerLk.assignScores
        ((List.replicate 16777219 (⟨5, 5⟩ : Point2f)).map
          (fun p => (⟨p, 1, -1, 1⟩ : KeyPoint))) 1 := by
    unfold FeatureTrackerLk.detectNewKeypoints
    rw [if_neg (by decide), hkp, List.filter_eq_self]
    intro a ha
    obtain ⟨k, hk, hpt⟩ := FeatureTrackerLk.assignScores_pt _ _ a ha
    rw [List.mem_map] at hk
    obtain ⟨p, hp, rfl⟩ := hk
    rw [hpt, List.eq_of_mem_replicate hp]
    decide!
  have hget : ∀ i : Nat, i < 16777219 →
      ((List.replicate 16777219 (⟨5, 5⟩ : Point2f)).map
        (fun p => (⟨p, 1, -1, 1⟩ : KeyPoint)))[i]? = some ⟨⟨5, 5⟩, 1, -1, 1⟩ := by
    intro i hi
    rw [List.getElem?_map, List.getElem?_replicate, if_pos hi]
    rfl
  refine ⟨?_, ?_, by norm_num⟩
  · rw [hall, FeatureTrackerLk.assignScores_getElem _ 1 16777217 _ (hget _ (by omega))
      (fun j hj => by omega)]
    show some (((toFloat (1 - ((16777217 : Nat) : Int)) : Int) : ℚ)) = some (-16777216 : ℚ)
    have : toFloat (1 - ((16777217 : Nat) : Int)) = -16777216 := by decide!
    rw [this]
    norm_num
  · rw [hall, FeatureTrackerLk.assignScores_getElem _ 1 16777218 _ (hget _ (by omega))
      (fun j hj => by omega)]
    show some (((toFloat (1 - ((16777218 : Nat) : Int)) : Int) : ℚ)) = some (-16777216 : ℚ)
    have : toFloat (1 - ((16777218 : Nat) : Int)) = -16777216 := by decide!
    rw [this]
    norm_num

/-- C14, amended: for the ocvgfft detector the keypoints of the detector are its positions in
the order of its output, and the one at an index i up to 2^24 + 1 has the response 1 - i, so
that the responses of the first 2^24 + 2 candidates decrease strictly; from the index
2^24 + 2 on the response is 1 - i rounded to float. detectNewKeypoints returns a sublist of
these keypoints, so in the same order, and with strictly decreasing responses when the
detector finds at most 2^24 + 2 candidates. -/
theorem gfft_scores_decrease (t : FeatureTrackerLk) (ext : Externals) (image : Mat) (n : Nat)
    (mask : Mat) (hd : t.settings.detector_type = DetectorType.kOcvGfft) :
    (t.detectorKeypoints ext image n mask).length =
      (ext.cornerSubPix image (ext.goodFeaturesToTrack image n
        t.settings.min_distance_between_features_px mask)).length ∧
    (∀ (i : Nat) (p : Point2f),
      (ext.cornerSubPix image (ext.goodFeaturesToTrack image n
        t.settings.min_distance_between_features_px mask))[i]? = some p →
      i ≤ 2 ^ 24 + 1 →
      (t.detectorKeypoints ext image n mask)[i]? = some ⟨p, 1, -1, 1 - (i : ℚ)⟩) ∧
    (∀ (i : Nat) (p : Point2f),
      (ext.cornerSubPix image (ext.goodFeaturesToTrack image n
        t.settings.min_distance_between_features_px mask))[i]? = some p →
      i < 2 ^ 53 →
      (t.detectorKeypoints ext image n mask)[i]? =
        some ⟨p, 1, -1, ((toFloat (1 - (i : Int)) : Int) : ℚ)⟩) ∧
    (∀ (i j : Nat) (a b : KeyPoint), i < j → j ≤ 2 ^ 24 + 1 →
      (t.detectorKeypoints ext image n mask)[i]? = some a →
      (t.detectorKeypoints ext image n mask)[j]? = some b → b.response < a.response) ∧
    (t.detectNewKeypoints ext image n mask).Sublist (t.detectorKeypoints ext image n mask) ∧
    ((t.detectorKeypoints ext image n mask).length ≤ 2 ^ 24 + 2 →
      (t.detectNewKeypoints ext image n mask).Pairwise fun a b => b.response < a.response) := by
  have hkp : t.detectorKeypoints ext image n mask =
      FeatureTrackerLk.assignScores
        ((ext.cornerSubPix image (ext.goodFeaturesToTrack image n
          t.settings.min_distance_between_features_px mask)).map
          (fun p => (⟨p, 1, -1, 1⟩ : KeyPoint))) 1 := by
    unfold FeatureTrackerLk.detectorKeypoints
    rw [hd]
  have hlen : (t.detectorKeypoints ext image n mask).length =
      (ext.cornerSubPix image (ext.goodFeaturesToTrack image n
        t.settings.min_distance_between_features_px mask)).length := by
    rw [hkp, FeatureTrackerLk.assignScores_length, List.length_map]
  have hsub := FeatureTrackerLk.detectNewKeypoints_sublist_detector t ext image n mask
  have hfirst : ∀ (i : Nat) (p : Point2f),
      (ext.cornerSubPix image (ext.goodFeaturesToTrack image n
        t.settings.min_distance_between_features_px mask))[i]? = some p →
      i ≤ 2 ^ 24 + 1 →
      (t.detectorKeypoints ext image n mask)[i]? = some ⟨p, 1, -1, 1 - (i : ℚ)⟩ := by
    intro i p hp hi
    rw [hkp]
    exact FeatureTrackerLk.assignScores_one_getElem _ i ⟨p, 1, -1, 1⟩ (by simp [hp]) hi
  have hdec : ∀ (i j : Nat) (a b : KeyPoint), i < j → j ≤ 2 ^ 24 + 1 →
      (t.detectorKeypoints ext image n mask)[i]? = some a →
      (t.detectorKeypoints ext image n mask)[j]? = some b → b.response < a.response := by
    intro i j a b hij hj ha hb
    have hjl : j < (ext.cornerSubPix image (ext.goodFeaturesToTrack image n
        t.settings.min_distance_between_features_px mask)).length := by
      rw [← hlen]
      by_contra hge
      rw [List.getElem?_eq_none (not_lt.mp hge)] at hb
      exact absurd hb (by simp)
    have h1 := hfirst i _ (List.getElem?_eq_getElem (lt_trans hij hjl)) (by omega)
    have h2 := hfirst j _ (List.getElem?_eq_getElem hjl) hj
    rw [ha] at h1
    rw [hb] at h2
    simp only [Option.some.injEq] at h1 h2
    rw [h1, h2]
    show (1 : ℚ) - (j : ℚ) < 1 - (i : ℚ)
    have : (i : ℚ) < (j : ℚ) := by exact_mod_cast hij
    linarith
  refine ⟨hlen, hfirst, ?_, hdec, hsub, ?_⟩
  · intro i p hp hi
    rw [hkp]
    exact FeatureTrackerLk.assignScores_getElem _ 1 i ⟨p, 1, -1, 1⟩ (by simp [hp])
      (fun j hj => by omega)
  · intro hle
    refine List.Pairwise.sublist hsub ?_
    rw [List.pairwise_iff_getElem]
    intro i j hi hj hij
    exact hdec i j _ _ hij (by omega) (List.getElem?_eq_getElem hi)
      (List.getElem?_eq_getElem hj)

/-- C14 on the scene: of three corners, the second on the image border, the first and the
third are returned, with the responses 1 and -1. -/
theorem gfft_scores_decrease_witness :
    (Scene.trackerGfft.detectNewKeypoints (Scene.externalsGfft Scene.corners) Scene.image 3
        Scene.image).map (fun k => (k.pt, k.response)) = [(⟨5, 5⟩, 1), (⟨15, 15⟩, -1)] ∧
      ((Scene.trackerGfft.detectNewKeypoints (Scene.externalsGfft Scene.corners) Scene.image 3
        Scene.image).Pairwise fun a b => b.response < a.response) :=
  ⟨by decide!,
    (gfft_scores_decrease Scene.trackerGfft (Scene.externalsGfft Scene.corners) Scene.image 3
      Scene.image rfl).2.2.2.2.2 (by decide!)⟩

/-- C15: convertStringToDetectorType returns kBriskDetector, kOcvGfft, kOcvBrisk and kOcvSurf
for exactly the strings "brisk", "ocvgfft", "ocvbrisk" and "ocvsurf", and is fatal for every
other string, a string that differs in case or by a blank included; the constructor of the
settings is fatal with it and no detector is taken as a default. -/
theorem convertStringToDetectorType_exact (detector_string : String) :
    (LkTrackerSettings.convertStringToDetectorType detector_string =
        some DetectorType.kBriskDetector ↔ detector_string = "brisk") ∧
    (LkTrackerSettings.convertStringToDetectorType detector_string =
        some DetectorType.kOcvGfft ↔ detector_string = "ocvgfft") ∧
    (LkTrackerSettings.convertStringToDetectorType detector_string =
        some DetectorType.kOcvBrisk ↔ detector_string = "ocvbrisk") ∧
    (LkTrackerSettings.convertStringToDetectorType detector_string =
        some DetectorType.kOcvSurf ↔ detector_string = "ocvsurf") ∧
    (LkTrackerSettings.convertStringToDetectorType detector_string = none ↔
      detector_string ≠ "brisk" ∧ detector_string ≠ "ocvgfft" ∧
        detector_string ≠ "ocvbrisk" ∧ detector_string ≠ "ocvsurf") ∧
    (LkTrackerSettings.convertStringToDetectorType detector_string = none →
      ∀ flags : LkTrackerSettings, LkTrackerSettings.create detector_string flags = none) ∧
    LkTrackerSettings.convertStringToDetectorType "Brisk" = none ∧
    LkTrackerSettings.convertStringToDetectorType "OCVBRISK" = none ∧
    LkTrackerSettings.convertStringToDetectorType "ocvbrisk " = none ∧
    LkTrackerSettings.convertStringToDetectorType "" = none := by
  refine ⟨?_, ?_, ?_, ?_, ?_, ?_, ?_, ?_, ?_, ?_⟩
  · unfold LkTrackerSettings.convertStringToDetectorType
    constructor
    · intro h
      split_ifs at h with h1 h2 h3 h4
      · exact h1
      all_goals simp at h
    · intro h; subst h; simp
  · unfold LkTrackerSettings.convertStringToDetectorType
    constructor
    · intro h
      split_ifs at h with h1 h2 h3 h4
      · simp at h
      · exact h2
      all_goals simp at h
    · intro h; subst h; simp
  · unfold LkTrackerSettings.convertStringToDetectorType
    constructor
    · intro h
      split_ifs at h with h1 h2 h3 h4
      · simp at h
      · simp at h
      · exact h3
      all_goals simp at h
    · intro h; subst h; simp
  · unfold LkTrackerSettings.convertStringToDetectorType
    constructor
    · intro h
      split_ifs at h with h1 h2 h3 h4
      · simp at h
      · simp at h
      · simp at h
      · exact h4
    · intro h; subst h; simp
  · unfold LkTrackerSettings.convertStringToDetectorType
    constructor
    · intro h
      split_ifs at h with h1 h2 h3 h4
      exact ⟨h1, h2, h3, h4⟩
    · rintro ⟨h1, h2, h3, h4⟩
      simp [h1, h2, h3, h4]
  · intro h flags
    unfold LkTrackerSettings.create
    rw [h]
  · simp [LkTrackerSettings.convertStringToDetectorType]
  · simp [LkTrackerSettings.convertStringToDetectorType]
  · simp [LkTrackerSettings.convertStringToDetectorType]
  · simp [LkTrackerSettings.convertStringToDetectorType]

/-- C16: the constructor of FeatureTrackerLk is fatal unless 2 * kMinDistanceToImageBorderPx
is less than the image width and less than the image height of the camera. For a camera with
both inequalities the two checks pass: the constructor returns a tracker, of this camera and
this margin, unless the camera has a mask that has not the size of the image. -/
theorem constructor_checks_border_margin (camera : Camera) (settings : LkTrackerSettings)
    (kMinDistanceToImageBorderPx : Nat) (kKeypointUncertaintyPx : ℚ) :
    (¬ (2 * kMinDistanceToImageBorderPx < camera.imageWidth ∧
        2 * kMinDistanceToImageBorderPx < camera.imageHeight) →
      FeatureTrackerLk.create camera settings kMinDistanceToImageBorderPx
        kKeypointUncertaintyPx = none) ∧
    (2 * kMinDistanceToImageBorderPx < camera.imageWidth →
      2 * kMinDistanceToImageBorderPx < camera.imageHeight →
      ((FeatureTrackerLk.create camera settings kMinDistanceToImageBorderPx
          kKeypointUncertaintyPx).isSome = true ↔
        ∀ mask, camera.mask = some mask →
          mask.rows = camera.imageHeight ∧ mask.cols = camera.imageWidth)) ∧
    (∀ t, FeatureTrackerLk.create camera settings kMinDistanceToImageBorderPx
        kKeypointUncertaintyPx = some t →
      t.camera = camera ∧ t.kMinDistanceToImageBorderPx = kMinDistanceToImageBorderPx ∧
        2 * kMinDistanceToImageBorderPx < camera.imageWidth ∧
        2 * kMinDistanceToImageBorderPx < camera.imageHeight) := by
  refine ⟨?_, ?_, ?_⟩
  · intro h
    unfold FeatureTrackerLk.create
    rw [dif_neg h]
  · intro hw hh
    unfold FeatureTrackerLk.create
    rw [dif_pos ⟨hw, hh⟩]
    cases hm : camera.mask with
    | none => simp
    | some mask =>
      by_cases hs : mask.rows = camera.imageHeight ∧ mask.cols = camera.imageWidth
      · simp [hs]
      · simp only [if_neg hs, Option.isSome_none, Bool.false_eq_true, false_iff]
        intro hall
        exact hs (hall mask rfl)
  · intro t ht
    unfold FeatureTrackerLk.create at ht
    by_cases h : 2 * kMinDistanceToImageBorderPx < camera.imageWidth ∧
        2 * kMinDistanceToImageBorderPx < camera.imageHeight
    · rw [dif_pos h] at ht
      cases hm : camera.mask with
      | none =>
        rw [hm] at ht
        simp only [Option.some.injEq] at ht
        subst ht
        exact ⟨rfl, rfl, h.1, h.2⟩
      | some mask =>
        rw [hm] at ht
        simp only at ht
        split_ifs at ht
        simp only [Option.some.injEq] at ht
        subst ht
        exact ⟨rfl, rfl, h.1, h.2⟩
    · rw [dif_neg h] at ht
      exact absurd ht (by simp)

/-- C16 on the scene: for the camera of 20 x 20 pixels the constructor is fatal with a margin
of 10 pixels and returns a tracker with a margin of 2 pixels. -/
theorem constructor_checks_border_margin_witness :
    FeatureTrackerLk.create Scene.camera Scene.settings 10 (1 / 2) = none ∧
      (FeatureTrackerLk.create Scene.camera Scene.settings 2 (1 / 2)).isSome = true :=
  ⟨(constructor_checks_border_margin Scene.camera Scene.settings 10 (1 / 2)).1 (by decide),
    ((constructor_checks_border_margin Scene.camera Scene.settings 2 (1 / 2)).2.1
      (by decide) (by decide)).mpr
      (fun mask hmask => by
        have hm : mask = Scene.image := by
          have h1 : Scene.camera.mask = some Scene.image := rfl
          rw [h1] at hmask
          exact (Option.some.inj hmask).symm
        subst hm
        exact ⟨rfl, rfl⟩)⟩

/-- C17: track is fatal, whatever the external routines for tracking and detection are, if
frame k+1 has no raw image, if it holds at least one keypoint measurement or at least one
track id, or if the camera of frame k or of frame k+1 has not the id of the camera of the
tracker. Keypoint and track id channels of frame k+1 that exist and are empty pass the checks
like channels that do not exist. -/
theorem track_checks_frames (t : FeatureTrackerLk) (ext : Externals) (q : Quaternion)
    (frame_k frame_kp1 : VisualFrame) :
    (frame_kp1.hasRawImage = false → t.track ext q frame_k frame_kp1 = none) ∧
    ((∃ p ps, frame_kp1.keypoint_measurements = some (p :: ps)) →
      t.track ext q frame_k frame_kp1 = none) ∧
    ((∃ i ids, frame_kp1.track_ids = some (i :: ids)) →
      t.track ext q frame_k frame_kp1 = none) ∧
    ((∀ c, frame_k.camera_geometry = some c → c.id ≠ t.camera.id) →
      t.track ext q frame_k frame_kp1 = none) ∧
    ((∀ c, frame_kp1.camera_geometry = some c → c.id ≠ t.camera.id) →
      t.track ext q frame_k frame_kp1 = none) ∧
    t.trackPreconditions frame_k
        { frame_kp1 with keypoint_measurements := some [], track_ids := some [] } =
      t.trackPreconditions frame_k
        { frame_kp1 with keypoint_measurements := none, track_ids := none } := by
  refine ⟨?_, ?_, ?_, ?_, ?_, ?_⟩
  · intro h
    apply FeatureTrackerLk.track_of_not_trackPreconditions
    rw [FeatureTrackerLk.trackPreconditions_iff]
    rintro ⟨-, -, hraw, -⟩
    rw [VisualFrame.hasRawImage, hraw] at h
    exact absurd h (by simp)
  · rintro ⟨p, ps, h⟩
    apply FeatureTrackerLk.track_of_not_trackPreconditions
    rw [FeatureTrackerLk.trackPreconditions_iff]
    rintro ⟨-, -, -, hm, -⟩
    rw [h] at hm
    simp at hm
  · rintro ⟨i, ids, h⟩
    apply FeatureTrackerLk.track_of_not_trackPreconditions
    rw [FeatureTrackerLk.trackPreconditions_iff]
    rintro ⟨-, -, -, -, hi, -⟩
    rw [h] at hi
    simp at hi
  · intro h
    apply FeatureTrackerLk.track_of_not_trackPreconditions
    rw [FeatureTrackerLk.trackPreconditions_iff]
    rintro ⟨⟨c, hc, hid⟩, -⟩
    exact h c hc hid.symm
  · intro h
    apply FeatureTrackerLk.track_of_not_trackPreconditions
    rw [FeatureTrackerLk.trackPreconditions_iff]
    rintro ⟨-, ⟨c, hc, hid⟩, -⟩
    exact h c hc hid.symm
  · rw [Bool.eq_iff_iff, FeatureTrackerLk.trackPreconditions_iff,
      FeatureTrackerLk.trackPreconditions_iff]
    simp

/-- C17 on the scene: track is fatal for a frame k+1 that holds a keypoint, and it returns
for the frame k+1 whose keypoint and track id channels are empty. -/
theorem track_checks_frames_witness :
    Scene.tracker.track (Scene.externals Scene.detections Scene.flow) Scene.rotation
        (Scene.frame_k Scene.keypoints_k)
        { Scene.frame_kp1 with keypoint_measurements := some [⟨5, 5⟩] } = none ∧
      (Scene.tracker.track (Scene.externals Scene.detections Scene.flow) Scene.rotation
        (Scene.frame_k Scene.keypoints_k)
        { Scene.frame_kp1 with keypoint_measurements := some [], track_ids := some [] }).isSome
          = true :=
  ⟨(track_checks_frames Scene.tracker (Scene.externals Scene.detections Scene.flow)
      Scene.rotation (Scene.frame_k Scene.keypoints_k)
      { Scene.frame_kp1 with keypoint_measurements := some [⟨5, 5⟩] }).2.1 ⟨_, _, rfl⟩,
    by decide!⟩

/-- C18: initializeKeypointsInEmptyVisualFrame is fatal for every frame that holds at least
one keypoint measurement. A frame without the keypoint channel or with an empty one passes
the check of line 137: the function is then fatal only if the detection is, that is, if the
frame has no raw image or an insertion into the grid is fatal. -/
theorem initialize_checks_empty_frame (t : FeatureTrackerLk) (ext : Externals)
    (frame : VisualFrame) :
    ((∃ p ps, frame.keypoint_measurements = some (p :: ps)) →
      t.initializeKeypointsInEmptyVisualFrame ext frame = none) ∧
    ((frame.keypoint_measurements = none ∨ frame.keypoint_measurements = some []) →
      frame.hasNoKeypointMeasurements = true ∧
      (t.initializeKeypointsInEmptyVisualFrame ext frame = none ↔
        t.detectNewKeypointsInVisualFrame ext frame t.detection_mask_image_border
          t.newOccupancyGrid = none)) := by
  constructor
  · rintro ⟨p, ps, h⟩
    unfold FeatureTrackerLk.initializeKeypointsInEmptyVisualFrame
      VisualFrame.hasNoKeypointMeasurements
    rw [h]
    simp
  · intro h
    have hno : frame.hasNoKeypointMeasurements = true := by
      unfold VisualFrame.hasNoKeypointMeasurements
      rcases h with h | h <;> simp [h]
    refine ⟨hno, ?_⟩
    unfold FeatureTrackerLk.initializeKeypointsInEmptyVisualFrame
    rw [if_pos hno]
    cases hdet : t.detectNewKeypointsInVisualFrame ext frame t.detection_mask_image_border
        t.newOccupancyGrid with
    | none => simp
    | some g =>
      simp [insertCvKeypointsIntoEmptyVisualFrame, VisualFrame.hasKeypointMeasurements,
        VisualFrame.setKeypointMeasurements, VisualFrame.setKeypointMeasurementUncertainties]

/-- C18 on the scene: the function is fatal for a frame that holds a keypoint, and returns
for the frame without keypoint channel and for the frame with an empty one. -/
theorem initialize_checks_empty_frame_witness :
    Scene.tracker.initializeKeypointsInEmptyVisualFrame
        (Scene.externals Scene.detections Scene.flow) (Scene.frame_k Scene.keypoints_k) = none ∧
      (Scene.tracker.initializeKeypointsInEmptyVisualFrame
        (Scene.externals Scene.detections Scene.flow) Scene.frame_kp1).isSome = true ∧
      (Scene.tracker.initializeKeypointsInEmptyVisualFrame
        (Scene.externals Scene.detections Scene.flow) (Scene.frame_k [])).isSome = true :=
  ⟨(initialize_checks_empty_frame Scene.tracker (Scene.externals Scene.detections Scene.flow)
      (Scene.frame_k Scene.keypoints_k)).1 ⟨_, _, rfl⟩,
    by decide!, by decide!⟩

/-- C19: in the selection loop of track over the tracked keypoints `l1`, the point offered
to the grid for the keypoint `i` of frame k (the offered point with the id `i`, if there is
one) is the point that the loop body makes of the flow result `(k, s, e)` of keypoint `i`,
the abort set, the image size and the fresh detections `cands` alone. A second run over
`l2`, which differs from `l1` only in the flow results of other keypoints, takes the same
decision for `i` and offers the same point. The loop hands the offered points to the grid one
after the other. -/
theorem filter_decision_of_own_flow (t : FeatureTrackerLk) (ext : Externals)
    (cands : List KeyPoint) (l1 l2 : List (KeyPoint × Bool × ℚ)) (i : Nat) (k : KeyPoint)
    (s : Bool) (e : ℚ) (h1 : l1[i]? = some (k, s, e)) (h2 : l2[i]? = some (k, s, e)) :
    (t.offeredPoints ext cands l1 0).filter (fun p => decide (p.id = (i : Int))) =
      (t.trackedPointToInsert ext cands k s e i).toList ∧
    (t.offeredPoints ext cands l1 0).filter (fun p => decide (p.id = (i : Int))) =
      (t.offeredPoints ext cands l2 0).filter (fun p => decide (p.id = (i : Int))) ∧
    ((∃ p ∈ t.offeredPoints ext cands l1 0, p.id = (i : Int)) ↔
      ∃ p ∈ t.offeredPoints ext cands l2 0, p.id = (i : Int)) ∧
    (∀ g, t.selectTrackedKeypoints ext cands l1 0 g =
      OccupancyGrid.addAll t.settings.min_distance_between_features_px
        (t.offeredPoints ext cands l1 0) g) := by
  have e1 := FeatureTrackerLk.offeredPoints_filter_id t ext cands l1 0 i k s e h1
  have e2 := FeatureTrackerLk.offeredPoints_filter_id t ext cands l2 0 i k s e h2
  simp only [Nat.zero_add] at e1 e2
  refine ⟨e1, e1.trans e2.symm, ?_, fun g =>
    FeatureTrackerLk.selectTrackedKeypoints_eq_addAll t ext cands l1 0 g⟩
  have hmem : ∀ l : List (KeyPoint × Bool × ℚ),
      (∃ p ∈ t.offeredPoints ext cands l 0, p.id = (i : Int)) ↔
        ∃ p, p ∈ (t.offeredPoints ext cands l 0).filter
          (fun p => decide (p.id = (i : Int))) := by
    intro l
    simp [List.mem_filter]
  rw [hmem l1, hmem l2, e1, e2]

/-- C19 on the scene: the flow results of keypoint 0 are those of `tracked` in both runs, the
second run loses keypoint 1; both offer the point of keypoint 0 at the fresh detection
(5, 5). -/
theorem filter_decision_of_own_flow_witness :
    (Scene.tracker.offeredPoints (Scene.externals Scene.detections Scene.flow)
        Scene.detections Scene.tracked 0).filter (fun p => decide (p.id = ((0 : Nat) : Int))) =
      (Scene.tracker.offeredPoints (Scene.externals Scene.detections Scene.flow)
        Scene.detections [(Scene.keypoint 5 6 0, true, 0), (Scene.keypoint 1 1 0, false, 7)]
        0).filter (fun p => decide (p.id = ((0 : Nat) : Int))) ∧
      (Scene.tracker.offeredPoints (Scene.externals Scene.detections Scene.flow)
        Scene.detections Scene.tracked 0).filter (fun p => decide (p.id = ((0 : Nat) : Int))) =
      [⟨Scene.keypoint 5 6 0, 5, 5, Weight.val 0, 0⟩] :=
  ⟨(filter_decision_of_own_flow Scene.tracker (Scene.externals Scene.detections Scene.flow)
      Scene.detections Scene.tracked
      [(Scene.keypoint 5 6 0, true, 0), (Scene.keypoint 1 1 0, false, 7)] 0
      (Scene.keypoint 5 6 0) true 0 rfl rfl).2.1,
    by decide!⟩

/-- C20 fails on the scene: the keypoint of frame k is tracked to (10, 10), and the
redetection adds the new keypoint (5, 5), which lies in an earlier cell of the grid. Frame k+1
gets the new keypoint at index 0 and the tracked one at index 1, and the one match has the
frame-(k+1) index 1, not 0. -/
theorem track_writes_new_keypoint_before_tracked :
    (Scene.tracker.track (Scene.externals Scene.detectionsOne Scene.flowOne) Scene.rotation
        (Scene.frame_k [⟨9, 9⟩]) Scene.frame_kp1).map
        (fun r => (r.2.1.keypoint_measurements, r.2.2)) =
      some (some [⟨5, 5⟩, ⟨10, 10⟩], [⟨1, 0, Weight.max⟩]) := by
  decide!

/-- C22: every match that track emits has the maximal weight as its score, for every input,
so that no two matches differ in their scores: the point of a match was offered to the grid
with the negated flow error of a keypoint of frame k as its weight, and
setConstantWeightForAllPointsInGrid overwrote it before the read-out. -/
theorem track_match_scores_maximal (t t1 : FeatureTrackerLk) (ext : Externals)
    (q : Quaternion) (frame_k frame_kp1 f1 : VisualFrame)
    (matches_kp1_k : List FrameToFrameMatchWithScore)
    (h : t.track ext q frame_k frame_kp1 = some (t1, f1, matches_kp1_k)) :
    (∀ m ∈ matches_kp1_k, m.score = Weight.max) ∧
    (∀ m1 ∈ matches_kp1_k, ∀ m2 ∈ matches_kp1_k, m1.score = m2.score) ∧
    ∃ image kps succ errs,
      FeatureTrackerLk.trackedKeypoints ext q frame_k image = some (kps, succ, errs) ∧
      ∀ m ∈ matches_kp1_k, ∃ (j : Nat) (k : KeyPoint) (s : Bool) (e : ℚ)
        (p : WeightedKeypoint),
        kps[j]? = some k ∧ succ[j]? = some s ∧ errs[j]? = some e ∧
        t.trackedPointToInsert ext (t.freshDetections ext image) k s e j = some p ∧
        p.weight = Weight.val (-e) ∧ m.keypoint_index_k = (j : Int) := by
  obtain ⟨-, image, kps, succ, errs, g, -, htr, hgrid, -, -, rfl⟩ :=
    FeatureTrackerLk.track_some h
  have hall : ∀ m ∈ FeatureTrackerLk.extractMatches g.getAllPointsInGrid 0,
      m.score = Weight.max ∧ ∃ (j : Nat) (k : KeyPoint) (s : Bool) (e : ℚ)
        (p : WeightedKeypoint),
        kps[j]? = some k ∧ succ[j]? = some s ∧ errs[j]? = some e ∧
        t.trackedPointToInsert ext (t.freshDetections ext image) k s e j = some p ∧
        p.weight = Weight.val (-e) ∧ m.keypoint_index_k = (j : Int) := by
    intro m hm
    obtain ⟨p, -, hp, hid, hk, hs⟩ := (FeatureTrackerLk.mem_extractMatches _ 0 m).mp hm
    have hmem := List.getElem?_mem hp
    rcases FeatureTrackerLk.trackGrid_origin hgrid hmem with
      ⟨j, k, s, e, p0, hj, hsj, hej, hins, rfl⟩ | ⟨k, rfl, -⟩
    · have hp0 := FeatureTrackerLk.trackedPointToInsert_some t ext _ k s e j p0 hins
      refine ⟨hs, j, k, s, e, p0, hj, hsj, hej, hins, hp0.2.1, ?_⟩
      rw [hk]
      exact hp0.2.2.1
    · exact absurd hid (by simp [FeatureTrackerLk.newWeightedKeypoint])
  refine ⟨fun m hm => (hall m hm).1, fun m1 h1 m2 h2 => ?_, image, kps, succ, errs, htr,
    fun m hm => (hall m hm).2⟩
  rw [(hall m1 h1).1, (hall m2 h2).1]

/-- C22 on the scene: both keypoints of frame k are tracked, with the flow errors 0 and 1/2,
and both matches have the maximal weight as score. -/
theorem track_match_scores_maximal_witness :
    ∃ t1 f1 M,
      Scene.tracker.track (Scene.externals Scene.detections Scene.flow) Scene.rotation
        (Scene.frame_k Scene.keypoints_k) Scene.frame_kp1 = some (t1, f1, M) ∧
      M.length = 2 ∧ ∀ m ∈ M, m.score = Weight.max :=
  (Option.map_eq_some'.mp (by decide! :
    (Scene.tracker.track (Scene.externals Scene.detections Scene.flow) Scene.rotation
      (Scene.frame_k Scene.keypoints_k) Scene.frame_kp1).map (fun r => r.2.2.length) =
      some 2)).elim fun r hr =>
    ⟨r.1, r.2.1, r.2.2, hr.1, hr.2,
      (track_match_scores_maximal Scene.tracker r.1 _ _ _ _ r.2.1 r.2.2 hr.1).1⟩

/-- C23: in the list of matches that track emits the indices of frame k+1 increase strictly,
and no index of frame k occurs twice: two matches with the same index of frame k+1 or with
the same index of frame k are the same match. Every index of frame k in it is at least 0 and
smaller than the number of keypoints of frame k. -/
theorem track_matches_injective (t t1 : FeatureTrackerLk) (ext : Externals)
    (q : Quaternion) (frame_k frame_kp1 f1 : VisualFrame)
    (matches_kp1_k : List FrameToFrameMatchWithScore)
    (h : t.track ext q frame_k frame_kp1 = some (t1, f1, matches_kp1_k)) :
    (matches_kp1_k.map fun m => m.keypoint_index_kp1).Sorted (· < ·) ∧
    (matches_kp1_k.map fun m => m.keypoint_index_k).Nodup ∧
    (∀ m1 ∈ matches_kp1_k, ∀ m2 ∈ matches_kp1_k,
      m1.keypoint_index_kp1 = m2.keypoint_index_kp1 → m1 = m2) ∧
    (∀ m1 ∈ matches_kp1_k, ∀ m2 ∈ matches_kp1_k,
      m1.keypoint_index_k = m2.keypoint_index_k → m1 = m2) ∧
    ∃ n, frame_k.getNumKeypointMeasurements ext.num_keypoints_without_channel = some n ∧
      ∀ m ∈ matches_kp1_k, 0 ≤ m.keypoint_index_k ∧ m.keypoint_index_k < (n : Int) := by
  obtain ⟨-, image, kps, succ, errs, g, -, htr, hgrid, -, -, rfl⟩ :=
    FeatureTrackerLk.track_some h
  have hsorted := FeatureTrackerLk.extractMatches_sorted g.getAllPointsInGrid 0
  have hnodup : ((FeatureTrackerLk.extractMatches g.getAllPointsInGrid 0).map
      fun m => m.keypoint_index_k).Nodup := by
    rw [FeatureTrackerLk.extractMatches_index_k]
    exact FeatureTrackerLk.trackGrid_ids_nodup hgrid
  refine ⟨hsorted, hnodup, ?_, ?_, kps.length, FeatureTrackerLk.trackedKeypoints_count htr, ?_⟩
  · intro m1 h1 m2 h2 heq
    exact List.inj_on_of_nodup_map hsorted.nodup h1 h2 heq
  · intro m1 h1 m2 h2 heq
    exact List.inj_on_of_nodup_map hnodup h1 h2 heq
  · intro m hm
    obtain ⟨p, -, hp, hid, hk, -⟩ := (FeatureTrackerLk.mem_extractMatches _ 0 m).mp hm
    refine ⟨hk ▸ hid, ?_⟩
    rcases FeatureTrackerLk.trackGrid_origin hgrid (List.getElem?_mem hp) with
      ⟨j, k, s, e, p0, hj, -, -, hins, rfl⟩ | ⟨k, rfl, -⟩
    · have hp0 := FeatureTrackerLk.trackedPointToInsert_some t ext _ k s e j p0 hins
      rw [hk]
      show p0.id < (kps.length : Int)
      rw [hp0.2.2.1]
      have hlt : j < kps.length := by
        by_contra hge
        rw [List.getElem?_eq_none (not_lt.mp hge)] at hj
        exact absurd hj (by simp)
      exact_mod_cast hlt
    · exact absurd hid (by simp [FeatureTrackerLk.newWeightedKeypoint])

/-- C23 on the scene: track emits the two matches (0, 0) and (1, 1). -/
theorem track_matches_injective_witness :
    ∃ t1 f1 M,
      Scene.tracker.track (Scene.externals Scene.detections Scene.flow) Scene.rotation
        (Scene.frame_k Scene.keypoints_k) Scene.frame_kp1 = some (t1, f1, M) ∧
      M.map (fun m => (m.keypoint_index_kp1, m.keypoint_index_k)) = [(0, 0), (1, 1)] ∧
      (M.map fun m => m.keypoint_index_k).Nodup :=
  (Option.map_eq_some'.mp (by decide! :
    (Scene.tracker.track (Scene.externals Scene.detections Scene.flow) Scene.rotation
      (Scene.frame_k Scene.keypoints_k) Scene.frame_kp1).map
      (fun r => r.2.2.map fun m => (m.keypoint_index_kp1, m.keypoint_index_k)) =
      some [(0, 0), (1, 1)])).elim fun r hr =>
    ⟨r.1, r.2.1, r.2.2, hr.1, hr.2,
      (track_matches_injective Scene.tracker r.1 _ _ _ _ r.2.1 r.2.2 hr.1).2.1⟩

/-- C24: for settings that pass the checks of the LkTrackerSettings constructor the check of
line 443 never fails, so that the redetection is fatal only if the detection is, and the
budget max_feature_count - getNumPoints() of detectNewKeypointsInVisualFrame does not wrap:
it is max_feature_count for the empty grid of the bootstrap, and positive and at most
max_feature_count for the grid of the redetection, which holds fewer than min_feature_count
points. -/
theorem budget_never_wraps (t : FeatureTrackerLk) (hchecks : t.settings.checks) :
    (∀ (ext : Externals) (frame : VisualFrame) (g : OccupancyGrid),
      t.redetect ext frame g =
        if g.getNumPoints < t.settings.min_feature_count then
          t.detectNewKeypointsInVisualFrame ext frame (t.redetectionMask g) g
        else some g) ∧
    (∀ g : OccupancyGrid, g.getNumPoints < t.settings.min_feature_count →
      g.getNumPoints < t.settings.max_feature_count ∧
      sizeSub t.settings.max_feature_count g.getNumPoints =
        t.settings.max_feature_count - g.getNumPoints ∧
      0 < sizeSub t.settings.max_feature_count g.getNumPoints ∧
      sizeSub t.settings.max_feature_count g.getNumPoints ≤ t.settings.max_feature_count) ∧
    (t.newOccupancyGrid.getNumPoints = 0 ∧
      sizeSub t.settings.max_feature_count t.newOccupancyGrid.getNumPoints =
        t.settings.max_feature_count) ∧
    (∀ (ext : Externals) (image mask : Mat) (g : OccupancyGrid),
      g.getNumPoints < t.settings.min_feature_count ∨ g = t.newOccupancyGrid →
      t.newKeypoints ext image mask g =
        (t.detectNewKeypoints ext image (t.settings.max_feature_count - g.getNumPoints)
          mask).filter (fun k => !t.tooCloseToImageBorder k.pt)) := by
  have hmax : t.settings.min_feature_count < t.settings.max_feature_count :=
    hchecks.2.2.2.2.2.2.1
  have hsub : ∀ n : Nat, n ≤ t.settings.max_feature_count →
      sizeSub t.settings.max_feature_count n = t.settings.max_feature_count - n := by
    intro n hn
    unfold sizeSub
    rw [if_pos hn]
  have hzero : t.newOccupancyGrid.getNumPoints = 0 := by
    unfold OccupancyGrid.getNumPoints
    rw [(FeatureTrackerLk.newOccupancyGrid_dims t).2.2.2.2]
    rfl
  refine ⟨?_, ?_, ⟨hzero, ?_⟩, ?_⟩
  · intro ext frame g
    unfold FeatureTrackerLk.redetect
    by_cases h : g.getNumPoints < t.settings.min_feature_count
    · rw [if_pos h, if_pos h, if_pos (lt_trans h hmax)]
    · rw [if_neg h, if_neg h]
  · intro g h
    have hlt := lt_trans h hmax
    rw [hsub _ (le_of_lt hlt)]
    exact ⟨hlt, rfl, Nat.sub_pos_of_lt hlt, Nat.sub_le _ _⟩
  · rw [hzero, hsub 0 (Nat.zero_le _)]
    rfl
  · intro ext image mask g h
    have hle : g.getNumPoints ≤ t.settings.max_feature_count := by
      rcases h with h | h
      · exact le_of_lt (lt_trans h hmax)
      · rw [h, hzero]
        exact Nat.zero_le _
    unfold FeatureTrackerLk.newKeypoints
    rw [hsub _ hle]

/-- C24 on the scene: the settings of the scene pass the checks, and for a grid with one
point the redetection has the budget 2. -/
theorem budget_never_wraps_witness :
    Scene.tracker.settings.checks ∧
      sizeSub Scene.tracker.settings.max_feature_count
        (({ Scene.tracker.newOccupancyGrid with points := [Scene.point 5 5 Weight.max 0] } :
          OccupancyGrid).getNumPoints) = 2 :=
  ⟨by decide!,
    ((budget_never_wraps Scene.tracker (by decide!)).2.1
      { Scene.tracker.newOccupancyGrid with points := [Scene.point 5 5 Weight.max 0] }
      (by decide)).2.1⟩

/-- C25 fails on the scene, whose frame holds two entries in every channel: the index 2^31
becomes -2^31 in the check and the index 2^32 becomes 0, both are less than 2, the check
passes for each of the seven accessors, and the access reads outside the stored data.
The indices 2 and 2^31 - 1 are rejected. -/
theorem accessors_accept_wrapped_index :
    static_cast_int (2 ^ 31) = -2 ^ 31 ∧ static_cast_int (2 ^ 32) = 0 ∧
    Scene.frameChannels.getKeypointMeasurement (2 ^ 31) =
      Except.error AccessError.outOfBounds ∧
    Scene.frameChannels.getKeypointMeasurementUncertainty (2 ^ 31) =
      Except.error AccessError.outOfBounds ∧
    Scene.frameChannels.getKeypointScale (2 ^ 31) = Except.error AccessError.outOfBounds ∧
    Scene.frameChannels.getKeypointOrientation (2 ^ 31) =
      Except.error AccessError.outOfBounds ∧
    Scene.frameChannels.getKeypointScore (2 ^ 31) = Except.error AccessError.outOfBounds ∧
    Scene.frameChannels.getDescriptor (2 ^ 31) = Except.error AccessError.outOfBounds ∧
    Scene.frameChannels.getTrackId (2 ^ 31) = Except.error AccessError.outOfBounds ∧
    Scene.frameChannels.getKeypointMeasurement (2 ^ 32) =
      Except.error AccessError.outOfBounds ∧
    Scene.frameChannels.getTrackId (2 ^ 32) = Except.error AccessError.outOfBounds ∧
    Scene.frameChannels.getKeypointMeasurement 2 = Except.error AccessError.checkFailed ∧
    Scene.frameChannels.getTrackId (2 ^ 31 - 1) = Except.error AccessError.checkFailed :=
  ⟨rfl, rfl, rfl, rfl, rfl, rfl, rfl, rfl, rfl, rfl, rfl, rfl, rfl⟩

/-- C26 fails for the uncertainties: getKeypointMeasurementUncertainty reads `coeff(0, index)`
and so, for every stored vector and every index `0 < index < size` that passes the check,
outside the vector, where getKeypointScale, getKeypointOrientation and getKeypointScore read
`coeff(index, 0)` and return the element with the index `index` of the vector that their
setter stored. On the scene the uncertainty with index 1 of the stored vector (1/2, 7/10) is
not returned. -/
theorem uncertainty_accessor_reads_outside :
    (∀ (f : VisualFrame) (u : List ℚ) (index : Nat), 0 < index → index < u.length →
      index < 2 ^ 31 →
      (f.setKeypointMeasurementUncertainties u).getKeypointMeasurementUncertainty index =
        Except.error AccessError.outOfBounds) ∧
    (∀ (f : VisualFrame) (v : List ℚ) (index : Nat) (value : ℚ), v[index]? = some value →
      index < 2 ^ 31 →
      (f.setKeypointScales v).getKeypointScale index = Except.ok value ∧
      (f.setKeypointOrientations v).getKeypointOrientation index = Except.ok value ∧
      (f.setKeypointScores v).getKeypointScore index = Except.ok value) ∧
    (Scene.frame_kp1.setKeypointMeasurementUncertainties
      [1 / 2, 7 / 10]).getKeypointMeasurementUncertainty 1 =
        Except.error AccessError.outOfBounds ∧
    (Scene.frame_kp1.setKeypointMeasurementUncertainties
      [1 / 2, 7 / 10]).getKeypointMeasurementUncertainty 0 = Except.ok (1 / 2) ∧
    (Scene.frame_kp1.setKeypointScales [1 / 2, 7 / 10]).getKeypointScale 1 =
      Except.ok (7 / 10) := by
  refine ⟨?_, ?_, rfl, rfl, rfl⟩
  · intro f u index hpos hlt h31
    have hcheck : static_cast_int index < (u.length : Int) := by
      rw [static_cast_int_of_lt h31]
      exact_mod_cast hlt
    simp only [VisualFrame.getKeypointMeasurementUncertainty,
      VisualFrame.setKeypointMeasurementUncertainties, if_pos hcheck]
    exact coeff_zero_index u index hpos
  · intro f v index value hv h31
    have hlt : index < v.length := by
      by_contra hge
      rw [List.getElem?_eq_none (not_lt.mp hge)] at hv
      exact absurd hv (by simp)
    have hcheck : static_cast_int index < (v.length : Int) := by
      rw [static_cast_int_of_lt h31]
      exact_mod_cast hlt
    refine ⟨?_, ?_, ?_⟩
    · simp only [VisualFrame.getKeypointScale, VisualFrame.setKeypointScales, if_pos hcheck]
      exact coeff_index_zero v index value hv
    · simp only [VisualFrame.getKeypointOrientation, VisualFrame.setKeypointOrientations,
        if_pos hcheck]
      exact coeff_index_zero v index value hv
    · simp only [VisualFrame.getKeypointScore, VisualFrame.setKeypointScores, if_pos hcheck]
      exact coeff_index_zero v index value hv

/-- C27 fails: cloneRigWithoutDistortion gives the cameras of the clone new ids after the
copy constructor filled the map from ids to indices, and leaves the map as it is. On the
scene the cameras of the rig have the ids 7 and 8 and those of the clone the ids 100 and
101: the clone does not contain a camera with the id 100 of its camera 0 and has the index
-1 for it, and it contains the ids 7 and 8 of the cameras of the original rig. After the
construction of the rig the lookup is consistent. -/
theorem clone_keeps_stale_camera_ids :
    (∀ (n c : NCamera) (generateId : Nat → UniqueId),
      n.cloneRigWithoutDistortion generateId = some c →
      ∃ r, n.clone = some r ∧ c.id_to_index = r.id_to_index) ∧
    (Scene.rig.bind fun r => r.getCameraId 0) = some ⟨7⟩ ∧
    (Scene.rig.bind fun r => r.hasCameraWithId ⟨7⟩) = some true ∧
    (Scene.rig.bind fun r => r.getCameraIndex ⟨7⟩) = some 0 ∧
    (Scene.rig.bind fun r => r.getCameraIndex ⟨8⟩) = some 1 ∧
    ((Scene.rig.bind fun r => r.cloneRigWithoutDistortion Scene.generateId).bind
      fun c => c.getCameraId 0) = some ⟨100⟩ ∧
    ((Scene.rig.bind fun r => r.cloneRigWithoutDistortion Scene.generateId).bind
      fun c => c.getCameraId 1) = some ⟨101⟩ ∧
    ((Scene.rig.bind fun r => r.cloneRigWithoutDistortion Scene.generateId).bind
      fun c => c.hasCameraWithId ⟨100⟩) = some false ∧
    ((Scene.rig.bind fun r => r.cloneRigWithoutDistortion Scene.generateId).bind
      fun c => c.getCameraIndex ⟨100⟩) = some (-1) ∧
    ((Scene.rig.bind fun r => r.cloneRigWithoutDistortion Scene.generateId).bind
      fun c => c.getCameraIndex ⟨101⟩) = some (-1) ∧
    ((Scene.rig.bind fun r => r.cloneRigWithoutDistortion Scene.generateId).bind
      fun c => c.hasCameraWithId ⟨7⟩) = some true ∧
    ((Scene.rig.bind fun r => r.cloneRigWithoutDistortion Scene.generateId).bind
      fun c => c.hasCameraWithId ⟨8⟩) = some true := by
  refine ⟨?_, by decide, by decide, by decide, by decide, by decide, by decide, by decide,
    by decide, by decide, by decide, by decide⟩
  intro n c generateId h
  unfold NCamera.cloneRigWithoutDistortion at h
  split at h
  · exact absurd h (by simp)
  · rename_i r hr
    split at h
    · exact absurd h (by simp)
    · split_ifs at h
      simp only [Option.some.injEq] at h
      subst h
      exact ⟨r, hr, rfl⟩

/-- C28, as stated, fails: the back-projection of the keypoint (3, 5) succeeds, with a
bearing of depth 0, for which the projection of the raw camera is invalid. Both functions
return PROJECTION_INVALID for it, so the result is PROJECTION_INVALID although the
back-projection did not fail. -/
theorem projection_invalid_after_back_projection :
    Scene.projection.vectorizedAgrees ∧ Scene.projectionRaw.vectorizedAgrees ∧
    (Scene.projection.backProject3 ⟨3, 5⟩).2 = true ∧
    VisualFrame.toRawImageCoordinatesVectorized Scene.projection Scene.projectionRaw
      [⟨3, 5⟩] = some ([⟨4, 6⟩], [ProjectionResult.PROJECTION_INVALID]) ∧
    (VisualFrame.toRawImageCoordinates Scene.projection Scene.projectionRaw ⟨3, 5⟩ ⟨0, 0⟩).2 =
      ProjectionResult.PROJECTION_INVALID ∧
    ¬ ∀ (camera_geometry raw_camera_geometry : CameraProjection) (keypoint out : Point2f),
      camera_geometry.vectorizedAgrees → raw_camera_geometry.vectorizedAgrees →
      ((VisualFrame.toRawImageCoordinates camera_geometry raw_camera_geometry keypoint out).2 =
          ProjectionResult.PROJECTION_INVALID ↔
        (camera_geometry.backProject3 keypoint).2 = false) := by
  have ha : Scene.projection.vectorizedAgrees := ⟨fun _ => rfl, fun _ => rfl⟩
  have hb : Scene.projectionRaw.vectorizedAgrees := ⟨fun _ => rfl, fun _ => rfl⟩
  have hs : (Scene.projection.backProject3 ⟨3, 5⟩).2 = true := by decide!
  have hv : (VisualFrame.toRawImageCoordinates Scene.projection Scene.projectionRaw ⟨3, 5⟩
      ⟨0, 0⟩).2 = ProjectionResult.PROJECTION_INVALID := by decide!
  refine ⟨ha, hb, hs, by decide!, hv, ?_⟩
  intro h
  have h1 := (h Scene.projection Scene.projectionRaw ⟨3, 5⟩ ⟨0, 0⟩ ha hb).mp hv
  rw [hs] at h1
  exact absurd h1 (by decide)

/-- C28, amended: for cameras whose vectorized back-projection and projection do for every
column what the scalar routines do, toRawImageCoordinatesVectorized returns one result and
one pair of coordinates for every keypoint, and for the keypoint of every column the result
that toRawImageCoordinates returns for it: PROJECTION_INVALID when the back-projection of
the keypoint fails, else the result of the projection. When the back-projection succeeds the
coordinates of the column are those of toRawImageCoordinates. If the projection itself never
returns PROJECTION_INVALID, the result is PROJECTION_INVALID exactly when the
back-projection fails. -/
theorem toRawImageCoordinatesVectorized_agrees (camera_geometry raw_camera_geometry :
    CameraProjection) (keypoints : List Point2f) (out_image_coordinates : Point2f)
    (hc : camera_geometry.vectorizedAgrees) (hr : raw_camera_geometry.vectorizedAgrees) :
    ∃ out results,
      VisualFrame.toRawImageCoordinatesVectorized camera_geometry raw_camera_geometry
        keypoints = some (out, results) ∧
      results.length = keypoints.length ∧ out.length = keypoints.length ∧
      ∀ (i : Nat) (keypoint : Point2f), keypoints[i]? = some keypoint →
        results[i]? = some (VisualFrame.toRawImageCoordinates camera_geometry
          raw_camera_geometry keypoint out_image_coordinates).2 ∧
        ((camera_geometry.backProject3 keypoint).2 = false →
          results[i]? = some ProjectionResult.PROJECTION_INVALID) ∧
        ((camera_geometry.backProject3 keypoint).2 = true →
          out[i]? = some (VisualFrame.toRawImageCoordinates camera_geometry
            raw_camera_geometry keypoint out_image_coordinates).1) ∧
        ((∀ bearing, (raw_camera_geometry.project3 bearing).2 ≠
            ProjectionResult.PROJECTION_INVALID) →
          (results[i]? = some ProjectionResult.PROJECTION_INVALID ↔
            (camera_geometry.backProject3 keypoint).2 = false)) := by
  have hlen : 0 + (camera_geometry.backProject3Vectorized keypoints).2.length ≤
      (raw_camera_geometry.project3Vectorized
        (camera_geometry.backProject3Vectorized keypoints).1).2.length := by
    rw [hr.2, hc.1]
    simp
  obtain ⟨results, hres, hl, hj⟩ := VisualFrame.invalidateResults_spec _ 0 _ hlen
  have hpoint : ∀ (i : Nat) (keypoint : Point2f), keypoints[i]? = some keypoint →
      results[i]? = some (VisualFrame.toRawImageCoordinates camera_geometry
        raw_camera_geometry keypoint out_image_coordinates).2 := by
    intro i keypoint hk
    rw [hj i]
    simp only [hr.2, hc.1, Nat.zero_le, true_and, Nat.sub_zero, List.getElem?_map, hk,
      Option.map_some', Option.some.injEq, VisualFrame.toRawImageCoordinates]
    cases hb : (camera_geometry.backProject3 keypoint).2 <;> simp
  refine ⟨(raw_camera_geometry.project3Vectorized
    (camera_geometry.backProject3Vectorized keypoints).1).1, results, ?_, ?_, ?_, ?_⟩
  · unfold VisualFrame.toRawImageCoordinatesVectorized
    rw [hres]
  · rw [hl, hr.2, hc.1]
    simp
  · rw [hr.2, hc.1]
    simp
  · intro i keypoint hk
    have h1 := hpoint i keypoint hk
    refine ⟨h1, ?_, ?_, ?_⟩
    · intro hb
      rw [h1]
      simp [VisualFrame.toRawImageCoordinates, hb]
    · intro hb
      rw [hr.2, hc.1]
      simp [VisualFrame.toRawImageCoordinates, hb, hk]
    · intro hne
      rw [h1]
      cases hb : (camera_geometry.backProject3 keypoint).2
      · simp [VisualFrame.toRawImageCoordinates, hb]
      · simp [VisualFrame.toRawImageCoordinates, hb, hne]

/-- C28 on the scene: of three keypoints the second one is left of the image, where the
back-projection fails; the vectorized function returns three results, the second of them
PROJECTION_INVALID. -/
theorem toRawImageCoordinatesVectorized_agrees_witness :
    Scene.projection.vectorizedAgrees ∧
    ∃ out results,
      VisualFrame.toRawImageCoordinatesVectorized Scene.projection Scene.projection
        [⟨5, 5⟩, ⟨-1, 2⟩, ⟨2, 2⟩] = some (out, results) ∧
      results.length = 3 ∧
      results[1]? = some (VisualFrame.toRawImageCoordinates Scene.projection Scene.projection
        ⟨-1, 2⟩ ⟨0, 0⟩).2 :=
  ⟨⟨fun _ => rfl, fun _ => rfl⟩,
    (toRawImageCoordinatesVectorized_agrees Scene.projection Scene.projection
      [⟨5, 5⟩, ⟨-1, 2⟩, ⟨2, 2⟩] ⟨0, 0⟩ ⟨fun _ => rfl, fun _ => rfl⟩
      ⟨fun _ => rfl, fun _ => rfl⟩).elim fun out h1 => h1.elim fun results h2 =>
        ⟨out, results, h2.1, h2.2.1, (h2.2.2.2 1 ⟨-1, 2⟩ rfl).1⟩⟩

end aslam
